import Mathlib

/-! Carambolas native socket shim (`cnsock.c`): option and error translation,
and the socket operations built on it.

A shallow embedding of `src/Native/cnsock/src/cnsock.c` and of the constants of
`src/Carambolas.Net.Native/src/native.h`.

* C `int32_t` values are `Int`; `/` and `%` of C are `Int.tdiv` and `Int.tmod`
  (truncation toward zero); a conversion to `int32_t` is `wrapInt32`.
* Constants that come from the operating system headers (`errno.h`,
  `sys/socket.h`, `netinet/in.h`, `netinet/tcp.h`) are not part of the
  repository: they are the fields of `Errno` and `Platform`.  A macro that is
  tested with `#ifdef` is an `Option Int` field (`none`: not defined).
* The operating system itself is a parameter `Kernel W`: a deterministic state
  machine over an arbitrary world type `W`.  Every native call made by the
  shim is appended to a trace, so that "no native call is issued" is a
  statement about the trace.
* An output argument (`*sockfd`, `*optval`, `*endpoint`, `*nbytes`, `*result`)
  is an argument holding the content of the location before the call and a
  component of the result holding its content after the call.
* The caller's buffer is an address: the shim only forwards `&buffer[offset]`;
  the bytes belong to the world.  Native addresses are records of the members
  the shim reads or writes.
-/

namespace Carambolas

/-! ## Neutral error codes (`native.h`, and the `enum` of `cnsock.c`) -/

/-- `native.h`: an unspecified error has occurred. -/
abbrev CARAMBOLAS_NET_SOCKET_ERROR : Int := -1
/-- `native.h`: operation succeeded. -/
abbrev CARAMBOLAS_NET_SOCKET_ERROR_NONE : Int := 0
abbrev CARAMBOLAS_NET_SOCKET_ERROR_MESSAGESIZE : Int := 10040
abbrev CARAMBOLAS_NET_SOCKET_ERROR_ADDRESSFAMILYNOTSUPPORTED : Int := 10047

abbrev CARAMBOLAS_NET_SOCKET_ERROR_SocketError : Int := -1
abbrev CARAMBOLAS_NET_SOCKET_ERROR_Success : Int := 0
abbrev CARAMBOLAS_NET_SOCKET_ERROR_OperationAborted : Int := 995
abbrev CARAMBOLAS_NET_SOCKET_ERROR_IOPending : Int := 997
abbrev CARAMBOLAS_NET_SOCKET_ERROR_Interrupted : Int := 10004
abbrev CARAMBOLAS_NET_SOCKET_ERROR_AccessDenied : Int := 10013
abbrev CARAMBOLAS_NET_SOCKET_ERROR_Fault : Int := 10014
abbrev CARAMBOLAS_NET_SOCKET_ERROR_InvalidArgument : Int := 10022
abbrev CARAMBOLAS_NET_SOCKET_ERROR_TooManyOpenSockets : Int := 10024
abbrev CARAMBOLAS_NET_SOCKET_ERROR_WouldBlock : Int := 10035
abbrev CARAMBOLAS_NET_SOCKET_ERROR_InProgress : Int := 10036
abbrev CARAMBOLAS_NET_SOCKET_ERROR_AlreadyInProgress : Int := 10037
abbrev CARAMBOLAS_NET_SOCKET_ERROR_NotSocket : Int := 10038
abbrev CARAMBOLAS_NET_SOCKET_ERROR_DestinationAddressRequired : Int := 10039
abbrev CARAMBOLAS_NET_SOCKET_ERROR_MessageSize : Int := 10040
abbrev CARAMBOLAS_NET_SOCKET_ERROR_ProtocolType : Int := 10041
abbrev CARAMBOLAS_NET_SOCKET_ERROR_ProtocolOption : Int := 10042
abbrev CARAMBOLAS_NET_SOCKET_ERROR_ProtocolNotSupported : Int := 10043
abbrev CARAMBOLAS_NET_SOCKET_ERROR_SocketNotSupported : Int := 10044
abbrev CARAMBOLAS_NET_SOCKET_ERROR_OperationNotSupported : Int := 10045
abbrev CARAMBOLAS_NET_SOCKET_ERROR_ProtocolFamilyNotSupported : Int := 10046
abbrev CARAMBOLAS_NET_SOCKET_ERROR_AddressFamilyNotSupported : Int := 10047
abbrev CARAMBOLAS_NET_SOCKET_ERROR_AddressAlreadyInUse : Int := 10048
abbrev CARAMBOLAS_NET_SOCKET_ERROR_AddressNotAvailable : Int := 10049
abbrev CARAMBOLAS_NET_SOCKET_ERROR_NetworkDown : Int := 10050
abbrev CARAMBOLAS_NET_SOCKET_ERROR_NetworkUnreachable : Int := 10051
abbrev CARAMBOLAS_NET_SOCKET_ERROR_NetworkReset : Int := 10052
abbrev CARAMBOLAS_NET_SOCKET_ERROR_ConnectionAborted : Int := 10053
abbrev CARAMBOLAS_NET_SOCKET_ERROR_ConnectionReset : Int := 10054
abbrev CARAMBOLAS_NET_SOCKET_ERROR_NoBufferSpaceAvailable : Int := 10055
abbrev CARAMBOLAS_NET_SOCKET_ERROR_IsConnected : Int := 10056
abbrev CARAMBOLAS_NET_SOCKET_ERROR_NotConnected : Int := 10057
abbrev CARAMBOLAS_NET_SOCKET_ERROR_Shutdown : Int := 10058
abbrev CARAMBOLAS_NET_SOCKET_ERROR_TimedOut : Int := 10060
abbrev CARAMBOLAS_NET_SOCKET_ERROR_ConnectionRefused : Int := 10061
abbrev CARAMBOLAS_NET_SOCKET_ERROR_HostDown : Int := 10064
abbrev CARAMBOLAS_NET_SOCKET_ERROR_HostUnreachable : Int := 10065
abbrev CARAMBOLAS_NET_SOCKET_ERROR_ProcessLimit : Int := 10067
abbrev CARAMBOLAS_NET_SOCKET_ERROR_SystemNotReady : Int := 10091
abbrev CARAMBOLAS_NET_SOCKET_ERROR_VersionNotSupported : Int := 10092
abbrev CARAMBOLAS_NET_SOCKET_ERROR_NotInitialized : Int := 10093
abbrev CARAMBOLAS_NET_SOCKET_ERROR_Disconnecting : Int := 10101
abbrev CARAMBOLAS_NET_SOCKET_ERROR_TypeNotFound : Int := 10109
abbrev CARAMBOLAS_NET_SOCKET_ERROR_HostNotFound : Int := 11001
abbrev CARAMBOLAS_NET_SOCKET_ERROR_TryAgain : Int := 11002
abbrev CARAMBOLAS_NET_SOCKET_ERROR_NoRecovery : Int := 11003
abbrev CARAMBOLAS_NET_SOCKET_ERROR_NoData : Int := 11004

/-! ## Native `errno` constants -/

/-- The `errno.h` constants named by the case labels of
`carambolas_net_socket_geterror`.  Their values belong to the operating
system, not to the repository. -/
structure Errno where
  EACCES : Int
  EADDRINUSE : Int
  EADDRNOTAVAIL : Int
  EAFNOSUPPORT : Int
  EAGAIN : Int
  EALREADY : Int
  EBADF : Int
  ECANCELED : Int
  ECONNABORTED : Int
  ECONNREFUSED : Int
  ECONNRESET : Int
  EDESTADDRREQ : Int
  EFAULT : Int
  EHOSTDOWN : Int
  ENXIO : Int
  EHOSTUNREACH : Int
  EINPROGRESS : Int
  EINTR : Int
  EINVAL : Int
  EISCONN : Int
  EMFILE : Int
  EMSGSIZE : Int
  ENETDOWN : Int
  ENETRESET : Int
  ENETUNREACH : Int
  ENFILE : Int
  ENOBUFS : Int
  ENODATA : Int
  ENOENT : Int
  ENOPROTOOPT : Int
  ENOTCONN : Int
  ENOTSOCK : Int
  ENOTSUP : Int
  EPERM : Int
  EPIPE : Int
  EPFNOSUPPORT : Int
  EPROTONOSUPPORT : Int
  EPROTOTYPE : Int
  ESOCKTNOSUPPORT : Int
  ESHUTDOWN : Int
  ETIMEDOUT : Int

/-- The `errno` values of Linux (`asm-generic/errno-base.h`, `asm-generic/errno.h`). -/
def linuxErrno : Errno where
  EACCES := 13
  EADDRINUSE := 98
  EADDRNOTAVAIL := 99
  EAFNOSUPPORT := 97
  EAGAIN := 11
  EALREADY := 114
  EBADF := 9
  ECANCELED := 125
  ECONNABORTED := 103
  ECONNREFUSED := 111
  ECONNRESET := 104
  EDESTADDRREQ := 89
  EFAULT := 14
  EHOSTDOWN := 112
  ENXIO := 6
  EHOSTUNREACH := 113
  EINPROGRESS := 115
  EINTR := 4
  EINVAL := 22
  EISCONN := 106
  EMFILE := 24
  EMSGSIZE := 90
  ENETDOWN := 100
  ENETRESET := 102
  ENETUNREACH := 101
  ENFILE := 23
  ENOBUFS := 105
  ENODATA := 61
  ENOENT := 2
  ENOPROTOOPT := 92
  ENOTCONN := 107
  ENOTSOCK := 88
  ENOTSUP := 95
  EPERM := 1
  EPIPE := 32
  EPFNOSUPPORT := 96
  EPROTONOSUPPORT := 93
  EPROTOTYPE := 91
  ESOCKTNOSUPPORT := 94
  ESHUTDOWN := 108
  ETIMEDOUT := 110

/-- The `errno` values of macOS (`sys/errno.h`). -/
def osxErrno : Errno where
  EACCES := 13
  EADDRINUSE := 48
  EADDRNOTAVAIL := 49
  EAFNOSUPPORT := 47
  EAGAIN := 35
  EALREADY := 37
  EBADF := 9
  ECANCELED := 89
  ECONNABORTED := 53
  ECONNREFUSED := 61
  ECONNRESET := 54
  EDESTADDRREQ := 39
  EFAULT := 14
  EHOSTDOWN := 64
  ENXIO := 6
  EHOSTUNREACH := 65
  EINPROGRESS := 36
  EINTR := 4
  EINVAL := 22
  EISCONN := 56
  EMFILE := 24
  EMSGSIZE := 40
  ENETDOWN := 50
  ENETRESET := 52
  ENETUNREACH := 51
  ENFILE := 23
  ENOBUFS := 55
  ENODATA := 96
  ENOENT := 2
  ENOPROTOOPT := 42
  ENOTCONN := 57
  ENOTSOCK := 38
  ENOTSUP := 45
  EPERM := 1
  EPIPE := 32
  EPFNOSUPPORT := 46
  EPROTONOSUPPORT := 43
  EPROTOTYPE := 41
  ESOCKTNOSUPPORT := 44
  ESHUTDOWN := 58
  ETIMEDOUT := 60

/-! ## Error normalization -/

/-- The `case label: return value;` lines of the `switch` of
`carambolas_net_socket_geterror`, in source order. -/
def geterror_cases (E : Errno) : List (Int × Int) :=
  [ (E.EACCES, CARAMBOLAS_NET_SOCKET_ERROR_AccessDenied),
    (E.EADDRINUSE, CARAMBOLAS_NET_SOCKET_ERROR_AddressAlreadyInUse),
    (E.EADDRNOTAVAIL, CARAMBOLAS_NET_SOCKET_ERROR_AddressNotAvailable),
    (E.EAFNOSUPPORT, CARAMBOLAS_NET_SOCKET_ERROR_AddressFamilyNotSupported),
    (E.EAGAIN, CARAMBOLAS_NET_SOCKET_ERROR_WouldBlock),
    (E.EALREADY, CARAMBOLAS_NET_SOCKET_ERROR_AlreadyInProgress),
    (E.EBADF, CARAMBOLAS_NET_SOCKET_ERROR_OperationAborted),
    (E.ECANCELED, CARAMBOLAS_NET_SOCKET_ERROR_OperationAborted),
    (E.ECONNABORTED, CARAMBOLAS_NET_SOCKET_ERROR_ConnectionAborted),
    (E.ECONNREFUSED, CARAMBOLAS_NET_SOCKET_ERROR_ConnectionRefused),
    (E.ECONNRESET, CARAMBOLAS_NET_SOCKET_ERROR_ConnectionReset),
    (E.EDESTADDRREQ, CARAMBOLAS_NET_SOCKET_ERROR_DestinationAddressRequired),
    (E.EFAULT, CARAMBOLAS_NET_SOCKET_ERROR_Fault),
    (E.EHOSTDOWN, CARAMBOLAS_NET_SOCKET_ERROR_HostDown),
    (E.ENXIO, CARAMBOLAS_NET_SOCKET_ERROR_HostNotFound),
    (E.EHOSTUNREACH, CARAMBOLAS_NET_SOCKET_ERROR_HostUnreachable),
    (E.EINPROGRESS, CARAMBOLAS_NET_SOCKET_ERROR_InProgress),
    (E.EINTR, CARAMBOLAS_NET_SOCKET_ERROR_Interrupted),
    (E.EINVAL, CARAMBOLAS_NET_SOCKET_ERROR_InvalidArgument),
    (E.EISCONN, CARAMBOLAS_NET_SOCKET_ERROR_IsConnected),
    (E.EMFILE, CARAMBOLAS_NET_SOCKET_ERROR_TooManyOpenSockets),
    (E.EMSGSIZE, CARAMBOLAS_NET_SOCKET_ERROR_MessageSize),
    (E.ENETDOWN, CARAMBOLAS_NET_SOCKET_ERROR_NetworkDown),
    (E.ENETRESET, CARAMBOLAS_NET_SOCKET_ERROR_NetworkReset),
    (E.ENETUNREACH, CARAMBOLAS_NET_SOCKET_ERROR_NetworkUnreachable),
    (E.ENFILE, CARAMBOLAS_NET_SOCKET_ERROR_TooManyOpenSockets),
    (E.ENOBUFS, CARAMBOLAS_NET_SOCKET_ERROR_NoBufferSpaceAvailable),
    (E.ENODATA, CARAMBOLAS_NET_SOCKET_ERROR_NoData),
    (E.ENOENT, CARAMBOLAS_NET_SOCKET_ERROR_AddressNotAvailable),
    (E.ENOPROTOOPT, CARAMBOLAS_NET_SOCKET_ERROR_ProtocolOption),
    (E.ENOTCONN, CARAMBOLAS_NET_SOCKET_ERROR_NotConnected),
    (E.ENOTSOCK, CARAMBOLAS_NET_SOCKET_ERROR_NotSocket),
    (E.ENOTSUP, CARAMBOLAS_NET_SOCKET_ERROR_OperationNotSupported),
    (E.EPERM, CARAMBOLAS_NET_SOCKET_ERROR_AccessDenied),
    (E.EPIPE, CARAMBOLAS_NET_SOCKET_ERROR_Shutdown),
    (E.EPFNOSUPPORT, CARAMBOLAS_NET_SOCKET_ERROR_ProtocolFamilyNotSupported),
    (E.EPROTONOSUPPORT, CARAMBOLAS_NET_SOCKET_ERROR_ProtocolNotSupported),
    (E.EPROTOTYPE, CARAMBOLAS_NET_SOCKET_ERROR_ProtocolType),
    (E.ESOCKTNOSUPPORT, CARAMBOLAS_NET_SOCKET_ERROR_SocketNotSupported),
    (E.ESHUTDOWN, CARAMBOLAS_NET_SOCKET_ERROR_Disconnecting),
    (E.ETIMEDOUT, CARAMBOLAS_NET_SOCKET_ERROR_TimedOut) ]

/-- The case labels of the `switch`, in source order. -/
def geterror_labels (E : Errno) : List Int :=
  (geterror_cases E).map Prod.fst

/-- The `switch (code)` of `carambolas_net_socket_geterror`: the first case
whose label equals `code` returns; without one the `default:` returns
`CARAMBOLAS_NET_SOCKET_ERROR`.  (C requires the labels of one `switch` to be
pairwise distinct, so "first" is "the"; see `geterror_labels`.) -/
def carambolas_net_socket_geterror (E : Errno) (code : Int) : Int :=
  match (geterror_cases E).lookup code with
  | some r => r
  | none => CARAMBOLAS_NET_SOCKET_ERROR

/-! ## Neutral option vocabulary (`enum SocketOptionLevel`, `enum SocketOptionName`) -/

abbrev SocketOptionLevel_IP : Int := 0
abbrev SocketOptionLevel_Tcp : Int := 6
abbrev SocketOptionLevel_Udp : Int := 17
abbrev SocketOptionLevel_IPv6 : Int := 41
abbrev SocketOptionLevel_Socket : Int := 65535

abbrev SocketOptionName_DontLinger : Int := -129
abbrev SocketOptionName_ExclusiveAddressUse : Int := -5
abbrev SocketOptionName_Debug : Int := 1
abbrev SocketOptionName_IPOptions : Int := 1
abbrev SocketOptionName_NoChecksum : Int := 1
abbrev SocketOptionName_NoDelay : Int := 1
abbrev SocketOptionName_AcceptConnection : Int := 2
abbrev SocketOptionName_BsdUrgent : Int := 2
abbrev SocketOptionName_Expedited : Int := 2
abbrev SocketOptionName_HeaderIncluded : Int := 2
abbrev SocketOptionName_TypeOfService : Int := 3
abbrev SocketOptionName_IpTimeToLive : Int := 4
abbrev SocketOptionName_ReuseAddress : Int := 4
abbrev SocketOptionName_KeepAlive : Int := 8
abbrev SocketOptionName_MulticastInterface : Int := 9
abbrev SocketOptionName_MulticastTimeToLive : Int := 10
abbrev SocketOptionName_MulticastLoopback : Int := 11
abbrev SocketOptionName_AddMembership : Int := 12
abbrev SocketOptionName_DropMembership : Int := 13
abbrev SocketOptionName_DontFragment : Int := 14
abbrev SocketOptionName_AddSourceMembership : Int := 15
abbrev SocketOptionName_DontRoute : Int := 16
abbrev SocketOptionName_DropSourceMembership : Int := 16
abbrev SocketOptionName_BlockSource : Int := 17
abbrev SocketOptionName_UnblockSource : Int := 18
abbrev SocketOptionName_PacketInformation : Int := 19
abbrev SocketOptionName_ChecksumCoverage : Int := 20
abbrev SocketOptionName_HopLimit : Int := 21
abbrev SocketOptionName_IPProtectionLevel : Int := 23
abbrev SocketOptionName_IPv6Only : Int := 27
abbrev SocketOptionName_Broadcast : Int := 32
abbrev SocketOptionName_UseLoopback : Int := 64
abbrev SocketOptionName_Linger : Int := 128
abbrev SocketOptionName_OutOfBandInline : Int := 256
abbrev SocketOptionName_SendBuffer : Int := 4097
abbrev SocketOptionName_ReceiveBuffer : Int := 4098
abbrev SocketOptionName_SendLowWater : Int := 4099
abbrev SocketOptionName_ReceiveLowWater : Int := 4100
abbrev SocketOptionName_SendTimeout : Int := 4101
abbrev SocketOptionName_ReceiveTimeout : Int := 4102
abbrev SocketOptionName_Error : Int := 4103
abbrev SocketOptionName_Type : Int := 4104
abbrev SocketOptionName_ReuseUnicastPort : Int := 12295
abbrev SocketOptionName_UpdateAcceptContext : Int := 28683
abbrev SocketOptionName_UpdateConnectContext : Int := 28688
abbrev SocketOptionName_MaxConnections : Int := 0x7FFFFFFF

/-! ## The build variant -/

/-- A build variant of `cnsock.c`: the platform macros of `native.h`, the
feature macros tested by the source, and the values of the operating system
constants the source names.  A field of type `Option Int` is a constant that
the source tests with `#ifdef`; `none` means the headers do not define it. -/
structure Platform where
  /-- `native.h`: defined when `_WIN32` is. -/
  WINDOWS : Bool
  /-- `native.h`: defined when `__linux__` is (and `_WIN32` is not). -/
  LINUX : Bool
  /-- `HAVE_IP_DONTFRAGMENT` defined outside the source (compiler command line). -/
  D_HAVE_IP_DONTFRAGMENT : Bool
  /-- `HAVE_IP_MTU_DISCOVER` defined outside the source. -/
  D_HAVE_IP_MTU_DISCOVER : Bool
  /-- `HAVE_IP_PKTINFO`: the source never defines it itself. -/
  HAVE_IP_PKTINFO : Bool
  /-- `HAVE_IPV6_PKTINFO`: the source never defines it itself. -/
  HAVE_IPV6_PKTINFO : Bool
  errno : Errno
  SOL_SOCKET : Int
  SO_LINGER : Int
  SO_DEBUG : Option Int
  SO_ACCEPTCONN : Option Int
  SO_REUSEADDR : Int
  SO_KEEPALIVE : Int
  SO_DONTROUTE : Option Int
  SO_BROADCAST : Int
  SO_OOBINLINE : Option Int
  SO_SNDBUF : Int
  SO_RCVBUF : Int
  SO_SNDLOWAT : Int
  SO_RCVLOWAT : Int
  SO_SNDTIMEO : Int
  SO_RCVTIMEO : Int
  SO_ERROR : Int
  SO_TYPE : Int
  SO_EXCLUSIVEADDRUSE : Option Int
  SO_USELOOPBACK : Option Int
  SO_MAXCONN : Option Int
  SOMAXCONN : Option Int
  SO_REUSEPORT : Option Int
  IPPROTO_IP : Int
  IP_OPTIONS : Option Int
  IP_HDRINCL : Option Int
  IP_TOS : Option Int
  IP_TTL : Option Int
  IP_MULTICAST_IF : Int
  IP_MULTICAST_TTL : Int
  IP_MULTICAST_LOOP : Int
  IP_ADD_MEMBERSHIP : Int
  IP_DROP_MEMBERSHIP : Int
  /-- Read only under `HAVE_IP_PKTINFO`. -/
  IP_PKTINFO : Int
  /-- Read only under `HAVE_IP_DONTFRAGMENT`. -/
  IP_DONTFRAGMENT : Int
  /-- Read only under `HAVE_IP_MTU_DISCOVER` (and not `HAVE_IP_DONTFRAGMENT`). -/
  IP_MTU_DISCOVER : Int
  IPPROTO_IPV6 : Int
  IPV6_UNICAST_HOPS : Int
  IPV6_MULTICAST_IF : Int
  IPV6_MULTICAST_HOPS : Int
  IPV6_MULTICAST_LOOP : Int
  IPV6_JOIN_GROUP : Int
  IPV6_LEAVE_GROUP : Int
  IPV6_V6ONLY : Option Int
  /-- Read only under `HAVE_IPV6_PKTINFO`. -/
  IPV6_PKTINFO : Int
  IPPROTO_TCP : Int
  TCP_NODELAY : Int
  IPPROTO_UDP : Int
  SOCK_STREAM : Int
  SOCK_DGRAM : Int
  SOCK_CLOEXEC : Option Int
  AF_INET : Int
  AF_INET6 : Int
  PF_INET : Int
  PF_INET6 : Int
  /-- Read only when `WINDOWS` is not defined. -/
  MSG_TRUNC : Int
  FIONREAD : Int
  /-- Read only when `WINDOWS` is not defined. -/
  F_SETFL : Int
  /-- Read only when `WINDOWS` is not defined. -/
  O_NONBLOCK : Int
  /-- Read only under `WINDOWS`. -/
  FIONBIO : Int
  /-- Read only under `WINDOWS`. -/
  IOC_IN : Int
  /-- Read only under `WINDOWS`. -/
  IOC_VENDOR : Int
  /-- Width of the Windows type `SOCKET` (`UINT_PTR`); read only under `WINDOWS`. -/
  SOCKET_bits : Nat
  /-- Whether host byte order is network byte order (what `htons` depends on). -/
  bigEndian : Bool

/-- Lines 39-42 of `cnsock.c`: `#ifdef WINDOWS` defines `HAVE_IP_DONTFRAGMENT`. -/
def Platform.HAVE_IP_DONTFRAGMENT (P : Platform) : Bool :=
  P.WINDOWS || P.D_HAVE_IP_DONTFRAGMENT

/-- Lines 46-50 of `cnsock.c`: in the `#else` of `#ifdef WINDOWS`, `#ifdef LINUX`
defines `HAVE_IP_MTU_DISCOVER`. -/
def Platform.HAVE_IP_MTU_DISCOVER (P : Platform) : Bool :=
  (!P.WINDOWS && P.LINUX) || P.D_HAVE_IP_MTU_DISCOVER

/-- The Linux variant, with the constants of the Linux headers on the
architectures that use `asm-generic/socket.h` (x86, ARM, RISC-V), `linux/in.h`,
`linux/in6.h` and glibc `bits/socket.h`.  Linux has no `IP_DONTFRAGMENT`; the
field is never read because `HAVE_IP_DONTFRAGMENT` is off.  The fields read
only under `WINDOWS` for which Linux has no constant are 0. -/
def linux : Platform where
  WINDOWS := false
  LINUX := true
  D_HAVE_IP_DONTFRAGMENT := false
  D_HAVE_IP_MTU_DISCOVER := false
  HAVE_IP_PKTINFO := false
  HAVE_IPV6_PKTINFO := false
  errno := linuxErrno
  SOL_SOCKET := 1
  SO_LINGER := 13
  SO_DEBUG := some 1
  SO_ACCEPTCONN := some 30
  SO_REUSEADDR := 2
  SO_KEEPALIVE := 9
  SO_DONTROUTE := some 5
  SO_BROADCAST := 6
  SO_OOBINLINE := some 10
  SO_SNDBUF := 7
  SO_RCVBUF := 8
  SO_SNDLOWAT := 19
  SO_RCVLOWAT := 18
  SO_SNDTIMEO := 21
  SO_RCVTIMEO := 20
  SO_ERROR := 4
  SO_TYPE := 3
  SO_EXCLUSIVEADDRUSE := none
  SO_USELOOPBACK := none
  SO_MAXCONN := none
  SOMAXCONN := some 4096
  SO_REUSEPORT := some 15
  IPPROTO_IP := 0
  IP_OPTIONS := some 4
  IP_HDRINCL := some 3
  IP_TOS := some 1
  IP_TTL := some 2
  IP_MULTICAST_IF := 32
  IP_MULTICAST_TTL := 33
  IP_MULTICAST_LOOP := 34
  IP_ADD_MEMBERSHIP := 35
  IP_DROP_MEMBERSHIP := 36
  IP_PKTINFO := 8
  IP_DONTFRAGMENT := 0
  IP_MTU_DISCOVER := 10
  IPPROTO_IPV6 := 41
  IPV6_UNICAST_HOPS := 16
  IPV6_MULTICAST_IF := 17
  IPV6_MULTICAST_HOPS := 18
  IPV6_MULTICAST_LOOP := 19
  IPV6_JOIN_GROUP := 20
  IPV6_LEAVE_GROUP := 21
  IPV6_V6ONLY := some 26
  IPV6_PKTINFO := 50
  IPPROTO_TCP := 6
  TCP_NODELAY := 1
  IPPROTO_UDP := 17
  SOCK_STREAM := 1
  SOCK_DGRAM := 2
  SOCK_CLOEXEC := some 0x80000
  AF_INET := 2
  AF_INET6 := 10
  PF_INET := 2
  PF_INET6 := 10
  MSG_TRUNC := 0x20
  FIONREAD := 0x541B
  F_SETFL := 4
  O_NONBLOCK := 0x800
  FIONBIO := 0x5421
  IOC_IN := 0
  IOC_VENDOR := 0
  SOCKET_bits := 32
  bigEndian := false

/-- The macOS variant, with the constants of the Darwin headers
(`sys/socket.h`, `netinet/in.h`, `netinet6/in6.h`).  Darwin has neither
`IP_DONTFRAGMENT` nor `IP_MTU_DISCOVER`; the two fields are never read because
both feature macros are off.  The fields read only under
`WINDOWS` for which Darwin has no constant are 0. -/
def osx : Platform where
  WINDOWS := false
  LINUX := false
  D_HAVE_IP_DONTFRAGMENT := false
  D_HAVE_IP_MTU_DISCOVER := false
  HAVE_IP_PKTINFO := false
  HAVE_IPV6_PKTINFO := false
  errno := osxErrno
  SOL_SOCKET := 0xffff
  SO_LINGER := 0x0080
  SO_DEBUG := some 0x0001
  SO_ACCEPTCONN := some 0x0002
  SO_REUSEADDR := 0x0004
  SO_KEEPALIVE := 0x0008
  SO_DONTROUTE := some 0x0010
  SO_BROADCAST := 0x0020
  SO_OOBINLINE := some 0x0100
  SO_SNDBUF := 0x1001
  SO_RCVBUF := 0x1002
  SO_SNDLOWAT := 0x1003
  SO_RCVLOWAT := 0x1004
  SO_SNDTIMEO := 0x1005
  SO_RCVTIMEO := 0x1006
  SO_ERROR := 0x1007
  SO_TYPE := 0x1008
  SO_EXCLUSIVEADDRUSE := none
  SO_USELOOPBACK := some 0x0040
  SO_MAXCONN := none
  SOMAXCONN := some 128
  SO_REUSEPORT := some 0x0200
  IPPROTO_IP := 0
  IP_OPTIONS := some 1
  IP_HDRINCL := some 2
  IP_TOS := some 3
  IP_TTL := some 4
  IP_MULTICAST_IF := 9
  IP_MULTICAST_TTL := 10
  IP_MULTICAST_LOOP := 11
  IP_ADD_MEMBERSHIP := 12
  IP_DROP_MEMBERSHIP := 13
  IP_PKTINFO := 26
  IP_DONTFRAGMENT := 0
  IP_MTU_DISCOVER := 0
  IPPROTO_IPV6 := 41
  IPV6_UNICAST_HOPS := 4
  IPV6_MULTICAST_IF := 9
  IPV6_MULTICAST_HOPS := 10
  IPV6_MULTICAST_LOOP := 11
  IPV6_JOIN_GROUP := 12
  IPV6_LEAVE_GROUP := 13
  IPV6_V6ONLY := some 27
  IPV6_PKTINFO := 46
  IPPROTO_TCP := 6
  TCP_NODELAY := 1
  IPPROTO_UDP := 17
  SOCK_STREAM := 1
  SOCK_DGRAM := 2
  SOCK_CLOEXEC := none
  AF_INET := 2
  AF_INET6 := 30
  PF_INET := 2
  PF_INET6 := 30
  MSG_TRUNC := 0x10
  FIONREAD := 0x4004667f
  F_SETFL := 4
  O_NONBLOCK := 0x0004
  FIONBIO := 0x8004667e
  IOC_IN := 0x80000000
  IOC_VENDOR := 0
  SOCKET_bits := 32
  bigEndian := false

/-- The Windows variant (64-bit), with the constants of `winsock2.h`,
`ws2def.h`, `ws2ipdef.h` and `ws2tcpip.h`.  On Windows the shim passes option
levels and names through and takes the last error as it is, so the option
constants and the `errno` table are never read there; `errno` (Windows has no
value for four of its names), `IP_MTU_DISCOVER`, `F_SETFL` and `O_NONBLOCK`
are fillers. -/
def windows : Platform where
  WINDOWS := true
  LINUX := false
  D_HAVE_IP_DONTFRAGMENT := false
  D_HAVE_IP_MTU_DISCOVER := false
  HAVE_IP_PKTINFO := false
  HAVE_IPV6_PKTINFO := false
  errno := linuxErrno
  SOL_SOCKET := 0xffff
  SO_LINGER := 0x0080
  SO_DEBUG := some 0x0001
  SO_ACCEPTCONN := some 0x0002
  SO_REUSEADDR := 0x0004
  SO_KEEPALIVE := 0x0008
  SO_DONTROUTE := some 0x0010
  SO_BROADCAST := 0x0020
  SO_OOBINLINE := some 0x0100
  SO_SNDBUF := 0x1001
  SO_RCVBUF := 0x1002
  SO_SNDLOWAT := 0x1003
  SO_RCVLOWAT := 0x1004
  SO_SNDTIMEO := 0x1005
  SO_RCVTIMEO := 0x1006
  SO_ERROR := 0x1007
  SO_TYPE := 0x1008
  SO_EXCLUSIVEADDRUSE := some (-5)
  SO_USELOOPBACK := some 0x0040
  SO_MAXCONN := none
  SOMAXCONN := some 0x7fffffff
  SO_REUSEPORT := none
  IPPROTO_IP := 0
  IP_OPTIONS := some 1
  IP_HDRINCL := some 2
  IP_TOS := some 3
  IP_TTL := some 4
  IP_MULTICAST_IF := 9
  IP_MULTICAST_TTL := 10
  IP_MULTICAST_LOOP := 11
  IP_ADD_MEMBERSHIP := 12
  IP_DROP_MEMBERSHIP := 13
  IP_PKTINFO := 19
  IP_DONTFRAGMENT := 14
  IP_MTU_DISCOVER := 0
  IPPROTO_IPV6 := 41
  IPV6_UNICAST_HOPS := 4
  IPV6_MULTICAST_IF := 9
  IPV6_MULTICAST_HOPS := 10
  IPV6_MULTICAST_LOOP := 11
  IPV6_JOIN_GROUP := 12
  IPV6_LEAVE_GROUP := 13
  IPV6_V6ONLY := some 27
  IPV6_PKTINFO := 19
  IPPROTO_TCP := 6
  TCP_NODELAY := 1
  IPPROTO_UDP := 17
  SOCK_STREAM := 1
  SOCK_DGRAM := 2
  SOCK_CLOEXEC := none
  AF_INET := 2
  AF_INET6 := 23
  PF_INET := 2
  PF_INET6 := 23
  MSG_TRUNC := 0x0100
  FIONREAD := 0x4004667f
  F_SETFL := 0
  O_NONBLOCK := 0
  FIONBIO := 0x8004667e
  IOC_IN := 0x80000000
  IOC_VENDOR := 0x18000000
  SOCKET_bits := 64
  bigEndian := false

/-! ## Option resolution -/

/-- What a call of `carambolas_net_convert_sockopt` leaves behind: the returned
status (`0` resolved, `-1` unsupported, `-2` ignorable) and the contents of the
two output locations `*system_level` and `*system_name` after the call. -/
structure Sockopt where
  r : Int
  system_level : Int
  system_name : Int
  deriving DecidableEq, Repr

/-- The function `carambolas_net_convert_sockopt` of `cnsock.c`.  The last two
arguments are the contents of `*system_level` and `*system_name` before the
call: a path that does not assign an output location leaves its content as it
was.  A case label that sits inside an `#ifdef` whose macro is not defined does
not exist, so its value takes the `default:` of its `switch`. -/
def carambolas_net_convert_sockopt (P : Platform) (level optname : Int)
    (system_level system_name : Int) : Sockopt :=
  if level = SocketOptionLevel_Socket then
    -- *system_level = SOL_SOCKET;
    if optname = SocketOptionName_DontLinger then ⟨0, P.SOL_SOCKET, P.SO_LINGER⟩
    else if optname = SocketOptionName_Debug then
      match P.SO_DEBUG with
      | some v => ⟨0, P.SOL_SOCKET, v⟩
      | none => ⟨-1, P.SOL_SOCKET, system_name⟩
    else if optname = SocketOptionName_AcceptConnection then
      match P.SO_ACCEPTCONN with
      | some v => ⟨0, P.SOL_SOCKET, v⟩
      | none => ⟨-1, P.SOL_SOCKET, system_name⟩
    else if optname = SocketOptionName_ReuseAddress then ⟨0, P.SOL_SOCKET, P.SO_REUSEADDR⟩
    else if optname = SocketOptionName_KeepAlive then ⟨0, P.SOL_SOCKET, P.SO_KEEPALIVE⟩
    else if optname = SocketOptionName_DontRoute then
      match P.SO_DONTROUTE with
      | some v => ⟨0, P.SOL_SOCKET, v⟩
      | none => ⟨-1, P.SOL_SOCKET, system_name⟩
    else if optname = SocketOptionName_Broadcast then ⟨0, P.SOL_SOCKET, P.SO_BROADCAST⟩
    else if optname = SocketOptionName_Linger then ⟨0, P.SOL_SOCKET, P.SO_LINGER⟩
    else if optname = SocketOptionName_OutOfBandInline then
      match P.SO_OOBINLINE with
      | some v => ⟨0, P.SOL_SOCKET, v⟩
      | none => ⟨-1, P.SOL_SOCKET, system_name⟩
    else if optname = SocketOptionName_SendBuffer then ⟨0, P.SOL_SOCKET, P.SO_SNDBUF⟩
    else if optname = SocketOptionName_ReceiveBuffer then ⟨0, P.SOL_SOCKET, P.SO_RCVBUF⟩
    else if optname = SocketOptionName_SendLowWater then ⟨0, P.SOL_SOCKET, P.SO_SNDLOWAT⟩
    else if optname = SocketOptionName_ReceiveLowWater then ⟨0, P.SOL_SOCKET, P.SO_RCVLOWAT⟩
    else if optname = SocketOptionName_SendTimeout then ⟨0, P.SOL_SOCKET, P.SO_SNDTIMEO⟩
    else if optname = SocketOptionName_ReceiveTimeout then ⟨0, P.SOL_SOCKET, P.SO_RCVTIMEO⟩
    else if optname = SocketOptionName_Error then ⟨0, P.SOL_SOCKET, P.SO_ERROR⟩
    else if optname = SocketOptionName_Type then ⟨0, P.SOL_SOCKET, P.SO_TYPE⟩
    else if optname = SocketOptionName_ExclusiveAddressUse then
      match P.SO_EXCLUSIVEADDRUSE with
      | some v => ⟨0, P.SOL_SOCKET, v⟩
      | none => ⟨-2, P.SOL_SOCKET, system_name⟩
    else if optname = SocketOptionName_UseLoopback then
      match P.SO_USELOOPBACK with
      | some v => ⟨0, P.SOL_SOCKET, v⟩
      | none => ⟨-2, P.SOL_SOCKET, system_name⟩
    else if optname = SocketOptionName_MaxConnections then
      match P.SO_MAXCONN, P.SOMAXCONN with
      | some v, _ => ⟨0, P.SOL_SOCKET, v⟩
      | none, some v => ⟨0, P.SOL_SOCKET, v⟩
      | none, none => ⟨-2, P.SOL_SOCKET, system_name⟩
    else ⟨-1, P.SOL_SOCKET, system_name⟩
  else if level = SocketOptionLevel_IP then
    -- *system_level = IPPROTO_IP;
    if optname = SocketOptionName_IPOptions then
      match P.IP_OPTIONS with
      | some v => ⟨0, P.IPPROTO_IP, v⟩
      | none => ⟨-1, P.IPPROTO_IP, system_name⟩
    else if optname = SocketOptionName_HeaderIncluded then
      match P.IP_HDRINCL with
      | some v => ⟨0, P.IPPROTO_IP, v⟩
      | none => ⟨-1, P.IPPROTO_IP, system_name⟩
    else if optname = SocketOptionName_TypeOfService then
      match P.IP_TOS with
      | some v => ⟨0, P.IPPROTO_IP, v⟩
      | none => ⟨-1, P.IPPROTO_IP, system_name⟩
    else if optname = SocketOptionName_IpTimeToLive then
      match P.IP_TTL with
      | some v => ⟨0, P.IPPROTO_IP, v⟩
      | none => ⟨-1, P.IPPROTO_IP, system_name⟩
    else if optname = SocketOptionName_MulticastInterface then ⟨0, P.IPPROTO_IP, P.IP_MULTICAST_IF⟩
    else if optname = SocketOptionName_MulticastTimeToLive then ⟨0, P.IPPROTO_IP, P.IP_MULTICAST_TTL⟩
    else if optname = SocketOptionName_MulticastLoopback then ⟨0, P.IPPROTO_IP, P.IP_MULTICAST_LOOP⟩
    else if optname = SocketOptionName_AddMembership then ⟨0, P.IPPROTO_IP, P.IP_ADD_MEMBERSHIP⟩
    else if optname = SocketOptionName_DropMembership then ⟨0, P.IPPROTO_IP, P.IP_DROP_MEMBERSHIP⟩
    else if optname = SocketOptionName_PacketInformation then
      if P.HAVE_IP_PKTINFO then ⟨0, P.IPPROTO_IP, P.IP_PKTINFO⟩
      else ⟨-1, P.IPPROTO_IP, system_name⟩
    else if optname = SocketOptionName_DontFragment then
      if P.HAVE_IP_DONTFRAGMENT then ⟨0, P.IPPROTO_IP, P.IP_DONTFRAGMENT⟩
      else if P.HAVE_IP_MTU_DISCOVER then ⟨0, P.IPPROTO_IP, P.IP_MTU_DISCOVER⟩
      else ⟨-2, P.IPPROTO_IP, system_name⟩
    else ⟨-1, P.IPPROTO_IP, system_name⟩
  else if level = SocketOptionLevel_IPv6 then
    -- *system_level = IPPROTO_IPV6;
    if optname = SocketOptionName_IpTimeToLive ∨ optname = SocketOptionName_HopLimit then
      ⟨0, P.IPPROTO_IPV6, P.IPV6_UNICAST_HOPS⟩
    else if optname = SocketOptionName_MulticastInterface then ⟨0, P.IPPROTO_IPV6, P.IPV6_MULTICAST_IF⟩
    else if optname = SocketOptionName_MulticastTimeToLive then ⟨0, P.IPPROTO_IPV6, P.IPV6_MULTICAST_HOPS⟩
    else if optname = SocketOptionName_MulticastLoopback then ⟨0, P.IPPROTO_IPV6, P.IPV6_MULTICAST_LOOP⟩
    else if optname = SocketOptionName_AddMembership then ⟨0, P.IPPROTO_IPV6, P.IPV6_JOIN_GROUP⟩
    else if optname = SocketOptionName_DropMembership then ⟨0, P.IPPROTO_IPV6, P.IPV6_LEAVE_GROUP⟩
    else if optname = SocketOptionName_IPv6Only then
      match P.IPV6_V6ONLY with
      | some v => ⟨0, P.IPPROTO_IPV6, v⟩
      | none => ⟨-1, P.IPPROTO_IPV6, system_name⟩
    else if optname = SocketOptionName_PacketInformation then
      -- the assignment is inside `#ifdef HAVE_IPV6_PKTINFO`, the `break` is not
      if P.HAVE_IPV6_PKTINFO then ⟨0, P.IPPROTO_IPV6, P.IPV6_PKTINFO⟩
      else ⟨0, P.IPPROTO_IPV6, system_name⟩
    else ⟨-1, P.IPPROTO_IPV6, system_name⟩
  else if level = SocketOptionLevel_Tcp then
    -- *system_level = IPPROTO_TCP;
    if optname = SocketOptionName_NoDelay then ⟨0, P.IPPROTO_TCP, P.TCP_NODELAY⟩
    else ⟨-1, P.IPPROTO_TCP, system_name⟩
  else if level = SocketOptionLevel_Udp then
    -- *system_level = IPPROTO_UDP;
    ⟨-1, P.IPPROTO_UDP, system_name⟩
  else ⟨-1, system_level, system_name⟩

/-! ## The native layer -/

/-- The object `optptr` points to in a native `setsockopt` call, together with
its `optlen`: the 4-byte integer, or a `struct timeval`. -/
inductive OptVal where
  | int32 (v : Int)
  | timeval (tv_sec tv_usec : Int)
  deriving DecidableEq, Repr

/-- The buffer handed to a native `getsockopt` call: an `int32_t` with
`optlen = sizeof(int32_t)`, or a `struct timeval` with `optlen = sizeof(tv)`. -/
inductive OptBuf where
  | int32
  | timeval
  deriving DecidableEq, Repr

/-- The native `struct sockaddr_in`, as far as the shim sets it: the family,
the port in network byte order (the 16-bit value as the host reads it) and the
4 address bytes.  The remaining bytes are zero (`= {0}`). -/
structure sockaddr_in where
  sin_family : Int
  sin_port : Int
  sin_addr : List Nat
  deriving DecidableEq, Repr

/-- The native `struct sockaddr_in6`, as far as the shim sets it: the family,
the port in network byte order and the 16 address bytes.  `sin6_flowinfo` and
`sin6_scope_id` are zero (`= {0}`). -/
structure sockaddr_in6 where
  sin6_family : Int
  sin6_port : Int
  sin6_addr : List Nat
  deriving DecidableEq, Repr

/-- The `(const struct sockaddr*, socklen_t)` pair handed to the native `bind`
and `sendto`: a `sockaddr_in` or a `sockaddr_in6` with its size. -/
inductive sockaddr where
  | in4 (sa : sockaddr_in)
  | in6 (sa : sockaddr_in6)
  deriving DecidableEq, Repr

/-- The native `struct sockaddr_storage`, by the members the shim reads through
its two casts: the family, bytes 2-3 (`sin_port` and `sin6_port`), bytes 4-7
(`sin_addr`; `sin6_flowinfo` in the IPv6 view) and bytes 8-23 (`sin6_addr`;
`sin_zero` in the IPv4 view). -/
structure sockaddr_storage where
  ss_family : Int
  port : Int
  sin_addr : List Nat
  sin6_addr : List Nat
  deriving DecidableEq, Repr

/-- The bytes of a `sockaddr_in` or `sockaddr_in6` read as a zero-initialised
`sockaddr_storage` into which they were copied. -/
def sockaddr.storage : sockaddr → sockaddr_storage
  | sockaddr.in4 sa => ⟨sa.sin_family, sa.sin_port, sa.sin_addr, List.replicate 16 0⟩
  | sockaddr.in6 sa => ⟨sa.sin6_family, sa.sin6_port, List.replicate 4 0, sa.sin6_addr⟩

/-- A native call issued by the shim, with its arguments (the values of the C
argument expressions; a buffer is the address `&buffer[offset]`, an output
argument is not listed). -/
inductive Call where
  | setsockopt (sockfd level optname : Int) (optval : OptVal)
  | getsockopt (sockfd level optname : Int) (buf : OptBuf)
  | socket (domain type protocol : Int)
  | closesocket (sockfd : Int)
  | bind (sockfd : Int) (addr : sockaddr)
  | getsockname (sockfd : Int)
  | ioctlsocket (sockfd cmd arg : Int)
  | ioctl_FIONREAD (sockfd request : Int)
  | fcntl (sockfd cmd arg extra : Int)
  | select (nfds : Int) (readfds : List Int) (tv_sec tv_usec : Int)
  | recvfrom (sockfd buf len flags : Int)
  | sendto (sockfd buf len flags : Int) (dest : sockaddr)
  deriving DecidableEq, Repr

/-- The operating system, as far as the shim can observe it: every native call
maps the current world to a return code, the contents written to the output
buffer, and the next world.  `errno` reads the calling thread's last error
(`errno`, or `WSAGetLastError()` on Windows). -/
structure Kernel (W : Type) where
  errno : W → Int
  setsockopt : W → Int → Int → Int → OptVal → Int × W
  /-- `getsockopt` into an `int32_t` buffer: return code, buffer content after the call. -/
  getsockopt_int32 : W → Int → Int → Int → Int × Int × W
  /-- `getsockopt` into a `struct timeval`: return code, `(tv_sec, tv_usec)` after the call. -/
  getsockopt_timeval : W → Int → Int → Int → Int × (Int × Int) × W
  /-- `socket(domain, type, protocol)`: the handle, or `INVALID_SOCKET`. -/
  socket : W → Int → Int → Int → Int × W := fun w _ _ _ => (-1, w)
  /-- `closesocket(fd)` (`close(fd)` on the POSIX variants). -/
  closesocket : W → Int → Int × W := fun w _ => (-1, w)
  /-- `bind(fd, addr, addrlen)`. -/
  bind : W → Int → sockaddr → Int × W := fun w _ _ => (-1, w)
  /-- `getsockname(fd, &sas, &len)`: return code, `sas` after the call. -/
  getsockname : W → Int → Int × sockaddr_storage × W :=
    fun w _ => (-1, ⟨0, 0, [], []⟩, w)
  /-- Windows `ioctlsocket(s, cmd, &arg)` with the value of `arg` before the call. -/
  ioctlsocket : W → Int → Int → Int → Int × W := fun w _ _ _ => (-1, w)
  /-- `ioctl(fd, FIONREAD, &value)` (`ioctlsocket` on Windows): return code, `value`
  after the call. -/
  ioctl_FIONREAD : W → Int → Int → Int × Int × W := fun w _ _ => (-1, 0, w)
  /-- `fcntl(fd, cmd, arg, extra)`, with every argument the shim passes. -/
  fcntl : W → Int → Int → Int → Int → Int × W := fun w _ _ _ _ => (-1, w)
  /-- `select(nfds, &readfds, NULL, NULL, &time)`. -/
  select : W → Int → List Int → Int → Int → Int × W := fun w _ _ _ _ => (-1, w)
  /-- `recvfrom(fd, buf, len, flags, &sas, &sas_len)`: the result, `sas` after the call. -/
  recvfrom : W → Int → Int → Int → Int → Int × sockaddr_storage × W :=
    fun w _ _ _ _ => (-1, ⟨0, 0, [], []⟩, w)
  /-- `sendto(fd, buf, len, flags, dest, destlen)`. -/
  sendto : W → Int → Int → Int → Int → sockaddr → Int × W := fun w _ _ _ _ _ => (-1, w)

/-- The world together with the native calls issued so far, oldest first. -/
structure Sys (W : Type) where
  world : W
  trace : List Call
  deriving DecidableEq, Repr

/-- Issue the native `setsockopt` and record it. -/
def native_setsockopt {W : Type} (K : Kernel W) (s : Sys W)
    (sockfd level optname : Int) (optval : OptVal) : Int × Sys W :=
  let r := K.setsockopt s.world sockfd level optname optval
  (r.1, ⟨r.2, s.trace ++ [Call.setsockopt sockfd level optname optval]⟩)

/-- Issue the native `getsockopt` with an `int32_t` buffer and record it. -/
def native_getsockopt_int32 {W : Type} (K : Kernel W) (s : Sys W)
    (sockfd level optname : Int) : Int × Int × Sys W :=
  let r := K.getsockopt_int32 s.world sockfd level optname
  (r.1, r.2.1, ⟨r.2.2, s.trace ++ [Call.getsockopt sockfd level optname OptBuf.int32]⟩)

/-- Issue the native `getsockopt` with a `struct timeval` buffer and record it. -/
def native_getsockopt_timeval {W : Type} (K : Kernel W) (s : Sys W)
    (sockfd level optname : Int) : Int × (Int × Int) × Sys W :=
  let r := K.getsockopt_timeval s.world sockfd level optname
  (r.1, r.2.1, ⟨r.2.2, s.trace ++ [Call.getsockopt sockfd level optname OptBuf.timeval]⟩)

/-- Conversion of a C integer value to `int32_t` (two's complement wrap). -/
def wrapInt32 (x : Int) : Int :=
  (x + 2 ^ 31) % 2 ^ 32 - 2 ^ 31

/-- The function (POSIX) or macro (Windows) `carambolas_net_socket_getlasterror`. -/
def carambolas_net_socket_getlasterror {W : Type} (P : Platform) (K : Kernel W)
    (s : Sys W) : Int :=
  if P.WINDOWS then K.errno s.world
  else carambolas_net_socket_geterror P.errno (K.errno s.world)

/-! ## The facade: `set_option` and `get_option` -/

/-- Lines 571-594 of `carambolas_net_socket_setsockopt`: the object `optptr`
points to (with its `optlen`) when the native `setsockopt` is called, from the
native level and name and the caller's `optval`.  The buffer-size branch
exists only under `#if defined (LINUX)`. -/
def setsockopt_optptr (P : Platform) (level optname optval : Int) : OptVal :=
  if level = P.SOL_SOCKET ∧ (optname = P.SO_RCVTIMEO ∨ optname = P.SO_SNDTIMEO) then
    -- tv.tv_sec = optval / 1000; tv.tv_usec = (optval % 1000) * 1000;
    OptVal.timeval (Int.tdiv optval 1000) (Int.tmod optval 1000 * 1000)
  else if P.LINUX = true ∧ level = P.SOL_SOCKET
      ∧ (optname = P.SO_SNDBUF ∨ optname = P.SO_RCVBUF) then
    -- bufsize = optval; bufsize /= 2;
    OptVal.int32 (Int.tdiv optval 2)
  else OptVal.int32 optval

/-- The function `carambolas_net_socket_setsockopt`: returns the neutral error
code and the system after the call. -/
def carambolas_net_socket_setsockopt {W : Type} (P : Platform) (K : Kernel W) (s : Sys W)
    (sockfd level optname optval : Int) : Int × Sys W :=
  if P.WINDOWS then
    let p := native_setsockopt K s sockfd level optname (OptVal.int32 optval)
    if p.1 = 0 then (CARAMBOLAS_NET_SOCKET_ERROR_NONE, p.2)
    else (carambolas_net_socket_getlasterror P K p.2, p.2)
  else
    -- int32_t r = carambolas_net_convert_sockopt(level, optname, &level, &optname);
    let c := carambolas_net_convert_sockopt P level optname level optname
    if c.r = 0 then
      let level := c.system_level
      let optname := c.system_name
      let opt := setsockopt_optptr P level optname optval
      let p := native_setsockopt K s sockfd level optname opt
      if p.1 = 0 then
        match P.SO_REUSEPORT with
        | some reuseport =>
          if level = P.SOL_SOCKET ∧ optname = P.SO_REUSEADDR then
            let t := native_getsockopt_int32 K p.2 sockfd level P.SO_TYPE
            if t.1 = 0 then
              if t.2.1 ≠ P.SOCK_DGRAM ∧ t.2.1 ≠ P.SOCK_STREAM then
                (CARAMBOLAS_NET_SOCKET_ERROR_NONE, t.2.2)
              else
                let a := native_setsockopt K t.2.2 sockfd level reuseport opt
                if a.1 = 0 then (CARAMBOLAS_NET_SOCKET_ERROR_NONE, a.2)
                else (carambolas_net_socket_getlasterror P K a.2, a.2)
            else (carambolas_net_socket_getlasterror P K t.2.2, t.2.2)
          else (CARAMBOLAS_NET_SOCKET_ERROR_NONE, p.2)
        | none => (CARAMBOLAS_NET_SOCKET_ERROR_NONE, p.2)
      else (carambolas_net_socket_getlasterror P K p.2, p.2)
    else if c.r = -2 then (CARAMBOLAS_NET_SOCKET_ERROR_NONE, s)
    else (CARAMBOLAS_NET_SOCKET_ERROR_OperationNotSupported, s)

/-- The function `carambolas_net_socket_getsockopt`.  The argument `optval` is
the content of `*optval` before the call; the result is the neutral error
code, the content of `*optval` after the call, and the system after the call.
The timeval arithmetic is done in `long` and stored into an `int32_t`. -/
def carambolas_net_socket_getsockopt {W : Type} (P : Platform) (K : Kernel W) (s : Sys W)
    (sockfd level optname optval : Int) : Int × Int × Sys W :=
  if P.WINDOWS then
    let g := native_getsockopt_int32 K s sockfd level optname
    if g.1 = 0 then (CARAMBOLAS_NET_SOCKET_ERROR_NONE, g.2.1, g.2.2)
    else (carambolas_net_socket_getlasterror P K g.2.2, optval, g.2.2)
  else
    let c := carambolas_net_convert_sockopt P level optname level optname
    if c.r = 0 then
      let level := c.system_level
      let optname := c.system_name
      if level = P.SOL_SOCKET ∧ (optname = P.SO_RCVTIMEO ∨ optname = P.SO_SNDTIMEO) then
        -- optptr = &tv; optlen = sizeof(tv);
        let g := native_getsockopt_timeval K s sockfd level optname
        if g.1 = 0 then
          (CARAMBOLAS_NET_SOCKET_ERROR_NONE,
            wrapInt32 (g.2.1.1 * 1000 + Int.tdiv g.2.1.2 1000), g.2.2)
        else (carambolas_net_socket_getlasterror P K g.2.2, optval, g.2.2)
      else
        let g := native_getsockopt_int32 K s sockfd level optname
        if g.1 = 0 then
          if optname = P.SO_ERROR then
            (CARAMBOLAS_NET_SOCKET_ERROR_NONE,
              carambolas_net_socket_geterror P.errno g.2.1, g.2.2)
          else (CARAMBOLAS_NET_SOCKET_ERROR_NONE, g.2.1, g.2.2)
        else (carambolas_net_socket_getlasterror P K g.2.2, optval, g.2.2)
    else if c.r = -2 then (CARAMBOLAS_NET_SOCKET_ERROR_NONE, optval, s)
    else (CARAMBOLAS_NET_SOCKET_ERROR_OperationNotSupported, optval, s)

/-! ## Handles, endpoints and native addresses -/

/-- `native.h`: the neutral address-family tags. -/
abbrev CARAMBOLAS_NET_SOCKET_AF_IPV4 : Int := 2
abbrev CARAMBOLAS_NET_SOCKET_AF_IPV6 : Int := 23

/-- `INVALID_SOCKET`: `(-1)`, as line 19 of `cnsock.c` defines it on the POSIX
variants; on Windows `(SOCKET)(~0)` of the system headers. -/
def Platform.INVALID_SOCKET (P : Platform) : Int :=
  if P.WINDOWS then 2 ^ P.SOCKET_bits - 1 else -1

/-- The conversion of a `carambolas_net_socket_t` (`int32_t`) to `SOCKET`, which
is the unsigned `UINT_PTR` on Windows and `int32_t` itself on the POSIX
variants (line 16). -/
def Platform.toSOCKET (P : Platform) (sockfd : Int) : Int :=
  if P.WINDOWS then sockfd % 2 ^ P.SOCKET_bits else sockfd

/-- Lines 27-35: `SOCK_DGRAM | SOCK_CLOEXEC` under `#ifdef SOCK_CLOEXEC`, else
`SOCK_DGRAM`. -/
def CARAMBOLAS_NET_SOCKET_TYPE (P : Platform) : Int :=
  match P.SOCK_CLOEXEC with
  | some c => Int.lor P.SOCK_DGRAM c
  | none => P.SOCK_DGRAM

/-- Line 37. -/
def CARAMBOLAS_NET_SOCKET_PROTO (P : Platform) : Int :=
  P.IPPROTO_UDP

/-- Line 42: `(IOC_IN | IOC_VENDOR | 12)`. -/
def SIO_UDP_CONNRESET (P : Platform) : Int :=
  Int.lor (Int.lor P.IOC_IN P.IOC_VENDOR) 12

/-- The C library `htons` on a `uint16_t`: the identity on a big-endian host,
the swap of the two bytes on a little-endian one. -/
def htons (P : Platform) (x : Int) : Int :=
  if P.bigEndian then x % 65536 else x % 256 * 256 + x / 256 % 256

/-- The C library `ntohs`, the same function as `htons`. -/
def ntohs (P : Platform) (x : Int) : Int :=
  if P.bigEndian then x % 65536 else x % 256 * 256 + x / 256 % 256

/-- `native.h`: `carambolas_net_socket_endpoint_t`.  `ipv6` holds the 16 bytes of
the union; its other view is `zeros[10]`, `ffff` and, in bytes 12-15, `ipv4`. -/
structure carambolas_net_socket_endpoint_t where
  ipv6 : List Nat
  family : Int
  port : Int
  deriving DecidableEq, Repr

/-- The member `ipv4` of the union: bytes 12-15. -/
def carambolas_net_socket_endpoint_t.ipv4 (e : carambolas_net_socket_endpoint_t) :
    List Nat :=
  e.ipv6.drop 12

/-- Assignment to the member `ipv4`: bytes 12-15 are replaced. -/
def carambolas_net_socket_endpoint_t.set_ipv4 (e : carambolas_net_socket_endpoint_t)
    (a : List Nat) : carambolas_net_socket_endpoint_t :=
  { e with ipv6 := e.ipv6.take 12 ++ a }

/-- The initialiser `= {0}` of an endpoint. -/
def endpoint_zero : carambolas_net_socket_endpoint_t :=
  ⟨List.replicate 16 0, 0, 0⟩

/-- The function `carambolas_net_socket_sockaddr_in`. -/
def carambolas_net_socket_sockaddr_in (P : Platform)
    (endpoint : carambolas_net_socket_endpoint_t) : sockaddr_in :=
  { sin_family := P.AF_INET
    sin_addr := endpoint.ipv4
    sin_port := htons P endpoint.port }

/-- The function `carambolas_net_socket_sockaddr_in6`. -/
def carambolas_net_socket_sockaddr_in6 (P : Platform)
    (endpoint : carambolas_net_socket_endpoint_t) : sockaddr_in6 :=
  { sin6_family := P.AF_INET6
    sin6_addr := endpoint.ipv6
    sin6_port := htons P endpoint.port }

/-- The function `carambolas_net_socket_endpoint`. -/
def carambolas_net_socket_endpoint (P : Platform) (source : sockaddr_storage) :
    carambolas_net_socket_endpoint_t :=
  if source.ss_family = P.AF_INET then
    { endpoint_zero.set_ipv4 source.sin_addr with
      family := CARAMBOLAS_NET_SOCKET_AF_IPV4
      port := ntohs P source.port }
  else if source.ss_family = P.AF_INET6 then
    { endpoint_zero with
      ipv6 := source.sin6_addr
      family := CARAMBOLAS_NET_SOCKET_AF_IPV6
      port := ntohs P source.port }
  else endpoint_zero

/-! ## Native calls, recorded -/

def native_socket {W : Type} (K : Kernel W) (s : Sys W) (domain type protocol : Int) :
    Int × Sys W :=
  let r := K.socket s.world domain type protocol
  (r.1, ⟨r.2, s.trace ++ [Call.socket domain type protocol]⟩)

def native_closesocket {W : Type} (K : Kernel W) (s : Sys W) (sockfd : Int) : Int × Sys W :=
  let r := K.closesocket s.world sockfd
  (r.1, ⟨r.2, s.trace ++ [Call.closesocket sockfd]⟩)

def native_bind {W : Type} (K : Kernel W) (s : Sys W) (sockfd : Int) (addr : sockaddr) :
    Int × Sys W :=
  let r := K.bind s.world sockfd addr
  (r.1, ⟨r.2, s.trace ++ [Call.bind sockfd addr]⟩)

def native_getsockname {W : Type} (K : Kernel W) (s : Sys W) (sockfd : Int) :
    Int × sockaddr_storage × Sys W :=
  let r := K.getsockname s.world sockfd
  (r.1, r.2.1, ⟨r.2.2, s.trace ++ [Call.getsockname sockfd]⟩)

def native_ioctlsocket {W : Type} (K : Kernel W) (s : Sys W) (sockfd cmd arg : Int) :
    Int × Sys W :=
  let r := K.ioctlsocket s.world sockfd cmd arg
  (r.1, ⟨r.2, s.trace ++ [Call.ioctlsocket sockfd cmd arg]⟩)

def native_ioctl_FIONREAD {W : Type} (K : Kernel W) (s : Sys W) (sockfd request : Int) :
    Int × Int × Sys W :=
  let r := K.ioctl_FIONREAD s.world sockfd request
  (r.1, r.2.1, ⟨r.2.2, s.trace ++ [Call.ioctl_FIONREAD sockfd request]⟩)

def native_fcntl {W : Type} (K : Kernel W) (s : Sys W) (sockfd cmd arg extra : Int) :
    Int × Sys W :=
  let r := K.fcntl s.world sockfd cmd arg extra
  (r.1, ⟨r.2, s.trace ++ [Call.fcntl sockfd cmd arg extra]⟩)

def native_select {W : Type} (K : Kernel W) (s : Sys W) (nfds : Int) (readfds : List Int)
    (tv_sec tv_usec : Int) : Int × Sys W :=
  let r := K.select s.world nfds readfds tv_sec tv_usec
  (r.1, ⟨r.2, s.trace ++ [Call.select nfds readfds tv_sec tv_usec]⟩)

def native_recvfrom {W : Type} (K : Kernel W) (s : Sys W) (sockfd buf len flags : Int) :
    Int × sockaddr_storage × Sys W :=
  let r := K.recvfrom s.world sockfd buf len flags
  (r.1, r.2.1, ⟨r.2.2, s.trace ++ [Call.recvfrom sockfd buf len flags]⟩)

def native_sendto {W : Type} (K : Kernel W) (s : Sys W) (sockfd buf len flags : Int)
    (dest : sockaddr) : Int × Sys W :=
  let r := K.sendto s.world sockfd buf len flags dest
  (r.1, ⟨r.2, s.trace ++ [Call.sendto sockfd buf len flags dest]⟩)

/-! ## The facade: handles, blocking mode, bind, available, poll, receive, send -/

/-- The function `carambolas_net_socket_open`.  The argument `sockfd` is the
content of `*sockfd` before the call; the result is the error code, the
content of `*sockfd` after the call, and the system after the call. -/
def carambolas_net_socket_open {W : Type} (P : Platform) (K : Kernel W) (s : Sys W)
    (addressFamily sockfd : Int) : Int × Int × Sys W :=
  let created : Option (Int × Sys W) :=
    if addressFamily = CARAMBOLAS_NET_SOCKET_AF_IPV4 then
      some (native_socket K s P.PF_INET (CARAMBOLAS_NET_SOCKET_TYPE P)
        (CARAMBOLAS_NET_SOCKET_PROTO P))
    else if addressFamily = CARAMBOLAS_NET_SOCKET_AF_IPV6 then
      some (native_socket K s P.PF_INET6 (CARAMBOLAS_NET_SOCKET_TYPE P)
        (CARAMBOLAS_NET_SOCKET_PROTO P))
    else none
  match created with
  | none => (CARAMBOLAS_NET_SOCKET_ERROR_ADDRESSFAMILYNOTSUPPORTED, sockfd, s)
  | some h =>
    if h.1 = P.INVALID_SOCKET then (carambolas_net_socket_getlasterror P K h.2, sockfd, h.2)
    else if P.WINDOWS = true ∧ h.1 > 0xFFFFFFFF then
      -- closesocket(handle); return CARAMBOLAS_NET_SOCKET_ERROR;
      (CARAMBOLAS_NET_SOCKET_ERROR, sockfd, (native_closesocket K h.2 h.1).2)
    else (CARAMBOLAS_NET_SOCKET_ERROR_NONE, wrapInt32 h.1, h.2)

/-- The function `carambolas_net_socket_close`: it returns nothing; the result
is the system after the call.  The comparison is made in the type `SOCKET`. -/
def carambolas_net_socket_close {W : Type} (P : Platform) (K : Kernel W) (s : Sys W)
    (sockfd : Int) : Sys W :=
  if P.toSOCKET sockfd ≠ P.INVALID_SOCKET then (native_closesocket K s sockfd).2
  else s

/-- The function `carambolas_net_socket_setblocking`; `(value + 1) & 0x01` is the
low bit of `value + 1`. -/
def carambolas_net_socket_setblocking {W : Type} (P : Platform) (K : Kernel W) (s : Sys W)
    (sockfd value : Int) : Int × Sys W :=
  let nonBlocking := (value + 1) % 2
  if P.WINDOWS then
    let r := native_ioctlsocket K s sockfd P.FIONBIO nonBlocking
    if r.1 = 0 then (CARAMBOLAS_NET_SOCKET_ERROR_NONE, r.2)
    else (carambolas_net_socket_getlasterror P K r.2, r.2)
  else
    -- fcntl(sockfd, F_SETFL, O_NONBLOCK, nonBlocking)
    let r := native_fcntl K s sockfd P.F_SETFL P.O_NONBLOCK nonBlocking
    if r.1 = 0 then (CARAMBOLAS_NET_SOCKET_ERROR_NONE, r.2)
    else (carambolas_net_socket_getlasterror P K r.2, r.2)

/-- The function `carambolas_net_socket_getsockname`: error code, `*endpoint`
after the call, system after the call. -/
def carambolas_net_socket_getsockname {W : Type} (P : Platform) (K : Kernel W) (s : Sys W)
    (sockfd : Int) (endpoint : carambolas_net_socket_endpoint_t) :
    Int × carambolas_net_socket_endpoint_t × Sys W :=
  let r := native_getsockname K s sockfd
  if r.1 = 0 then
    (CARAMBOLAS_NET_SOCKET_ERROR_NONE, carambolas_net_socket_endpoint P r.2.1, r.2.2)
  else (carambolas_net_socket_getlasterror P K r.2.2, endpoint, r.2.2)

/-- The body that the IPv4 and the IPv6 branch of `carambolas_net_socket_bind`
both spell out, for the native address `sa` built in the branch. -/
def carambolas_net_socket_bind_sa {W : Type} (P : Platform) (K : Kernel W) (s : Sys W)
    (sockfd : Int) (endpoint : carambolas_net_socket_endpoint_t) (sa : sockaddr) :
    Int × carambolas_net_socket_endpoint_t × Sys W :=
  let b := native_bind K s sockfd sa
  if b.1 = 0 then
    let g := carambolas_net_socket_getsockname P K b.2 sockfd endpoint
    if g.1 = 0 then
      if P.WINDOWS then
        -- int value = 0; ioctlsocket(sockfd, SIO_UDP_CONNRESET, &value)
        let i := native_ioctlsocket K g.2.2 sockfd (SIO_UDP_CONNRESET P) 0
        if i.1 = 0 then (CARAMBOLAS_NET_SOCKET_ERROR_NONE, g.2.1, i.2)
        else (carambolas_net_socket_getlasterror P K i.2, g.2.1, i.2)
      else (CARAMBOLAS_NET_SOCKET_ERROR_NONE, g.2.1, g.2.2)
    else (carambolas_net_socket_getlasterror P K g.2.2, g.2.1, g.2.2)
  else (carambolas_net_socket_getlasterror P K b.2, endpoint, b.2)

/-- The function `carambolas_net_socket_bind`: error code, `*endpoint` after
the call, system after the call. -/
def carambolas_net_socket_bind {W : Type} (P : Platform) (K : Kernel W) (s : Sys W)
    (sockfd : Int) (endpoint : carambolas_net_socket_endpoint_t) :
    Int × carambolas_net_socket_endpoint_t × Sys W :=
  let af := endpoint.family
  if af = CARAMBOLAS_NET_SOCKET_AF_IPV4 then
    carambolas_net_socket_bind_sa P K s sockfd endpoint
      (sockaddr.in4 (carambolas_net_socket_sockaddr_in P endpoint))
  else if af = CARAMBOLAS_NET_SOCKET_AF_IPV6 then
    carambolas_net_socket_bind_sa P K s sockfd endpoint
      (sockaddr.in6 (carambolas_net_socket_sockaddr_in6 P endpoint))
  else (CARAMBOLAS_NET_SOCKET_ERROR_ADDRESSFAMILYNOTSUPPORTED, endpoint, s)

/-- The function `carambolas_net_socket_available`: error code, `*nbytes` after
the call, system after the call. -/
def carambolas_net_socket_available {W : Type} (P : Platform) (K : Kernel W) (s : Sys W)
    (sockfd nbytes : Int) : Int × Int × Sys W :=
  let r := native_ioctl_FIONREAD K s sockfd P.FIONREAD
  if r.1 = 0 then (CARAMBOLAS_NET_SOCKET_ERROR_NONE, wrapInt32 r.2.1, r.2.2)
  else (carambolas_net_socket_getlasterror P K r.2.2, nbytes, r.2.2)

/-- The function `carambolas_net_socket_poll`: error code, `*result` after the
call, system after the call.  `readfds` holds `sockfd` alone. -/
def carambolas_net_socket_poll {W : Type} (P : Platform) (K : Kernel W) (s : Sys W)
    (sockfd microseconds mode result : Int) : Int × Int × Sys W :=
  let r := native_select K s (sockfd + 1) [sockfd]
    (Int.tdiv microseconds 1000000) (Int.tmod microseconds 1000000)
  if r.1 < 0 then (carambolas_net_socket_getlasterror P K r.2, result, r.2)
  else (CARAMBOLAS_NET_SOCKET_ERROR_NONE, r.1, r.2)

/-- The function `carambolas_net_socket_recvfrom`: error code, `*endpoint` and
`*nbytes` after the call, system after the call.  `buffer` is the address of
the caller's buffer.  `*nbytes` is assigned on every path (its content before
the call is never read): the native result is stored into the `int32_t`
`*nbytes` before it is compared. -/
def carambolas_net_socket_recvfrom {W : Type} (P : Platform) (K : Kernel W) (s : Sys W)
    (sockfd buffer offset size : Int) (endpoint : carambolas_net_socket_endpoint_t) :
    Int × carambolas_net_socket_endpoint_t × Int × Sys W :=
  if P.WINDOWS then
    let r := native_recvfrom K s sockfd (buffer + offset) size 0
    let nbytes := wrapInt32 r.1
    if nbytes ≥ 0 then
      (CARAMBOLAS_NET_SOCKET_ERROR_NONE, carambolas_net_socket_endpoint P r.2.1, nbytes, r.2.2)
    else (carambolas_net_socket_getlasterror P K r.2.2, endpoint, nbytes, r.2.2)
  else
    let r := native_recvfrom K s sockfd (buffer + offset) size P.MSG_TRUNC
    let nbytes := wrapInt32 r.1
    if nbytes > size then
      (CARAMBOLAS_NET_SOCKET_ERROR_MESSAGESIZE, carambolas_net_socket_endpoint P r.2.1, size,
        r.2.2)
    else if nbytes ≥ 0 then
      (CARAMBOLAS_NET_SOCKET_ERROR_NONE, carambolas_net_socket_endpoint P r.2.1, nbytes, r.2.2)
    else (carambolas_net_socket_getlasterror P K r.2.2, endpoint, nbytes, r.2.2)

/-- The body that the IPv4 and the IPv6 branch of `carambolas_net_socket_sendto`
both spell out, for the native address `sa` built in the branch. -/
def carambolas_net_socket_sendto_sa {W : Type} (P : Platform) (K : Kernel W) (s : Sys W)
    (sockfd buffer offset size : Int) (sa : sockaddr) : Int × Int × Sys W :=
  let r := native_sendto K s sockfd (buffer + offset) size 0 sa
  let nbytes := wrapInt32 r.1
  if nbytes ≥ 0 then (CARAMBOLAS_NET_SOCKET_ERROR_NONE, nbytes, r.2)
  else (carambolas_net_socket_getlasterror P K r.2, nbytes, r.2)

/-- The function `carambolas_net_socket_sendto`: error code, `*nbytes` after the
call, system after the call. -/
def carambolas_net_socket_sendto {W : Type} (P : Platform) (K : Kernel W) (s : Sys W)
    (sockfd buffer offset size : Int) (endpoint : carambolas_net_socket_endpoint_t)
    (nbytes : Int) : Int × Int × Sys W :=
  let af := endpoint.family
  if af = CARAMBOLAS_NET_SOCKET_AF_IPV4 then
    carambolas_net_socket_sendto_sa P K s sockfd buffer offset size
      (sockaddr.in4 (carambolas_net_socket_sockaddr_in P endpoint))
  else if af = CARAMBOLAS_NET_SOCKET_AF_IPV6 then
    carambolas_net_socket_sendto_sa P K s sockfd buffer offset size
      (sockaddr.in6 (carambolas_net_socket_sockaddr_in6 P endpoint))
  else (CARAMBOLAS_NET_SOCKET_ERROR_ADDRESSFAMILYNOTSUPPORTED, nbytes, s)

/-- `native.h`, lines 43-90: every `CARAMBOLAS_NET_SOCKET_ERROR*` constant. -/
def neutral_error_constants : List Int :=
  [-1, 0, 995, 997, 10004, 10013, 10014, 10022, 10024, 10035, 10036, 10037, 10038, 10039,
    10040, 10041, 10042, 10043, 10044, 10045, 10046, 10047, 10048, 10049, 10050, 10051,
    10052, 10053, 10054, 10055, 10056, 10057, 10058, 10060, 10061, 10064, 10065, 10067,
    10091, 10092, 10093, 10101, 10109, 11001, 11002, 11003, 11004]

/-- The native names that the socket-level keys other than ReuseAddress can
resolve to on the variant `P` (the right-hand sides of the socket-level
`switch` of `carambolas_net_convert_sockopt`, `SO_REUSEADDR` left out). -/
def Platform.otherSocketNames (P : Platform) : List Int :=
  [P.SO_LINGER, P.SO_KEEPALIVE, P.SO_BROADCAST, P.SO_SNDBUF, P.SO_RCVBUF, P.SO_SNDLOWAT,
    P.SO_RCVLOWAT, P.SO_SNDTIMEO, P.SO_RCVTIMEO, P.SO_ERROR, P.SO_TYPE]
  ++ P.SO_DEBUG.toList ++ P.SO_ACCEPTCONN.toList ++ P.SO_DONTROUTE.toList
  ++ P.SO_OOBINLINE.toList ++ P.SO_EXCLUSIVEADDRUSE.toList ++ P.SO_USELOOPBACK.toList
  ++ (match P.SO_MAXCONN with
      | some v => [v]
      | none => P.SOMAXCONN.toList)

/-! ## A concrete native layer, to run the shim on -/

/-- The world of `storeKernel`: the option values stored so far (newest
first), the option names the kernel refuses to set, and `errno`. -/
structure StoreWorld where
  opts : List ((Int × Int × Int) × OptVal)
  refused : List Int
  errno : Int
  deriving DecidableEq, Repr

/-- A kernel that stores every option value it is given, unchanged, under
`(sockfd, level, optname)`, and reads it back; setting a refused name, or
reading a value that was never stored or has the other size, fails with
`errno = 92` (Linux `ENOPROTOOPT`). -/
def storeKernel : Kernel StoreWorld where
  errno := fun w => w.errno
  setsockopt := fun w sockfd level optname v =>
    if optname ∈ w.refused then (-1, { w with errno := 92 })
    else (0, { w with opts := ((sockfd, level, optname), v) :: w.opts })
  getsockopt_int32 := fun w sockfd level optname =>
    match w.opts.lookup (sockfd, level, optname) with
    | some (OptVal.int32 v) => (0, v, w)
    | _ => (-1, 0, { w with errno := 92 })
  getsockopt_timeval := fun w sockfd level optname =>
    match w.opts.lookup (sockfd, level, optname) with
    | some (OptVal.timeval a b) => (0, (a, b), w)
    | _ => (-1, (0, 0), { w with errno := 92 })

/-- A fresh world of `storeKernel`: nothing stored, nothing refused. -/
def storeEmpty : Sys StoreWorld :=
  ⟨⟨[], [], 0⟩, []⟩

/-- A world of `storeKernel` for socket 3 in which the Linux socket-level
option `SO_TYPE` (level 1, name 3) holds `ty`, and the option names in
`refused` cannot be set. -/
def storeWithType (ty : Int) (refused : List Int) : Sys StoreWorld :=
  ⟨⟨[((3, 1, 3), OptVal.int32 ty)], refused, 0⟩, []⟩

/-- The world of `scriptKernel`: the results of the coming native calls in
order (a handle, a return code or a byte count), the address and the value
that a call with an output writes, and the last error. -/
structure ScriptWorld where
  replies : List Int
  addr : sockaddr_storage
  value : Int
  errno : Int
  deriving DecidableEq, Repr

/-- The result of the next native call of a script, `-1` when the script is
over, and the rest of the script. -/
def ScriptWorld.next (w : ScriptWorld) : Int × ScriptWorld :=
  match w.replies with
  | [] => (-1, w)
  | r :: rest => (r, { w with replies := rest })

/-- A kernel that answers every native call with the next result of its
script, whatever the arguments. -/
def scriptKernel : Kernel ScriptWorld where
  errno := fun w => w.errno
  setsockopt := fun w _ _ _ _ => w.next
  getsockopt_int32 := fun w _ _ _ => (w.next.1, w.value, w.next.2)
  getsockopt_timeval := fun w _ _ _ => (w.next.1, (w.value, 0), w.next.2)
  socket := fun w _ _ _ => w.next
  closesocket := fun w _ => w.next
  bind := fun w _ _ => w.next
  getsockname := fun w _ => (w.next.1, w.addr, w.next.2)
  ioctlsocket := fun w _ _ _ => w.next
  ioctl_FIONREAD := fun w _ _ => (w.next.1, w.value, w.next.2)
  fcntl := fun w _ _ _ _ => w.next
  select := fun w _ _ _ _ => w.next
  recvfrom := fun w _ _ _ _ => (w.next.1, w.addr, w.next.2)
  sendto := fun w _ _ _ _ _ => w.next

/-- A system that starts a script: native results `replies`, address written
`addr`, value written `value`, last error `errno`, no call issued yet. -/
def script (replies : List Int) (addr : sockaddr_storage) (value errno : Int) :
    Sys ScriptWorld :=
  ⟨⟨replies, addr, value, errno⟩, []⟩

/-- What the native layer reads of a call.  POSIX `fcntl(fd, F_SETFL, arg)`
takes exactly one argument after the command, the new status flags; an
argument passed after it is not read. -/
def Call.read : Call → Call
  | Call.fcntl sockfd cmd arg _ => Call.fcntl sockfd cmd arg 0
  | c => c

/-! # Theorems -/

/-! ## Facts about `List.lookup` used for the `switch` of `geterror` -/

theorem lookup_eq_none_iff_not_mem (code : Int) (l : List (Int × Int)) :
    l.lookup code = none ↔ code ∉ l.map Prod.fst := by
  induction l with
  | nil => simp
  | cons hd tl ih =>
    obtain ⟨k, v⟩ := hd
    by_cases h : code = k
    · subst h
      simp [List.lookup]
    · have h2 : (code == k) = false := by simpa using h
      simp [List.lookup, h2, ih, h]

theorem lookup_mem_values (code r : Int) (l : List (Int × Int))
    (h : l.lookup code = some r) : r ∈ l.map Prod.snd := by
  induction l with
  | nil => simp at h
  | cons hd tl ih =>
    obtain ⟨k, v⟩ := hd
    by_cases hk : code = k
    · subst hk
      simp [List.lookup] at h
      simp [h]
    · have h2 : (code == k) = false := by simpa using hk
      simp only [List.lookup, h2] at h
      simp [ih h]

theorem lookup_of_mem_nodup (code r : Int) (l : List (Int × Int))
    (hn : (l.map Prod.fst).Nodup) (hm : (code, r) ∈ l) : l.lookup code = some r := by
  induction l with
  | nil => simp at hm
  | cons hd tl ih =>
    obtain ⟨k, v⟩ := hd
    simp only [List.map_cons, List.nodup_cons] at hn
    rcases List.mem_cons.mp hm with h | h
    · injection h with h1 h2
      subst h1; subst h2
      simp [List.lookup]
    · have hne : code ≠ k := by
        rintro rfl
        exact hn.1 (List.mem_map.mpr ⟨(code, r), h, rfl⟩)
      have h2 : (code == k) = false := by simpa using hne
      simp only [List.lookup, h2]
      exact ih hn.2 h

/-! ## Error normalization -/

theorem geterror_of_case (E : Errno) (code r : Int) (hn : (geterror_labels E).Nodup)
    (hm : (code, r) ∈ geterror_cases E) : carambolas_net_socket_geterror E code = r := by
  unfold carambolas_net_socket_geterror
  rw [lookup_of_mem_nodup code r (geterror_cases E) hn hm]

theorem geterror_case_values_ne_generic (E : Errno) :
    ∀ r ∈ (geterror_cases E).map Prod.snd, r ≠ CARAMBOLAS_NET_SOCKET_ERROR := by
  simp only [geterror_cases, List.map_cons, List.map_nil]
  decide

/-- C1: error normalization is total with a generic fallback: for every native
code, `carambolas_net_socket_geterror` returns the generic value `-1` if and
only if the code is not one of the case labels of the `switch`; so every code
that is a case label yields a value different from `-1`. -/
theorem geterror_generic_iff_unlisted (E : Errno) (code : Int) :
    carambolas_net_socket_geterror E code = -1 ↔ code ∉ geterror_labels E := by
  unfold carambolas_net_socket_geterror geterror_labels
  rw [← lookup_eq_none_iff_not_mem]
  cases h : (geterror_cases E).lookup code with
  | none => simp
  | some r =>
    have := geterror_case_values_ne_generic E r (lookup_mem_values code r _ h)
    simpa using this

/-- C2: when the case labels are pairwise distinct (which C demands of a
`switch`), every required native condition is mapped to the neutral code of
that condition; `EACCES` and `EPERM` share AccessDenied, `EMFILE` and `ENFILE`
share TooManyOpenSockets. -/
theorem geterror_required_conditions (E : Errno) (h : (geterror_labels E).Nodup) :
    carambolas_net_socket_geterror E E.EACCES = 10013
    ∧ carambolas_net_socket_geterror E E.EPERM = 10013
    ∧ carambolas_net_socket_geterror E E.EADDRINUSE = 10048
    ∧ carambolas_net_socket_geterror E E.EADDRNOTAVAIL = 10049
    ∧ carambolas_net_socket_geterror E E.EAFNOSUPPORT = 10047
    ∧ carambolas_net_socket_geterror E E.EPROTONOSUPPORT = 10043
    ∧ carambolas_net_socket_geterror E E.EPROTOTYPE = 10041
    ∧ carambolas_net_socket_geterror E E.ESOCKTNOSUPPORT = 10044
    ∧ carambolas_net_socket_geterror E E.EAGAIN = 10035
    ∧ carambolas_net_socket_geterror E E.EALREADY = 10037
    ∧ carambolas_net_socket_geterror E E.EINPROGRESS = 10036
    ∧ carambolas_net_socket_geterror E E.ECONNABORTED = 10053
    ∧ carambolas_net_socket_geterror E E.ECONNREFUSED = 10061
    ∧ carambolas_net_socket_geterror E E.ECONNRESET = 10054
    ∧ carambolas_net_socket_geterror E E.EDESTADDRREQ = 10039
    ∧ carambolas_net_socket_geterror E E.EFAULT = 10014
    ∧ carambolas_net_socket_geterror E E.EHOSTDOWN = 10064
    ∧ carambolas_net_socket_geterror E E.EHOSTUNREACH = 10065
    ∧ carambolas_net_socket_geterror E E.ENXIO = 11001
    ∧ carambolas_net_socket_geterror E E.EMSGSIZE = 10040
    ∧ carambolas_net_socket_geterror E E.ENETDOWN = 10050
    ∧ carambolas_net_socket_geterror E E.ENETUNREACH = 10051
    ∧ carambolas_net_socket_geterror E E.ENETRESET = 10052
    ∧ carambolas_net_socket_geterror E E.ENOBUFS = 10055
    ∧ carambolas_net_socket_geterror E E.ENOTCONN = 10057
    ∧ carambolas_net_socket_geterror E E.ENOTSOCK = 10038
    ∧ carambolas_net_socket_geterror E E.ESHUTDOWN = 10101
    ∧ carambolas_net_socket_geterror E E.ETIMEDOUT = 10060
    ∧ carambolas_net_socket_geterror E E.EMFILE = 10024
    ∧ carambolas_net_socket_geterror E E.ENFILE = 10024 := by
  refine ⟨?_, ?_, ?_, ?_, ?_, ?_, ?_, ?_, ?_, ?_, ?_, ?_, ?_, ?_, ?_, ?_, ?_, ?_, ?_, ?_, ?_, ?_, ?_, ?_, ?_, ?_, ?_, ?_, ?_, ?_⟩
  · exact geterror_of_case E _ _ h (by simp [geterror_cases])
  · exact geterror_of_case E _ _ h (by simp [geterror_cases])
  · exact geterror_of_case E _ _ h (by simp [geterror_cases])
  · exact geterror_of_case E _ _ h (by simp [geterror_cases])
  · exact geterror_of_case E _ _ h (by simp [geterror_cases])
  · exact geterror_of_case E _ _ h (by simp [geterror_cases])
  · exact geterror_of_case E _ _ h (by simp [geterror_cases])
  · exact geterror_of_case E _ _ h (by simp [geterror_cases])
  · exact geterror_of_case E _ _ h (by simp [geterror_cases])
  · exact geterror_of_case E _ _ h (by simp [geterror_cases])
  · exact geterror_of_case E _ _ h (by simp [geterror_cases])
  · exact geterror_of_case E _ _ h (by simp [geterror_cases])
  · exact geterror_of_case E _ _ h (by simp [geterror_cases])
  · exact geterror_of_case E _ _ h (by simp [geterror_cases])
  · exact geterror_of_case E _ _ h (by simp [geterror_cases])
  · exact geterror_of_case E _ _ h (by simp [geterror_cases])
  · exact geterror_of_case E _ _ h (by simp [geterror_cases])
  · exact geterror_of_case E _ _ h (by simp [geterror_cases])
  · exact geterror_of_case E _ _ h (by simp [geterror_cases])
  · exact geterror_of_case E _ _ h (by simp [geterror_cases])
  · exact geterror_of_case E _ _ h (by simp [geterror_cases])
  · exact geterror_of_case E _ _ h (by simp [geterror_cases])
  · exact geterror_of_case E _ _ h (by simp [geterror_cases])
  · exact geterror_of_case E _ _ h (by simp [geterror_cases])
  · exact geterror_of_case E _ _ h (by simp [geterror_cases])
  · exact geterror_of_case E _ _ h (by simp [geterror_cases])
  · exact geterror_of_case E _ _ h (by simp [geterror_cases])
  · exact geterror_of_case E _ _ h (by simp [geterror_cases])
  · exact geterror_of_case E _ _ h (by simp [geterror_cases])
  · exact geterror_of_case E _ _ h (by simp [geterror_cases])

/-- Witness for C2: the Linux `errno` values are pairwise distinct, and the
required mapping holds there. -/
theorem geterror_required_conditions_witness :
    (geterror_labels linuxErrno).Nodup
    ∧ carambolas_net_socket_geterror linuxErrno linuxErrno.EACCES = 10013
    ∧ carambolas_net_socket_geterror linuxErrno linuxErrno.EPERM = 10013
    ∧ carambolas_net_socket_geterror linuxErrno linuxErrno.EADDRINUSE = 10048
    ∧ carambolas_net_socket_geterror linuxErrno linuxErrno.EADDRNOTAVAIL = 10049
    ∧ carambolas_net_socket_geterror linuxErrno linuxErrno.EAFNOSUPPORT = 10047
    ∧ carambolas_net_socket_geterror linuxErrno linuxErrno.EPROTONOSUPPORT = 10043
    ∧ carambolas_net_socket_geterror linuxErrno linuxErrno.EPROTOTYPE = 10041
    ∧ carambolas_net_socket_geterror linuxErrno linuxErrno.ESOCKTNOSUPPORT = 10044
    ∧ carambolas_net_socket_geterror linuxErrno linuxErrno.EAGAIN = 10035
    ∧ carambolas_net_socket_geterror linuxErrno linuxErrno.EALREADY = 10037
    ∧ carambolas_net_socket_geterror linuxErrno linuxErrno.EINPROGRESS = 10036
    ∧ carambolas_net_socket_geterror linuxErrno linuxErrno.ECONNABORTED = 10053
    ∧ carambolas_net_socket_geterror linuxErrno linuxErrno.ECONNREFUSED = 10061
    ∧ carambolas_net_socket_geterror linuxErrno linuxErrno.ECONNRESET = 10054
    ∧ carambolas_net_socket_geterror linuxErrno linuxErrno.EDESTADDRREQ = 10039
    ∧ carambolas_net_socket_geterror linuxErrno linuxErrno.EFAULT = 10014
    ∧ carambolas_net_socket_geterror linuxErrno linuxErrno.EHOSTDOWN = 10064
    ∧ carambolas_net_socket_geterror linuxErrno linuxErrno.EHOSTUNREACH = 10065
    ∧ carambolas_net_socket_geterror linuxErrno linuxErrno.ENXIO = 11001
    ∧ carambolas_net_socket_geterror linuxErrno linuxErrno.EMSGSIZE = 10040
    ∧ carambolas_net_socket_geterror linuxErrno linuxErrno.ENETDOWN = 10050
    ∧ carambolas_net_socket_geterror linuxErrno linuxErrno.ENETUNREACH = 10051
    ∧ carambolas_net_socket_geterror linuxErrno linuxErrno.ENETRESET = 10052
    ∧ carambolas_net_socket_geterror linuxErrno linuxErrno.ENOBUFS = 10055
    ∧ carambolas_net_socket_geterror linuxErrno linuxErrno.ENOTCONN = 10057
    ∧ carambolas_net_socket_geterror linuxErrno linuxErrno.ENOTSOCK = 10038
    ∧ carambolas_net_socket_geterror linuxErrno linuxErrno.ESHUTDOWN = 10101
    ∧ carambolas_net_socket_geterror linuxErrno linuxErrno.ETIMEDOUT = 10060
    ∧ carambolas_net_socket_geterror linuxErrno linuxErrno.EMFILE = 10024
    ∧ carambolas_net_socket_geterror linuxErrno linuxErrno.ENFILE = 10024 :=
  ⟨by decide, geterror_required_conditions linuxErrno (by decide)⟩

/-! ## Option resolution and the facade -/

theorem ite_r_congr (c : Prop) [Decidable c] (a b a' b' : Sockopt)
    (h1 : c → a.r = a'.r) (h2 : ¬c → b.r = b'.r) :
    (if c then a else b).r = (if c then a' else b').r := by
  by_cases h : c
  · rw [if_pos h, if_pos h]; exact h1 h
  · rw [if_neg h, if_neg h]; exact h2 h

/-- The status returned by option resolution does not depend on what the two
output locations held before the call. -/
theorem convert_sockopt_r_indep (P : Platform) (level optname l0 n0 l1 n1 : Int) :
    (carambolas_net_convert_sockopt P level optname l0 n0).r
      = (carambolas_net_convert_sockopt P level optname l1 n1).r := by
  unfold carambolas_net_convert_sockopt
  repeat' (first | rfl | (apply ite_r_congr <;> intro _) | (split <;> rfl))

/-- C3: on a POSIX variant, for a key whose resolution is "unsupported" (`-1`),
`set_option` and `get_option` return OperationNotSupported (10045) for every
handle and value, the system (world and trace of native calls) is what it was
before, and `get_option` leaves the output value unchanged. -/
theorem unsupported_option_no_native_call {W : Type} (P : Platform) (K : Kernel W)
    (s : Sys W) (sockfd level optname optval l0 n0 : Int) (hP : P.WINDOWS = false)
    (hr : (carambolas_net_convert_sockopt P level optname l0 n0).r = -1) :
    carambolas_net_socket_setsockopt P K s sockfd level optname optval = (10045, s)
    ∧ carambolas_net_socket_getsockopt P K s sockfd level optname optval
        = (10045, optval, s) := by
  have h : (carambolas_net_convert_sockopt P level optname level optname).r = -1 := by
    rw [convert_sockopt_r_indep P level optname level optname l0 n0]; exact hr
  constructor
  · simp [carambolas_net_socket_setsockopt, hP, h]
  · simp [carambolas_net_socket_getsockopt, hP, h]

/-- Witness for C3: on Linux the UDP-level key `(17, 1)` is unsupported. -/
theorem unsupported_option_no_native_call_witness :
    linux.WINDOWS = false
    ∧ (carambolas_net_convert_sockopt linux 17 1 0 0).r = -1
    ∧ carambolas_net_socket_setsockopt linux storeKernel storeEmpty 3 17 1 5
        = (10045, storeEmpty)
    ∧ carambolas_net_socket_getsockopt linux storeKernel storeEmpty 3 17 1 5
        = (10045, 5, storeEmpty) :=
  ⟨rfl, by decide,
    unsupported_option_no_native_call linux storeKernel storeEmpty 3 17 1 5 0 0 rfl
      (by decide)⟩

/-- C4: on a POSIX variant without `SO_EXCLUSIVEADDRUSE`, the key
(Socket, ExclusiveAddressUse) resolves as "ignorable" (`-2`); and for every
key that resolves as ignorable, `set_option` returns Success (0) for every
handle and value with the system (world and trace of native calls) unchanged. -/
theorem ignorable_option_set_succeeds {W : Type} (P : Platform) (K : Kernel W)
    (hP : P.WINDOWS = false) (hx : P.SO_EXCLUSIVEADDRUSE = none) :
    (∀ l0 n0 : Int,
      (carambolas_net_convert_sockopt P SocketOptionLevel_Socket
        SocketOptionName_ExclusiveAddressUse l0 n0).r = -2)
    ∧ (∀ level optname l0 n0 : Int,
        (carambolas_net_convert_sockopt P level optname l0 n0).r = -2 →
        ∀ (s : Sys W) (sockfd optval : Int),
          carambolas_net_socket_setsockopt P K s sockfd level optname optval = (0, s)) := by
  constructor
  · intro l0 n0
    unfold carambolas_net_convert_sockopt
    rw [hx]
    rfl
  · intro level optname l0 n0 hr s sockfd optval
    have h : (carambolas_net_convert_sockopt P level optname level optname).r = -2 := by
      rw [convert_sockopt_r_indep P level optname level optname l0 n0]; exact hr
    simp [carambolas_net_socket_setsockopt, hP, h]

/-- Witness for C4: Linux and macOS are POSIX variants without
`SO_EXCLUSIVEADDRUSE`; there the key `(65535, -5)` is ignorable and setting it
succeeds without touching the system. -/
theorem ignorable_option_set_succeeds_witness :
    (linux.WINDOWS = false ∧ linux.SO_EXCLUSIVEADDRUSE = none
      ∧ (carambolas_net_convert_sockopt linux 65535 (-5) 65535 (-5)).r = -2
      ∧ carambolas_net_socket_setsockopt linux storeKernel storeEmpty 3 65535 (-5) 1
          = (0, storeEmpty))
    ∧ (osx.WINDOWS = false ∧ osx.SO_EXCLUSIVEADDRUSE = none
      ∧ (carambolas_net_convert_sockopt osx 65535 (-5) 65535 (-5)).r = -2
      ∧ carambolas_net_socket_setsockopt osx storeKernel storeEmpty 3 65535 (-5) 1
          = (0, storeEmpty)) :=
  ⟨⟨rfl, rfl, (ignorable_option_set_succeeds linux storeKernel rfl rfl).1 _ _,
      (ignorable_option_set_succeeds linux storeKernel rfl rfl).2 65535 (-5) 65535 (-5)
        ((ignorable_option_set_succeeds linux storeKernel rfl rfl).1 _ _) storeEmpty 3 1⟩,
    ⟨rfl, rfl, (ignorable_option_set_succeeds osx storeKernel rfl rfl).1 _ _,
      (ignorable_option_set_succeeds osx storeKernel rfl rfl).2 65535 (-5) 65535 (-5)
        ((ignorable_option_set_succeeds osx storeKernel rfl rfl).1 _ _) storeEmpty 3 1⟩⟩

/-! ## Timeouts -/

theorem wrapInt32_of_int32 (x : Int) (h0 : -(2 ^ 31) ≤ x) (h1 : x < 2 ^ 31) :
    wrapInt32 x = x := by
  unfold wrapInt32
  norm_num at h0 h1 ⊢
  omega

theorem timeval_recompose (ms : Int) (h0 : -(2 ^ 31) ≤ ms) (h1 : ms < 2 ^ 31) :
    wrapInt32 (Int.tdiv ms 1000 * 1000 + Int.tdiv (Int.tmod ms 1000 * 1000) 1000) = ms := by
  rw [Int.mul_tdiv_cancel _ (by decide), Int.tdiv_add_tmod']
  exact wrapInt32_of_int32 ms h0 h1

theorem convert_sockopt_SendTimeout (P : Platform) (l0 n0 : Int) :
    carambolas_net_convert_sockopt P SocketOptionLevel_Socket SocketOptionName_SendTimeout l0 n0
      = ⟨0, P.SOL_SOCKET, P.SO_SNDTIMEO⟩ := rfl

theorem convert_sockopt_ReceiveTimeout (P : Platform) (l0 n0 : Int) :
    carambolas_net_convert_sockopt P SocketOptionLevel_Socket SocketOptionName_ReceiveTimeout
      l0 n0 = ⟨0, P.SOL_SOCKET, P.SO_RCVTIMEO⟩ := rfl

/-- On a POSIX variant, `set_option` on a resolved key first issues the native
`setsockopt` on the resolved pair with the payload of `setsockopt_optptr`. -/
theorem setsockopt_first_call {W : Type} (P : Platform) (K : Kernel W) (s : Sys W)
    (sockfd level optname optval : Int) (hP : P.WINDOWS = false)
    (hr : (carambolas_net_convert_sockopt P level optname level optname).r = 0) :
    s.trace ++ [Call.setsockopt sockfd
        (carambolas_net_convert_sockopt P level optname level optname).system_level
        (carambolas_net_convert_sockopt P level optname level optname).system_name
        (setsockopt_optptr P
          (carambolas_net_convert_sockopt P level optname level optname).system_level
          (carambolas_net_convert_sockopt P level optname level optname).system_name optval)]
      <+: (carambolas_net_socket_setsockopt P K s sockfd level optname optval).2.trace := by
  simp only [carambolas_net_socket_setsockopt, hP, hr, if_true, Bool.false_eq_true, if_false]
  generalize carambolas_net_convert_sockopt P level optname level optname = c
  repeat' split
  all_goals simp [native_setsockopt, native_getsockopt_int32, List.append_assoc]

/-- `get_option` on a timeout key whose native read succeeds with the timeval
`(sec, usec)` delivers `sec * 1000 + usec / 1000`, stored into an `int32_t`. -/
theorem getsockopt_timeout {W : Type} (P : Platform) (K : Kernel W) (s : Sys W)
    (sockfd level optname optval native sec usec : Int) (w' : W) (hP : P.WINDOWS = false)
    (hc : carambolas_net_convert_sockopt P level optname level optname
      = ⟨0, P.SOL_SOCKET, native⟩)
    (hn : native = P.SO_RCVTIMEO ∨ native = P.SO_SNDTIMEO)
    (hk : K.getsockopt_timeval s.world sockfd P.SOL_SOCKET native = (0, (sec, usec), w')) :
    carambolas_net_socket_getsockopt P K s sockfd level optname optval
      = (0, wrapInt32 (sec * 1000 + Int.tdiv usec 1000),
          ⟨w', s.trace ++ [Call.getsockopt sockfd P.SOL_SOCKET native OptBuf.timeval]⟩) := by
  simp [carambolas_net_socket_getsockopt, hP, hc, hn, native_getsockopt_timeval, hk]

/-- C5: the timeout round trip is lossless.  For every 32-bit `ms ≥ 0` and both
timeout keys: `set_option` hands the native layer the timeval
`(ms / 1000, (ms % 1000) * 1000)`, and whenever the native read gives that
timeval back unchanged, `get_option` returns Success and delivers exactly
`ms`. -/
theorem timeout_round_trip {W : Type} (P : Platform) (K : Kernel W) (s : Sys W)
    (sockfd ms out : Int) (w' : W) (hP : P.WINDOWS = false)
    (h0 : 0 ≤ ms) (h1 : ms < 2 ^ 31) :
    (setsockopt_optptr P P.SOL_SOCKET P.SO_SNDTIMEO ms
        = OptVal.timeval (Int.tdiv ms 1000) (Int.tmod ms 1000 * 1000)
      ∧ (K.getsockopt_timeval s.world sockfd P.SOL_SOCKET P.SO_SNDTIMEO
          = (0, (Int.tdiv ms 1000, Int.tmod ms 1000 * 1000), w') →
        carambolas_net_socket_getsockopt P K s sockfd SocketOptionLevel_Socket
            SocketOptionName_SendTimeout out
          = (0, ms, ⟨w', s.trace
              ++ [Call.getsockopt sockfd P.SOL_SOCKET P.SO_SNDTIMEO OptBuf.timeval]⟩)))
    ∧ (setsockopt_optptr P P.SOL_SOCKET P.SO_RCVTIMEO ms
        = OptVal.timeval (Int.tdiv ms 1000) (Int.tmod ms 1000 * 1000)
      ∧ (K.getsockopt_timeval s.world sockfd P.SOL_SOCKET P.SO_RCVTIMEO
          = (0, (Int.tdiv ms 1000, Int.tmod ms 1000 * 1000), w') →
        carambolas_net_socket_getsockopt P K s sockfd SocketOptionLevel_Socket
            SocketOptionName_ReceiveTimeout out
          = (0, ms, ⟨w', s.trace
              ++ [Call.getsockopt sockfd P.SOL_SOCKET P.SO_RCVTIMEO OptBuf.timeval]⟩))) := by
  have hlo : -(2 ^ 31) ≤ ms := le_trans (by norm_num) h0
  refine ⟨⟨by simp [setsockopt_optptr], fun hk => ?_⟩,
    ⟨by simp [setsockopt_optptr], fun hk => ?_⟩⟩
  · rw [getsockopt_timeout P K s sockfd _ _ out P.SO_SNDTIMEO _ _ w' hP
      (convert_sockopt_SendTimeout P _ _) (Or.inr rfl) hk, timeval_recompose ms hlo h1]
  · rw [getsockopt_timeout P K s sockfd _ _ out P.SO_RCVTIMEO _ _ w' hP
      (convert_sockopt_ReceiveTimeout P _ _) (Or.inl rfl) hk, timeval_recompose ms hlo h1]

/-- Witness for C5: on Linux, over a kernel that stores option values
unchanged, setting 1500 ms stores `(1 s, 500000 us)` and getting returns 1500,
for SendTimeout (4101) and ReceiveTimeout (4102). -/
theorem timeout_round_trip_witness :
    (carambolas_net_socket_setsockopt linux storeKernel storeEmpty 3 65535 4101 1500).2.trace
        = [Call.setsockopt 3 1 21 (OptVal.timeval 1 500000)]
    ∧ (carambolas_net_socket_getsockopt linux storeKernel
        (carambolas_net_socket_setsockopt linux storeKernel storeEmpty 3 65535 4101 1500).2
        3 65535 4101 0).2.1 = 1500
    ∧ (carambolas_net_socket_getsockopt linux storeKernel
        (carambolas_net_socket_setsockopt linux storeKernel storeEmpty 3 65535 4102 1500).2
        3 65535 4102 0).2.1 = 1500 :=
  ⟨by decide,
    congrArg (fun r => r.2.1) ((timeout_round_trip linux storeKernel
      (carambolas_net_socket_setsockopt linux storeKernel storeEmpty 3 65535 4101 1500).2
      3 1500 0 _ rfl (by decide) (by decide)).1.2 rfl),
    congrArg (fun r => r.2.1) ((timeout_round_trip linux storeKernel
      (carambolas_net_socket_setsockopt linux storeKernel storeEmpty 3 65535 4102 1500).2
      3 1500 0 _ rfl (by decide) (by decide)).2.2 rfl)⟩

/-- C6: `set_option` with (Socket, SendTimeout) or (Socket, ReceiveTimeout) and
value `ms` first issues the native `setsockopt` on `SO_SNDTIMEO` resp.
`SO_RCVTIMEO` with a timeval (not the raw integer) whose fields are
`tv_sec = ms / 1000` and `tv_usec = (ms % 1000) * 1000`; for `ms ≥ 0` this
timeval is well formed: `0 ≤ tv_usec ≤ 999000`, `tv_usec` is a multiple of
1000, and `tv_sec * 1000000 + tv_usec = ms * 1000`. -/
theorem timeout_set_passes_timeval {W : Type} (P : Platform) (K : Kernel W) (s : Sys W)
    (sockfd ms : Int) (hP : P.WINDOWS = false) (h0 : 0 ≤ ms) :
    (s.trace ++ [Call.setsockopt sockfd P.SOL_SOCKET P.SO_SNDTIMEO
          (OptVal.timeval (Int.tdiv ms 1000) (Int.tmod ms 1000 * 1000))]
        <+: (carambolas_net_socket_setsockopt P K s sockfd SocketOptionLevel_Socket
              SocketOptionName_SendTimeout ms).2.trace)
    ∧ (s.trace ++ [Call.setsockopt sockfd P.SOL_SOCKET P.SO_RCVTIMEO
          (OptVal.timeval (Int.tdiv ms 1000) (Int.tmod ms 1000 * 1000))]
        <+: (carambolas_net_socket_setsockopt P K s sockfd SocketOptionLevel_Socket
              SocketOptionName_ReceiveTimeout ms).2.trace)
    ∧ 0 ≤ Int.tmod ms 1000 * 1000
    ∧ Int.tmod ms 1000 * 1000 ≤ 999000
    ∧ (1000 : Int) ∣ Int.tmod ms 1000 * 1000
    ∧ Int.tdiv ms 1000 * 1000000 + Int.tmod ms 1000 * 1000 = ms * 1000 := by
  have hs := setsockopt_first_call P K s sockfd SocketOptionLevel_Socket
    SocketOptionName_SendTimeout ms hP (by rw [convert_sockopt_SendTimeout])
  have hr := setsockopt_first_call P K s sockfd SocketOptionLevel_Socket
    SocketOptionName_ReceiveTimeout ms hP (by rw [convert_sockopt_ReceiveTimeout])
  rw [convert_sockopt_SendTimeout] at hs
  rw [convert_sockopt_ReceiveTimeout] at hr
  simp only [setsockopt_optptr, true_and, true_or, or_true, if_true] at hs hr
  have hm0 : 0 ≤ Int.tmod ms 1000 := Int.tmod_nonneg 1000 h0
  have hm1 : Int.tmod ms 1000 < 1000 := Int.tmod_lt_of_pos ms (by decide)
  have hsum := Int.tdiv_add_tmod' ms 1000
  refine ⟨hs, hr, by omega, by omega, Dvd.intro_left _ rfl, by omega⟩

/-- Witness for C6: 1500 ms on Linux is passed as `(1 s, 500000 us)`. -/
theorem timeout_set_passes_timeval_witness :
    [Call.setsockopt 3 1 21 (OptVal.timeval 1 500000)]
        <+: (carambolas_net_socket_setsockopt linux storeKernel storeEmpty 3 65535 4101
              1500).2.trace
    ∧ [Call.setsockopt 3 1 20 (OptVal.timeval 1 500000)]
        <+: (carambolas_net_socket_setsockopt linux storeKernel storeEmpty 3 65535 4102
              1500).2.trace :=
  ⟨(timeout_set_passes_timeval linux storeKernel storeEmpty 3 1500 rfl (by decide)).1,
    (timeout_set_passes_timeval linux storeKernel storeEmpty 3 1500 rfl (by decide)).2.1⟩

/-- C7: option resolution maps (Socket, DontLinger) to the native pair
`(SOL_SOCKET, SO_LINGER)` with status "resolved", which is exactly the
resolution of (Socket, Linger), on every variant that has the function. -/
theorem dontlinger_resolves_to_linger (P : Platform) (l0 n0 l1 n1 : Int) :
    carambolas_net_convert_sockopt P SocketOptionLevel_Socket SocketOptionName_DontLinger l0 n0
      = ⟨0, P.SOL_SOCKET, P.SO_LINGER⟩
    ∧ carambolas_net_convert_sockopt P SocketOptionLevel_Socket SocketOptionName_DontLinger
        l0 n0
      = carambolas_net_convert_sockopt P SocketOptionLevel_Socket SocketOptionName_Linger
        l1 n1 :=
  ⟨rfl, rfl⟩

/-! ## Fragmentation control -/

theorem convert_sockopt_DontFragment (P : Platform) (l0 n0 : Int) :
    carambolas_net_convert_sockopt P SocketOptionLevel_IP SocketOptionName_DontFragment l0 n0
      = if P.HAVE_IP_DONTFRAGMENT then ⟨0, P.IPPROTO_IP, P.IP_DONTFRAGMENT⟩
        else if P.HAVE_IP_MTU_DISCOVER then ⟨0, P.IPPROTO_IP, P.IP_MTU_DISCOVER⟩
        else ⟨-2, P.IPPROTO_IP, n0⟩ := rfl

/-- C9: resolution of (IP, DontFragment) follows the capability fallback.  With
`HAVE_IP_DONTFRAGMENT` it resolves to `(IPPROTO_IP, IP_DONTFRAGMENT)`;
otherwise with `HAVE_IP_MTU_DISCOVER` to `(IPPROTO_IP, IP_MTU_DISCOVER)`;
otherwise it is "ignorable" (`-2`) and `set_option` returns Success with the
system (world and trace of native calls) unchanged.  A POSIX build with `LINUX`
and no feature macro given from outside is in the second case; one without
`LINUX` (macOS) is in the third. -/
theorem dontfragment_resolution {W : Type} (P : Platform) (K : Kernel W) (l0 n0 : Int) :
    (P.HAVE_IP_DONTFRAGMENT = true →
      carambolas_net_convert_sockopt P SocketOptionLevel_IP SocketOptionName_DontFragment l0 n0
        = ⟨0, P.IPPROTO_IP, P.IP_DONTFRAGMENT⟩)
    ∧ (P.HAVE_IP_DONTFRAGMENT = false → P.HAVE_IP_MTU_DISCOVER = true →
      carambolas_net_convert_sockopt P SocketOptionLevel_IP SocketOptionName_DontFragment l0 n0
        = ⟨0, P.IPPROTO_IP, P.IP_MTU_DISCOVER⟩)
    ∧ (P.HAVE_IP_DONTFRAGMENT = false → P.HAVE_IP_MTU_DISCOVER = false →
      (carambolas_net_convert_sockopt P SocketOptionLevel_IP SocketOptionName_DontFragment
          l0 n0).r = -2
      ∧ ∀ (s : Sys W) (sockfd optval : Int),
          carambolas_net_socket_setsockopt P K s sockfd SocketOptionLevel_IP
            SocketOptionName_DontFragment optval = (0, s))
    ∧ (P.WINDOWS = false → P.D_HAVE_IP_DONTFRAGMENT = false → P.LINUX = true →
      P.HAVE_IP_DONTFRAGMENT = false ∧ P.HAVE_IP_MTU_DISCOVER = true)
    ∧ (P.WINDOWS = false → P.D_HAVE_IP_DONTFRAGMENT = false → P.LINUX = false →
      P.D_HAVE_IP_MTU_DISCOVER = false →
      P.HAVE_IP_DONTFRAGMENT = false ∧ P.HAVE_IP_MTU_DISCOVER = false) := by
  refine ⟨fun h => ?_, fun h1 h2 => ?_, fun h1 h2 => ⟨?_, fun s sockfd optval => ?_⟩,
    fun hw hd hl => ?_, fun hw hd hl hm => ?_⟩
  · rw [convert_sockopt_DontFragment, if_pos h]
  · rw [convert_sockopt_DontFragment, if_neg (by simp [h1]), if_pos h2]
  · rw [convert_sockopt_DontFragment, if_neg (by simp [h1]), if_neg (by simp [h2])]
  · have hw : P.WINDOWS = false := by
      simp only [Platform.HAVE_IP_DONTFRAGMENT, Bool.or_eq_false_iff] at h1
      exact h1.1
    simp [carambolas_net_socket_setsockopt, hw, convert_sockopt_DontFragment, h1, h2]
  · simp [Platform.HAVE_IP_DONTFRAGMENT, Platform.HAVE_IP_MTU_DISCOVER, hw, hd, hl]
  · simp [Platform.HAVE_IP_DONTFRAGMENT, Platform.HAVE_IP_MTU_DISCOVER, hw, hd, hl, hm]

/-- Witness for C9: a build given `HAVE_IP_DONTFRAGMENT` from outside uses
`IP_DONTFRAGMENT`; Linux uses `IP_MTU_DISCOVER` (10); on macOS the key is
ignorable and setting it succeeds without a native call. -/
theorem dontfragment_resolution_witness :
    carambolas_net_convert_sockopt
        { linux with D_HAVE_IP_DONTFRAGMENT := true, IP_DONTFRAGMENT := 14 } 0 14 0 14
      = ⟨0, 0, 14⟩
    ∧ carambolas_net_convert_sockopt linux 0 14 0 14 = ⟨0, 0, 10⟩
    ∧ (carambolas_net_convert_sockopt osx 0 14 0 14).r = -2
    ∧ carambolas_net_socket_setsockopt osx storeKernel storeEmpty 3 0 14 1 = (0, storeEmpty) :=
  ⟨(dontfragment_resolution
      { linux with D_HAVE_IP_DONTFRAGMENT := true, IP_DONTFRAGMENT := 14 } storeKernel
      0 14).1 rfl,
    (dontfragment_resolution linux storeKernel 0 14).2.1
      ((dontfragment_resolution linux storeKernel 0 14).2.2.2.1 rfl rfl rfl).1
      ((dontfragment_resolution linux storeKernel 0 14).2.2.2.1 rfl rfl rfl).2,
    ((dontfragment_resolution osx storeKernel 0 14).2.2.1
      ((dontfragment_resolution osx storeKernel 0 14).2.2.2.2 rfl rfl rfl rfl).1
      ((dontfragment_resolution osx storeKernel 0 14).2.2.2.2 rfl rfl rfl rfl).2).1,
    ((dontfragment_resolution osx storeKernel 0 14).2.2.1
      ((dontfragment_resolution osx storeKernel 0 14).2.2.2.2 rfl rfl rfl rfl).1
      ((dontfragment_resolution osx storeKernel 0 14).2.2.2.2 rfl rfl rfl rfl).2).2
      storeEmpty 3 1⟩

/-! ## Buffer sizes -/

theorem convert_sockopt_SendBuffer (P : Platform) (l0 n0 : Int) :
    carambolas_net_convert_sockopt P SocketOptionLevel_Socket SocketOptionName_SendBuffer l0 n0
      = ⟨0, P.SOL_SOCKET, P.SO_SNDBUF⟩ := rfl

theorem convert_sockopt_ReceiveBuffer (P : Platform) (l0 n0 : Int) :
    carambolas_net_convert_sockopt P SocketOptionLevel_Socket SocketOptionName_ReceiveBuffer
      l0 n0 = ⟨0, P.SOL_SOCKET, P.SO_RCVBUF⟩ := rfl

/-- `set_option` on a key that resolves to a native pair other than
`(SOL_SOCKET, SO_REUSEADDR)` issues exactly one native call, and returns
Success when it succeeds and the normalized last error otherwise. -/
theorem setsockopt_plain {W : Type} (P : Platform) (K : Kernel W) (s : Sys W)
    (sockfd level optname optval l n : Int) (hP : P.WINDOWS = false)
    (hc : carambolas_net_convert_sockopt P level optname level optname = ⟨0, l, n⟩)
    (hn : ¬(l = P.SOL_SOCKET ∧ n = P.SO_REUSEADDR)) :
    carambolas_net_socket_setsockopt P K s sockfd level optname optval
      = (if (native_setsockopt K s sockfd l n (setsockopt_optptr P l n optval)).1 = 0 then 0
          else carambolas_net_socket_getlasterror P K
            (native_setsockopt K s sockfd l n (setsockopt_optptr P l n optval)).2,
        (native_setsockopt K s sockfd l n (setsockopt_optptr P l n optval)).2) := by
  simp only [carambolas_net_socket_setsockopt, hP, hc, if_true, Bool.false_eq_true, if_false,
    if_neg hn]
  split
  · split <;> rfl
  · rfl

/-- `get_option` on a key that resolves to a native pair that is neither a
timeout nor named `SO_ERROR` issues one native read into an `int32_t` and, when
it succeeds, delivers the value read, unchanged. -/
theorem getsockopt_plain {W : Type} (P : Platform) (K : Kernel W) (s : Sys W)
    (sockfd level optname optval l n : Int) (hP : P.WINDOWS = false)
    (hc : carambolas_net_convert_sockopt P level optname level optname = ⟨0, l, n⟩)
    (ht : ¬(l = P.SOL_SOCKET ∧ (n = P.SO_RCVTIMEO ∨ n = P.SO_SNDTIMEO)))
    (he : n ≠ P.SO_ERROR) :
    carambolas_net_socket_getsockopt P K s sockfd level optname optval
      = if (native_getsockopt_int32 K s sockfd l n).1 = 0 then
          (0, (native_getsockopt_int32 K s sockfd l n).2.1,
            (native_getsockopt_int32 K s sockfd l n).2.2)
        else (carambolas_net_socket_getlasterror P K (native_getsockopt_int32 K s sockfd l n).2.2,
          optval, (native_getsockopt_int32 K s sockfd l n).2.2) := by
  simp only [carambolas_net_socket_getsockopt, hP, hc, if_true, Bool.false_eq_true, if_false,
    if_neg ht, if_neg he]

theorem setsockopt_optptr_buffer (P : Platform) (n v : Int)
    (hb : n = P.SO_SNDBUF ∨ n = P.SO_RCVBUF)
    (ht : n ≠ P.SO_RCVTIMEO ∧ n ≠ P.SO_SNDTIMEO) :
    setsockopt_optptr P P.SOL_SOCKET n v
      = if P.LINUX = true then OptVal.int32 (Int.tdiv v 2) else OptVal.int32 v := by
  simp [setsockopt_optptr, ht.1, ht.2, hb]

/-- C8: on a POSIX variant whose buffer-size option names differ from the
timeout names, `SO_ERROR` and `SO_REUSEADDR`: with `LINUX`, `set_option` on
(Socket, SendBuffer) or (Socket, ReceiveBuffer) with value `v` issues exactly
one native call, `setsockopt` with the 4-byte integer `v / 2` (C division,
truncating toward zero); without `LINUX` it passes `v` unchanged; and on every
such variant a successful `get_option` on these keys delivers the value read
by the native call unchanged. -/
theorem buffer_size_halved_on_linux {W : Type} (P : Platform) (K : Kernel W) (s : Sys W)
    (sockfd v out : Int) (hP : P.WINDOWS = false)
    (hs : P.SO_SNDBUF ∉ [P.SO_RCVTIMEO, P.SO_SNDTIMEO, P.SO_ERROR, P.SO_REUSEADDR])
    (hr : P.SO_RCVBUF ∉ [P.SO_RCVTIMEO, P.SO_SNDTIMEO, P.SO_ERROR, P.SO_REUSEADDR]) :
    (P.LINUX = true →
      (carambolas_net_socket_setsockopt P K s sockfd SocketOptionLevel_Socket
          SocketOptionName_SendBuffer v).2
        = (native_setsockopt K s sockfd P.SOL_SOCKET P.SO_SNDBUF
            (OptVal.int32 (Int.tdiv v 2))).2
      ∧ (carambolas_net_socket_setsockopt P K s sockfd SocketOptionLevel_Socket
          SocketOptionName_ReceiveBuffer v).2
        = (native_setsockopt K s sockfd P.SOL_SOCKET P.SO_RCVBUF
            (OptVal.int32 (Int.tdiv v 2))).2)
    ∧ (P.LINUX = false →
      (carambolas_net_socket_setsockopt P K s sockfd SocketOptionLevel_Socket
          SocketOptionName_SendBuffer v).2
        = (native_setsockopt K s sockfd P.SOL_SOCKET P.SO_SNDBUF (OptVal.int32 v)).2
      ∧ (carambolas_net_socket_setsockopt P K s sockfd SocketOptionLevel_Socket
          SocketOptionName_ReceiveBuffer v).2
        = (native_setsockopt K s sockfd P.SOL_SOCKET P.SO_RCVBUF (OptVal.int32 v)).2)
    ∧ (∀ (n : Int) (w' : W),
        K.getsockopt_int32 s.world sockfd P.SOL_SOCKET P.SO_SNDBUF = (0, n, w') →
        carambolas_net_socket_getsockopt P K s sockfd SocketOptionLevel_Socket
            SocketOptionName_SendBuffer out
          = (0, n, ⟨w', s.trace
              ++ [Call.getsockopt sockfd P.SOL_SOCKET P.SO_SNDBUF OptBuf.int32]⟩))
    ∧ (∀ (n : Int) (w' : W),
        K.getsockopt_int32 s.world sockfd P.SOL_SOCKET P.SO_RCVBUF = (0, n, w') →
        carambolas_net_socket_getsockopt P K s sockfd SocketOptionLevel_Socket
            SocketOptionName_ReceiveBuffer out
          = (0, n, ⟨w', s.trace
              ++ [Call.getsockopt sockfd P.SOL_SOCKET P.SO_RCVBUF OptBuf.int32]⟩)) := by
  simp only [List.mem_cons, List.mem_singleton, List.not_mem_nil, or_false, not_or] at hs hr
  obtain ⟨hs1, hs2, hs3, hs4⟩ := hs
  obtain ⟨hr1, hr2, hr3, hr4⟩ := hr
  have hS := fun o => setsockopt_plain P K s sockfd SocketOptionLevel_Socket
    SocketOptionName_SendBuffer o P.SOL_SOCKET P.SO_SNDBUF hP
    (convert_sockopt_SendBuffer P _ _) (fun h => hs4 h.2)
  have hR := fun o => setsockopt_plain P K s sockfd SocketOptionLevel_Socket
    SocketOptionName_ReceiveBuffer o P.SOL_SOCKET P.SO_RCVBUF hP
    (convert_sockopt_ReceiveBuffer P _ _) (fun h => hr4 h.2)
  have oS := setsockopt_optptr_buffer P P.SO_SNDBUF v (Or.inl rfl) ⟨hs1, hs2⟩
  have oR := setsockopt_optptr_buffer P P.SO_RCVBUF v (Or.inr rfl) ⟨hr1, hr2⟩
  refine ⟨fun hl => ?_, fun hl => ?_, fun n w' hk => ?_, fun n w' hk => ?_⟩
  · rw [hS, hR, oS, oR]
    simp only [hl, if_true, and_self]
  · rw [hS, hR, oS, oR]
    simp only [hl, Bool.false_eq_true, if_false, and_self]
  · rw [getsockopt_plain P K s sockfd _ _ out P.SOL_SOCKET P.SO_SNDBUF hP
      (convert_sockopt_SendBuffer P _ _) (fun h => h.2.elim hs1 hs2) hs3]
    simp [native_getsockopt_int32, hk]
  · rw [getsockopt_plain P K s sockfd _ _ out P.SOL_SOCKET P.SO_RCVBUF hP
      (convert_sockopt_ReceiveBuffer P _ _) (fun h => h.2.elim hr1 hr2) hr3]
    simp [native_getsockopt_int32, hk]

/-- Witness for C8: on Linux, setting SendBuffer to 7 passes 3 and setting
ReceiveBuffer to -7 passes -3, and the stored value is read back as it is; on
macOS, setting SendBuffer to 7 passes 7. -/
theorem buffer_size_halved_on_linux_witness :
    (carambolas_net_socket_setsockopt linux storeKernel storeEmpty 3 65535 4097 7).2.trace
        = [Call.setsockopt 3 1 7 (OptVal.int32 3)]
    ∧ (carambolas_net_socket_setsockopt linux storeKernel storeEmpty 3 65535 4098 (-7)).2.trace
        = [Call.setsockopt 3 1 8 (OptVal.int32 (-3))]
    ∧ (carambolas_net_socket_getsockopt linux storeKernel
        (carambolas_net_socket_setsockopt linux storeKernel storeEmpty 3 65535 4097 7).2
        3 65535 4097 0).2.1 = 3
    ∧ (carambolas_net_socket_setsockopt osx storeKernel storeEmpty 3 65535 4097 7).2.trace
        = [Call.setsockopt 3 65535 4097 (OptVal.int32 7)] :=
  ⟨congrArg Sys.trace ((buffer_size_halved_on_linux linux storeKernel storeEmpty 3 7 0 rfl
      (by decide) (by decide)).1 rfl).1,
    congrArg Sys.trace ((buffer_size_halved_on_linux linux storeKernel storeEmpty 3 (-7) 0 rfl
      (by decide) (by decide)).1 rfl).2,
    congrArg (fun r => r.2.1) ((buffer_size_halved_on_linux linux storeKernel
      (carambolas_net_socket_setsockopt linux storeKernel storeEmpty 3 65535 4097 7).2
      3 7 0 rfl (by decide) (by decide)).2.2.1 3 _ rfl),
    congrArg Sys.trace ((buffer_size_halved_on_linux osx storeKernel storeEmpty 3 7 0 rfl
      (by decide) (by decide)).2.1 rfl).1⟩

/-! ## Address reuse and the port-reuse companion -/

theorem sockopt_ite_elim (Q : Sockopt → Prop) (c : Prop) [Decidable c] (a b : Sockopt)
    (h1 : c → Q a) (h2 : ¬c → Q b) : Q (if c then a else b) := by
  by_cases h : c
  · rw [if_pos h]; exact h1 h
  · rw [if_neg h]; exact h2 h

set_option maxHeartbeats 2000000 in
/-- On a variant where no other socket-level option shares the number of
`SO_REUSEADDR` and no protocol level shares the number of `SOL_SOCKET`, the key
(Socket, ReuseAddress) is the only one that resolves to
`(SOL_SOCKET, SO_REUSEADDR)`. -/
theorem convert_sockopt_not_reuseaddr (P : Platform) (level optname l0 n0 : Int)
    (hN : ∀ n ∈ P.otherSocketNames, n ≠ P.SO_REUSEADDR)
    (hL : ∀ l ∈ [P.IPPROTO_IP, P.IPPROTO_IPV6, P.IPPROTO_TCP], l ≠ P.SOL_SOCKET)
    (hk : ¬(level = SocketOptionLevel_Socket ∧ optname = SocketOptionName_ReuseAddress))
    (hr : (carambolas_net_convert_sockopt P level optname l0 n0).r = 0) :
    ¬((carambolas_net_convert_sockopt P level optname l0 n0).system_level = P.SOL_SOCKET
      ∧ (carambolas_net_convert_sockopt P level optname l0 n0).system_name
          = P.SO_REUSEADDR) := by
  revert hr
  have hM : ∀ v, (match P.SO_MAXCONN with
      | some v => [v]
      | none => P.SOMAXCONN.toList) = [v] → v ≠ P.SO_REUSEADDR := by
    intro v hv
    apply hN
    simp [Platform.otherSocketNames, hv]
  simp only [Platform.otherSocketNames, List.mem_append, List.mem_cons, List.mem_singleton,
    List.not_mem_nil, or_false, Option.mem_toList, Option.mem_def, forall_eq_or_imp,
    forall_eq, or_imp, forall_and] at hN hL
  unfold carambolas_net_convert_sockopt
  repeat'
    refine sockopt_ite_elim
      (fun c => c.r = 0 → ¬(c.system_level = P.SOL_SOCKET ∧ c.system_name = P.SO_REUSEADDR))
      _ _ _ (fun _ => ?_) (fun _ => ?_)
  all_goals beta_reduce
  all_goals first
    | (intro _; simp_all; done)
    | (split <;> intro _ <;> simp_all)

theorem geterror_case_values_ne_success (E : Errno) :
    ∀ r ∈ (geterror_cases E).map Prod.snd, r ≠ CARAMBOLAS_NET_SOCKET_ERROR_NONE := by
  simp only [geterror_cases, List.map_cons, List.map_nil]
  decide

/-- Error normalization never yields Success. -/
theorem geterror_ne_success (E : Errno) (code : Int) :
    carambolas_net_socket_geterror E code ≠ 0 := by
  unfold carambolas_net_socket_geterror
  cases h : (geterror_cases E).lookup code with
  | none => decide
  | some r => exact geterror_case_values_ne_success E r (lookup_mem_values code r _ h)

theorem getlasterror_ne_success {W : Type} (P : Platform) (K : Kernel W) (s : Sys W)
    (hP : P.WINDOWS = false) : carambolas_net_socket_getlasterror P K s ≠ 0 := by
  simp only [carambolas_net_socket_getlasterror, hP, Bool.false_eq_true, if_false]
  exact geterror_ne_success _ _

theorem convert_sockopt_ReuseAddress (P : Platform) (l0 n0 : Int) :
    carambolas_net_convert_sockopt P SocketOptionLevel_Socket SocketOptionName_ReuseAddress
      l0 n0 = ⟨0, P.SOL_SOCKET, P.SO_REUSEADDR⟩ := rfl

/-- C10: on a POSIX variant that defines `SO_REUSEPORT` (as `rp`) and on which
`SO_REUSEADDR` shares its number with no other socket-level option name and
`SOL_SOCKET` with no protocol level.  When `set_option(Socket, ReuseAddress, v)`
has its primary native set succeed and the native `SO_TYPE` query succeeds:
if the type is neither `SOCK_DGRAM` nor `SOCK_STREAM` the operation returns
Success after exactly these two native calls; otherwise `SO_REUSEPORT` is
additionally set with the same value `v`, and the operation returns Success if
and only if that call succeeds, and the normalized last error if it fails.
For every other key that resolves, a successful primary native set returns
Success and is the only native call. -/
theorem reuseaddr_sets_reuseport {W : Type} (P : Platform) (K : Kernel W) (s : Sys W)
    (sockfd v rp : Int) (hP : P.WINDOWS = false) (hrp : P.SO_REUSEPORT = some rp)
    (hN : ∀ n ∈ P.otherSocketNames, n ≠ P.SO_REUSEADDR)
    (hL : ∀ l ∈ [P.IPPROTO_IP, P.IPPROTO_IPV6, P.IPPROTO_TCP], l ≠ P.SOL_SOCKET) :
    (∀ (p : Int × Sys W) (t : Int × Int × Sys W) (a : Int × Sys W),
      p = native_setsockopt K s sockfd P.SOL_SOCKET P.SO_REUSEADDR (OptVal.int32 v) →
      t = native_getsockopt_int32 K p.2 sockfd P.SOL_SOCKET P.SO_TYPE →
      a = native_setsockopt K t.2.2 sockfd P.SOL_SOCKET rp (OptVal.int32 v) →
      p.1 = 0 → t.1 = 0 →
      (t.2.1 ≠ P.SOCK_DGRAM ∧ t.2.1 ≠ P.SOCK_STREAM →
        carambolas_net_socket_setsockopt P K s sockfd SocketOptionLevel_Socket
            SocketOptionName_ReuseAddress v = (0, t.2.2)
        ∧ t.2.2.trace = s.trace
            ++ [Call.setsockopt sockfd P.SOL_SOCKET P.SO_REUSEADDR (OptVal.int32 v),
                Call.getsockopt sockfd P.SOL_SOCKET P.SO_TYPE OptBuf.int32])
      ∧ (t.2.1 = P.SOCK_DGRAM ∨ t.2.1 = P.SOCK_STREAM →
        (carambolas_net_socket_setsockopt P K s sockfd SocketOptionLevel_Socket
            SocketOptionName_ReuseAddress v).2 = a.2
        ∧ a.2.trace = s.trace
            ++ [Call.setsockopt sockfd P.SOL_SOCKET P.SO_REUSEADDR (OptVal.int32 v),
                Call.getsockopt sockfd P.SOL_SOCKET P.SO_TYPE OptBuf.int32,
                Call.setsockopt sockfd P.SOL_SOCKET rp (OptVal.int32 v)]
        ∧ ((carambolas_net_socket_setsockopt P K s sockfd SocketOptionLevel_Socket
            SocketOptionName_ReuseAddress v).1 = 0 ↔ a.1 = 0)
        ∧ (a.1 ≠ 0 →
          (carambolas_net_socket_setsockopt P K s sockfd SocketOptionLevel_Socket
            SocketOptionName_ReuseAddress v).1 = carambolas_net_socket_getlasterror P K a.2)))
    ∧ (∀ (level optname : Int) (c : Sockopt) (p : Int × Sys W),
      ¬(level = SocketOptionLevel_Socket ∧ optname = SocketOptionName_ReuseAddress) →
      c = carambolas_net_convert_sockopt P level optname level optname →
      c.r = 0 →
      p = native_setsockopt K s sockfd c.system_level c.system_name
            (setsockopt_optptr P c.system_level c.system_name v) →
      p.1 = 0 →
      carambolas_net_socket_setsockopt P K s sockfd level optname v = (0, p.2)
      ∧ p.2.trace = s.trace ++ [Call.setsockopt sockfd c.system_level c.system_name
            (setsockopt_optptr P c.system_level c.system_name v)]) := by
  have hN' := hN
  simp only [Platform.otherSocketNames, List.mem_append, List.mem_cons, List.mem_singleton,
    List.not_mem_nil, or_false, Option.mem_toList, Option.mem_def, forall_eq_or_imp,
    forall_eq, or_imp, forall_and] at hN'
  have ho : setsockopt_optptr P P.SOL_SOCKET P.SO_REUSEADDR v = OptVal.int32 v := by
    have h1 : P.SO_REUSEADDR ≠ P.SO_RCVTIMEO := fun h => hN'.1.1.1.1.1.1.1.2.2.2.2.2.2.2.2.1 h.symm
    have h2 : P.SO_REUSEADDR ≠ P.SO_SNDTIMEO := fun h => hN'.1.1.1.1.1.1.1.2.2.2.2.2.2.2.1 h.symm
    have h3 : P.SO_REUSEADDR ≠ P.SO_SNDBUF := fun h => hN'.1.1.1.1.1.1.1.2.2.2.1 h.symm
    have h4 : P.SO_REUSEADDR ≠ P.SO_RCVBUF := fun h => hN'.1.1.1.1.1.1.1.2.2.2.2.1 h.symm
    simp [setsockopt_optptr, h1, h2, h3, h4]
  constructor
  · intro p t a hp ht ha hp0 ht0
    subst hp; subst ht; subst ha
    constructor
    · intro hty
      constructor
      · simp only [carambolas_net_socket_setsockopt, hP, convert_sockopt_ReuseAddress, ho, hrp,
          hp0, ht0, hty, if_true, Bool.false_eq_true, if_false, and_self, ne_eq,
          not_false_eq_true]
      · simp [native_setsockopt, native_getsockopt_int32]
    · intro hty
      have hty' : ¬(
          (native_getsockopt_int32 K (native_setsockopt K s sockfd P.SOL_SOCKET P.SO_REUSEADDR
            (OptVal.int32 v)).2 sockfd P.SOL_SOCKET P.SO_TYPE).2.1 ≠ P.SOCK_DGRAM
          ∧ (native_getsockopt_int32 K (native_setsockopt K s sockfd P.SOL_SOCKET
            P.SO_REUSEADDR (OptVal.int32 v)).2 sockfd P.SOL_SOCKET P.SO_TYPE).2.1
              ≠ P.SOCK_STREAM) := by
        rcases hty with h | h
        · exact fun hc => hc.1 h
        · exact fun hc => hc.2 h
      simp only [carambolas_net_socket_setsockopt, hP, convert_sockopt_ReuseAddress, ho, hrp,
          hp0, ht0, hty', if_true, Bool.false_eq_true, if_false, and_self]
      refine ⟨?_, ?_, ?_, ?_⟩
      · split <;> rfl
      · simp [native_setsockopt, native_getsockopt_int32]
      · split
        · simp [*]
        · rename_i hne
          simp only [hne, iff_false]
          exact getlasterror_ne_success P K _ hP
      · intro hne
        rw [if_neg hne]
  · intro level optname c p hk hc hr hp hp0
    subst hc; subst hp
    have hne := convert_sockopt_not_reuseaddr P level optname level optname hN hL hk hr
    have hc : carambolas_net_convert_sockopt P level optname level optname
        = ⟨0, (carambolas_net_convert_sockopt P level optname level optname).system_level,
            (carambolas_net_convert_sockopt P level optname level optname).system_name⟩ := by
      rw [← hr]
    rw [setsockopt_plain P K s sockfd level optname v _ _ hP hc hne, if_pos hp0]
    exact ⟨rfl, by simp [native_setsockopt]⟩

/-- Witness for C10, on Linux (`SO_REUSEPORT = 15`) for socket 3 and value 1:
on a raw socket (type 3) ReuseAddress succeeds after the set and the type
query; on a datagram socket (type 2) `SO_REUSEPORT` is set as well; when the
kernel refuses `SO_REUSEPORT` the result is the normalized `errno`
(ENOPROTOOPT, 10042); KeepAlive takes one native call. -/
theorem reuseaddr_sets_reuseport_witness :
    (carambolas_net_socket_setsockopt linux storeKernel (storeWithType 3 []) 3 65535 4 1).1 = 0
    ∧ (carambolas_net_socket_setsockopt linux storeKernel (storeWithType 3 []) 3 65535 4
        1).2.trace
      = [Call.setsockopt 3 1 2 (OptVal.int32 1), Call.getsockopt 3 1 3 OptBuf.int32]
    ∧ (carambolas_net_socket_setsockopt linux storeKernel (storeWithType 2 []) 3 65535 4 1).1 = 0
    ∧ (carambolas_net_socket_setsockopt linux storeKernel (storeWithType 2 []) 3 65535 4
        1).2.trace
      = [Call.setsockopt 3 1 2 (OptVal.int32 1), Call.getsockopt 3 1 3 OptBuf.int32,
          Call.setsockopt 3 1 15 (OptVal.int32 1)]
    ∧ (carambolas_net_socket_setsockopt linux storeKernel (storeWithType 2 [15]) 3 65535 4
        1).1 = 10042
    ∧ (carambolas_net_socket_setsockopt linux storeKernel storeEmpty 3 65535 8 1).2.trace
      = [Call.setsockopt 3 1 9 (OptVal.int32 1)] :=
  ⟨congrArg Prod.fst
      (((reuseaddr_sets_reuseport linux storeKernel (storeWithType 3 []) 3 1 15 rfl rfl
        (by decide) (by decide)).1 _ _ _ rfl rfl rfl rfl rfl).1 (by decide)).1,
    (congrArg (fun r => r.2.trace)
      (((reuseaddr_sets_reuseport linux storeKernel (storeWithType 3 []) 3 1 15 rfl rfl
        (by decide) (by decide)).1 _ _ _ rfl rfl rfl rfl rfl).1 (by decide)).1).trans
      (((reuseaddr_sets_reuseport linux storeKernel (storeWithType 3 []) 3 1 15 rfl rfl
        (by decide) (by decide)).1 _ _ _ rfl rfl rfl rfl rfl).1 (by decide)).2,
    (((reuseaddr_sets_reuseport linux storeKernel (storeWithType 2 []) 3 1 15 rfl rfl
        (by decide) (by decide)).1 _ _ _ rfl rfl rfl rfl rfl).2 (by decide)).2.2.1.mpr rfl,
    (congrArg Sys.trace
      (((reuseaddr_sets_reuseport linux storeKernel (storeWithType 2 []) 3 1 15 rfl rfl
        (by decide) (by decide)).1 _ _ _ rfl rfl rfl rfl rfl).2 (by decide)).1).trans
      (((reuseaddr_sets_reuseport linux storeKernel (storeWithType 2 []) 3 1 15 rfl rfl
        (by decide) (by decide)).1 _ _ _ rfl rfl rfl rfl rfl).2 (by decide)).2.1,
    ((((reuseaddr_sets_reuseport linux storeKernel (storeWithType 2 [15]) 3 1 15 rfl rfl
        (by decide) (by decide)).1 _ _ _ rfl rfl rfl rfl rfl).2 (by decide)).2.2.2
        (by decide)).trans (by decide),
    (congrArg (fun r => r.2.trace)
      ((reuseaddr_sets_reuseport linux storeKernel storeEmpty 3 1 15 rfl rfl
        (by decide) (by decide)).2 65535 8 _ _ (by decide) rfl rfl rfl rfl).1).trans
      ((reuseaddr_sets_reuseport linux storeKernel storeEmpty 3 1 15 rfl rfl
        (by decide) (by decide)).2 65535 8 _ _ (by decide) rfl rfl rfl rfl).2⟩

/-! ## The last-error option -/

theorem convert_sockopt_Error (P : Platform) (l0 n0 : Int) :
    carambolas_net_convert_sockopt P SocketOptionLevel_Socket SocketOptionName_Error l0 n0
      = ⟨0, P.SOL_SOCKET, P.SO_ERROR⟩ := rfl

/-- C11: on a POSIX variant (whose `SO_ERROR` is not the number of a timeout
option), when `get_option` is called with (Socket, Error) and the native
`getsockopt` succeeds with the native value `e`, the operation returns Success
and delivers `carambolas_net_socket_geterror(e)`, the neutral code. -/
theorem getsockopt_error_normalized {W : Type} (P : Platform) (K : Kernel W) (s : Sys W)
    (sockfd out e : Int) (w' : W) (hP : P.WINDOWS = false)
    (hd : P.SO_ERROR ∉ [P.SO_RCVTIMEO, P.SO_SNDTIMEO])
    (hk : K.getsockopt_int32 s.world sockfd P.SOL_SOCKET P.SO_ERROR = (0, e, w')) :
    carambolas_net_socket_getsockopt P K s sockfd SocketOptionLevel_Socket
        SocketOptionName_Error out
      = (0, carambolas_net_socket_geterror P.errno e,
          ⟨w', s.trace ++ [Call.getsockopt sockfd P.SOL_SOCKET P.SO_ERROR OptBuf.int32]⟩) := by
  simp only [List.mem_cons, List.mem_singleton, List.not_mem_nil, or_false, not_or] at hd
  simp [carambolas_net_socket_getsockopt, hP, convert_sockopt_Error, hd.1, hd.2,
    native_getsockopt_int32, hk]

/-- Witness for C11: on Linux a pending native error 111 (ECONNREFUSED) is
delivered as 10061 (ConnectionRefused), and on macOS 61 as 10061. -/
theorem getsockopt_error_normalized_witness :
    carambolas_net_socket_getsockopt linux scriptKernel (script [0] ⟨0, 0, [], []⟩ 111 0)
        3 65535 4103 0
      = (0, 10061, ⟨⟨[], ⟨0, 0, [], []⟩, 111, 0⟩, [Call.getsockopt 3 1 4 OptBuf.int32]⟩)
    ∧ (carambolas_net_socket_getsockopt osx scriptKernel (script [0] ⟨0, 0, [], []⟩ 61 0)
        3 65535 4103 0).2.1 = 10061 :=
  ⟨getsockopt_error_normalized linux scriptKernel (script [0] ⟨0, 0, [], []⟩ 111 0)
      3 0 111 _ rfl (by decide) rfl,
    congrArg (fun r => r.2.1)
      (getsockopt_error_normalized osx scriptKernel (script [0] ⟨0, 0, [], []⟩ 61 0)
        3 0 61 _ rfl (by decide) rfl)⟩

/-! ## Receive -/

/-- C12: on a POSIX variant, when the native `recvfrom` (called with
`MSG_TRUNC`) returns a 32-bit length `n` greater than `size`, `recv_from`
returns MessageSize (10040), sets `bytes_read` to exactly `size`, and writes
the endpoint converted from the native source address. -/
theorem recvfrom_truncated {W : Type} (P : Platform) (K : Kernel W) (s : Sys W)
    (sockfd buffer offset size n : Int) (endpoint : carambolas_net_socket_endpoint_t)
    (sas : sockaddr_storage) (w' : W) (hP : P.WINDOWS = false)
    (hk : K.recvfrom s.world sockfd (buffer + offset) size P.MSG_TRUNC = (n, sas, w'))
    (hs : -(2 ^ 31) ≤ size) (hn : size < n) (h32 : n < 2 ^ 31) :
    carambolas_net_socket_recvfrom P K s sockfd buffer offset size endpoint
      = (10040, carambolas_net_socket_endpoint P sas, size,
          ⟨w', s.trace ++ [Call.recvfrom sockfd (buffer + offset) size P.MSG_TRUNC]⟩) := by
  have hw : wrapInt32 n = n := wrapInt32_of_int32 n (by omega) h32
  simp [carambolas_net_socket_recvfrom, hP, native_recvfrom, hk, hw, hn]

/-- Witness for C12: on Linux a datagram of 100 bytes from 127.0.0.1:8080
received into a buffer of 4 bytes gives MessageSize, 4 bytes read and the
sender's endpoint. -/
theorem recvfrom_truncated_witness :
    carambolas_net_socket_recvfrom linux scriptKernel
        (script [100] ⟨2, 36895, [127, 0, 0, 1], []⟩ 0 0) 3 4096 0 4 endpoint_zero
      = (10040, ⟨[0, 0, 0, 0, 0, 0, 0, 0, 0, 0, 0, 0, 127, 0, 0, 1], 2, 8080⟩, 4,
          ⟨⟨[], ⟨2, 36895, [127, 0, 0, 1], []⟩, 0, 0⟩, [Call.recvfrom 3 4096 4 32]⟩) :=
  recvfrom_truncated linux scriptKernel (script [100] ⟨2, 36895, [127, 0, 0, 1], []⟩ 0 0)
    3 4096 0 4 100 endpoint_zero _ _ rfl rfl (by decide) (by decide) (by decide)

/-- C13 (the code at the failing input): on the Windows variant, when the
native `recvfrom` fails (`-1`) with last error 10040 because the datagram was
larger than the 4-byte buffer, `recv_from` returns 10040 but stores `-1` in
`bytes_read` and leaves the endpoint as it was. -/
theorem recvfrom_windows_truncation_not_delivered :
    carambolas_net_socket_recvfrom windows scriptKernel
        (script [-1] ⟨2, 36895, [127, 0, 0, 1], []⟩ 0 10040) 3 4096 0 4 endpoint_zero
      = (10040, endpoint_zero, -1,
          ⟨⟨[], ⟨2, 36895, [127, 0, 0, 1], []⟩, 0, 10040⟩, [Call.recvfrom 3 4096 4 0]⟩) := by
  decide

/-! ## Open and close -/

/-- C14 (counterexample): on the Windows variant a native `socket` call that
yields the valid handle `2 ^ 32` does not make `open` return Success: the
handle is closed again and the generic error `-1` is returned, the handle
output keeping its content (here 7). -/
theorem open_windows_large_handle_rejected :
    (4294967296 : Int) ≠ windows.INVALID_SOCKET
    ∧ carambolas_net_socket_open windows scriptKernel
        (script [4294967296, 0] ⟨0, 0, [], []⟩ 0 0) 2 7
      = (-1, 7, ⟨⟨[], ⟨0, 0, [], []⟩, 0, 0⟩,
          [Call.socket 2 2 17, Call.closesocket 4294967296]⟩) := by
  decide

/-- C14 (amended): `open` with a family other than IPv4 (2) or IPv6 (23)
returns AddressFamilyNotSupported (10047) with the system and the handle
output unchanged.  With family 2 or 23 exactly one native `socket` call is
issued, with `PF_INET` resp. `PF_INET6`, the datagram type and UDP.  If it
yields `INVALID_SOCKET`, `open` returns the last error with the handle output
unchanged; if it yields a valid handle, `open` returns Success with that
handle (stored as `int32_t`), except on the Windows variant for a handle above
`0xFFFFFFFF`, which is closed again and reported as the generic error `-1`
with the handle output unchanged. -/
theorem open_behaviour {W : Type} (P : Platform) (K : Kernel W) (s : Sys W)
    (addressFamily sockfd : Int) :
    (addressFamily ≠ 2 → addressFamily ≠ 23 →
      carambolas_net_socket_open P K s addressFamily sockfd = (10047, sockfd, s))
    ∧ (addressFamily = 2 ∨ addressFamily = 23 →
      ∀ h : Int × Sys W,
        h = native_socket K s (if addressFamily = 2 then P.PF_INET else P.PF_INET6)
              (CARAMBOLAS_NET_SOCKET_TYPE P) P.IPPROTO_UDP →
        (CARAMBOLAS_NET_SOCKET_TYPE P = P.SOCK_DGRAM
          ∨ ∃ c, P.SOCK_CLOEXEC = some c ∧ CARAMBOLAS_NET_SOCKET_TYPE P = Int.lor P.SOCK_DGRAM c)
        ∧ h.2.trace = s.trace
            ++ [Call.socket (if addressFamily = 2 then P.PF_INET else P.PF_INET6)
                  (CARAMBOLAS_NET_SOCKET_TYPE P) P.IPPROTO_UDP]
        ∧ (h.1 = P.INVALID_SOCKET →
            carambolas_net_socket_open P K s addressFamily sockfd
              = (carambolas_net_socket_getlasterror P K h.2, sockfd, h.2))
        ∧ (h.1 ≠ P.INVALID_SOCKET → ¬(P.WINDOWS = true ∧ h.1 > 0xFFFFFFFF) →
            carambolas_net_socket_open P K s addressFamily sockfd = (0, wrapInt32 h.1, h.2)
            ∧ (-(2 ^ 31) ≤ h.1 → h.1 < 2 ^ 31 →
                carambolas_net_socket_open P K s addressFamily sockfd = (0, h.1, h.2)))
        ∧ (h.1 ≠ P.INVALID_SOCKET → P.WINDOWS = true → h.1 > 0xFFFFFFFF →
            carambolas_net_socket_open P K s addressFamily sockfd
              = (-1, sockfd, (native_closesocket K h.2 h.1).2)
            ∧ (native_closesocket K h.2 h.1).2.trace
              = h.2.trace ++ [Call.closesocket h.1])) := by
  constructor
  · intro h4 h6
    simp [carambolas_net_socket_open, h4, h6]
  · intro hf h hh
    subst hh
    refine ⟨?_, by simp [native_socket], ?_, ?_, ?_⟩
    · unfold CARAMBOLAS_NET_SOCKET_TYPE
      cases hc : P.SOCK_CLOEXEC with
      | none => exact Or.inl rfl
      | some c => exact Or.inr ⟨c, rfl, rfl⟩
    · intro hi
      rcases hf with hf | hf <;> subst hf <;>
        simp_all [carambolas_net_socket_open, CARAMBOLAS_NET_SOCKET_PROTO]
    · intro hi hw
      have hopen : carambolas_net_socket_open P K s addressFamily sockfd
          = (0, wrapInt32 (native_socket K s
              (if addressFamily = 2 then P.PF_INET else P.PF_INET6)
              (CARAMBOLAS_NET_SOCKET_TYPE P) P.IPPROTO_UDP).1,
            (native_socket K s (if addressFamily = 2 then P.PF_INET else P.PF_INET6)
              (CARAMBOLAS_NET_SOCKET_TYPE P) P.IPPROTO_UDP).2) := by
        rcases hf with hf | hf <;> subst hf <;>
          simp_all [carambolas_net_socket_open, CARAMBOLAS_NET_SOCKET_PROTO]
      refine ⟨hopen, fun h0 h1 => ?_⟩
      rw [hopen, wrapInt32_of_int32 _ h0 h1]
    · intro hi hw hbig
      refine ⟨?_, by simp [native_closesocket]⟩
      rcases hf with hf | hf <;> subst hf <;>
        simp_all [carambolas_net_socket_open, CARAMBOLAS_NET_SOCKET_PROTO]

/-- Witness for C14 (amended): on Linux family 5 is refused without a native
call; family 2 with the native handle 3 gives Success and handle 3 after one
`socket(PF_INET, SOCK_DGRAM | SOCK_CLOEXEC, IPPROTO_UDP)`; family 23 with a
failing `socket` and `errno` 24 (EMFILE) gives 10024 and leaves the handle
output (7) alone. -/
theorem open_behaviour_witness :
    carambolas_net_socket_open linux scriptKernel (script [3] ⟨0, 0, [], []⟩ 0 0) 5 7
      = (10047, 7, script [3] ⟨0, 0, [], []⟩ 0 0)
    ∧ carambolas_net_socket_open linux scriptKernel (script [3] ⟨0, 0, [], []⟩ 0 0) 2 7
      = (0, 3, ⟨⟨[], ⟨0, 0, [], []⟩, 0, 0⟩, [Call.socket 2 524290 17]⟩)
    ∧ carambolas_net_socket_open linux scriptKernel (script [-1] ⟨0, 0, [], []⟩ 0 24) 23 7
      = (10024, 7, ⟨⟨[], ⟨0, 0, [], []⟩, 0, 24⟩, [Call.socket 10 524290 17]⟩) :=
  ⟨(open_behaviour linux scriptKernel (script [3] ⟨0, 0, [], []⟩ 0 0) 5 7).1
      (by decide) (by decide),
    ((open_behaviour linux scriptKernel (script [3] ⟨0, 0, [], []⟩ 0 0) 2 7).2
      (Or.inl rfl) _ rfl).2.2.2.1 (by decide) (by decide) |>.2 (by decide) (by decide),
    ((open_behaviour linux scriptKernel (script [-1] ⟨0, 0, [], []⟩ 0 24) 23 7).2
      (Or.inr rfl) _ rfl).2.2.1 (by decide)⟩

/-- In the type `SOCKET` a 32-bit handle equals `INVALID_SOCKET` exactly when it
is `-1` (on Windows `SOCKET` is unsigned and at least 32 bits wide). -/
theorem toSOCKET_eq_INVALID_SOCKET_iff (P : Platform) (sockfd : Int)
    (hb : P.WINDOWS = true → 32 ≤ P.SOCKET_bits)
    (h0 : -(2 ^ 31) ≤ sockfd) (h1 : sockfd < 2 ^ 31) :
    P.toSOCKET sockfd = P.INVALID_SOCKET ↔ sockfd = -1 := by
  unfold Platform.toSOCKET Platform.INVALID_SOCKET
  cases hw : P.WINDOWS with
  | false => simp
  | true =>
    simp only [if_true]
    have hm : (2 : Int) ^ 32 ≤ 2 ^ P.SOCKET_bits :=
      pow_le_pow_right₀ (by norm_num) (hb hw)
    generalize (2 : Int) ^ P.SOCKET_bits = m at hm
    norm_num at h0 h1 hm
    constructor
    · intro h
      by_cases hn : 0 ≤ sockfd
      · rw [Int.emod_eq_of_lt hn (by omega)] at h
        omega
      · have h2 : (sockfd + m) % m = sockfd % m := by simp
        rw [← h2, Int.emod_eq_of_lt (by omega) (by omega)] at h
        omega
    · rintro rfl
      have h2 : ((-1 : Int) + m) % m = (-1) % m := by simp
      rw [← h2, Int.emod_eq_of_lt (by omega) (by omega)]
      ring

/-- C17 (counterexample): closing handle 5 and then closing it again, when the
handle no longer denotes an open socket (the second native close fails), issues
a second native close call and reaches another state than the single close. -/
theorem close_twice_differs_from_close_once :
    (carambolas_net_socket_close linux scriptKernel
        (carambolas_net_socket_close linux scriptKernel
          (script [0, -1] ⟨0, 0, [], []⟩ 0 0) 5) 5).trace
      = [Call.closesocket 5, Call.closesocket 5]
    ∧ carambolas_net_socket_close linux scriptKernel
        (carambolas_net_socket_close linux scriptKernel
          (script [0, -1] ⟨0, 0, [], []⟩ 0 0) 5) 5
      ≠ carambolas_net_socket_close linux scriptKernel
          (script [0, -1] ⟨0, 0, [], []⟩ 0 0) 5 := by
  decide

/-- C17 (amended): `close` is a no-op exactly on the invalid sentinel.  For a
32-bit handle equal to `-1` it issues no native call and leaves the system
unchanged, so closing `-1` twice is closing it once; for every other 32-bit
handle, whether or not it denotes an open socket, it issues exactly one native
close call, whose result it ignores.  `close` has no result and so reports no
error. -/
theorem close_noop_iff_invalid {W : Type} (P : Platform) (K : Kernel W) (s : Sys W)
    (sockfd : Int) (hb : P.WINDOWS = true → 32 ≤ P.SOCKET_bits)
    (h0 : -(2 ^ 31) ≤ sockfd) (h1 : sockfd < 2 ^ 31) :
    (sockfd = -1 → carambolas_net_socket_close P K s sockfd = s)
    ∧ (sockfd ≠ -1 →
        carambolas_net_socket_close P K s sockfd = (native_closesocket K s sockfd).2
        ∧ (carambolas_net_socket_close P K s sockfd).trace
            = s.trace ++ [Call.closesocket sockfd])
    ∧ carambolas_net_socket_close P K (carambolas_net_socket_close P K s (-1)) (-1)
        = carambolas_net_socket_close P K s (-1) := by
  have hi := toSOCKET_eq_INVALID_SOCKET_iff P sockfd hb h0 h1
  have hm : P.toSOCKET (-1) = P.INVALID_SOCKET :=
    (toSOCKET_eq_INVALID_SOCKET_iff P (-1) hb (by norm_num) (by norm_num)).mpr rfl
  refine ⟨fun h => ?_, fun h => ?_, ?_⟩
  · subst h
    simp [carambolas_net_socket_close, hm]
  · have hne : ¬P.toSOCKET sockfd = P.INVALID_SOCKET := fun e => h (hi.mp e)
    simp [carambolas_net_socket_close, hne, native_closesocket]
  · simp [carambolas_net_socket_close, hm]

/-- Witness for C17 (amended): on Linux and on Windows closing `-1` changes
nothing, and closing 5 issues one native close. -/
theorem close_noop_iff_invalid_witness :
    carambolas_net_socket_close linux scriptKernel (script [0] ⟨0, 0, [], []⟩ 0 0) (-1)
      = script [0] ⟨0, 0, [], []⟩ 0 0
    ∧ carambolas_net_socket_close windows scriptKernel (script [0] ⟨0, 0, [], []⟩ 0 0) (-1)
      = script [0] ⟨0, 0, [], []⟩ 0 0
    ∧ (carambolas_net_socket_close linux scriptKernel (script [0] ⟨0, 0, [], []⟩ 0 0) 5).trace
      = [Call.closesocket 5] :=
  ⟨(close_noop_iff_invalid linux scriptKernel (script [0] ⟨0, 0, [], []⟩ 0 0) (-1)
      (by decide) (by decide) (by decide)).1 rfl,
    (close_noop_iff_invalid windows scriptKernel (script [0] ⟨0, 0, [], []⟩ 0 0) (-1)
      (by decide) (by decide) (by decide)).1 rfl,
    ((close_noop_iff_invalid linux scriptKernel (script [0] ⟨0, 0, [], []⟩ 0 0) 5
      (by decide) (by decide) (by decide)).2.1 (by decide)).2⟩

/-! ## Unsupported address families -/

/-- C16: `bind` and `send_to` called with an endpoint whose family tag is
neither IPv4 (2) nor IPv6 (23) return AddressFamilyNotSupported (10047) with
the system (world and trace of native calls) unchanged; `bind` leaves the
endpoint and `send_to` leaves the bytes-sent output as they were. -/
theorem bad_family_no_native_call {W : Type} (P : Platform) (K : Kernel W) (s : Sys W)
    (sockfd buffer offset size nbytes : Int) (endpoint : carambolas_net_socket_endpoint_t)
    (h4 : endpoint.family ≠ 2) (h6 : endpoint.family ≠ 23) :
    carambolas_net_socket_bind P K s sockfd endpoint = (10047, endpoint, s)
    ∧ carambolas_net_socket_sendto P K s sockfd buffer offset size endpoint nbytes
        = (10047, nbytes, s) := by
  constructor
  · simp [carambolas_net_socket_bind, h4, h6]
  · simp [carambolas_net_socket_sendto, h4, h6]

/-- Witness for C16: an endpoint with family tag 10 (the Linux `AF_INET6`, not
the neutral 23) is refused by `bind` and by `send_to` on Linux and on Windows. -/
theorem bad_family_no_native_call_witness :
    (carambolas_net_socket_bind linux scriptKernel (script [0, 0] ⟨0, 0, [], []⟩ 0 0) 3
        ⟨List.replicate 16 0, 10, 8080⟩
      = (10047, ⟨List.replicate 16 0, 10, 8080⟩, script [0, 0] ⟨0, 0, [], []⟩ 0 0)
    ∧ carambolas_net_socket_sendto linux scriptKernel (script [0, 0] ⟨0, 0, [], []⟩ 0 0) 3
        4096 0 4 ⟨List.replicate 16 0, 10, 8080⟩ 9
      = (10047, 9, script [0, 0] ⟨0, 0, [], []⟩ 0 0))
    ∧ (carambolas_net_socket_bind windows scriptKernel (script [0, 0] ⟨0, 0, [], []⟩ 0 0) 3
        ⟨List.replicate 16 0, 10, 8080⟩
      = (10047, ⟨List.replicate 16 0, 10, 8080⟩, script [0, 0] ⟨0, 0, [], []⟩ 0 0)
    ∧ carambolas_net_socket_sendto windows scriptKernel (script [0, 0] ⟨0, 0, [], []⟩ 0 0) 3
        4096 0 4 ⟨List.replicate 16 0, 10, 8080⟩ 9
      = (10047, 9, script [0, 0] ⟨0, 0, [], []⟩ 0 0)) :=
  ⟨bad_family_no_native_call linux scriptKernel _ 3 4096 0 4 9 _ (by decide) (by decide),
    bad_family_no_native_call windows scriptKernel _ 3 4096 0 4 9 _ (by decide) (by decide)⟩

/-! ## Bind -/

/-- C15: on a non-Windows variant, `bind` with an endpoint of family IPv4 or
IPv6 issues the native `bind` with the native address built from the endpoint.
If it and the following native `getsockname` both succeed, `bind` returns
Success and the endpoint is replaced by the conversion of the address that
`getsockname` returned (family tag 2 or 23 according to the native family, port
converted to host order).  If the native `bind` fails, `getsockname` is not
called, the endpoint is unchanged and the normalized last error is returned.
If `getsockname` fails, the endpoint is unchanged and a nonzero error is
returned. -/
theorem bind_requeries_endpoint {W : Type} (P : Platform) (K : Kernel W) (s : Sys W)
    (sockfd : Int) (endpoint : carambolas_net_socket_endpoint_t)
    (hP : P.WINDOWS = false) (hf : endpoint.family = 2 ∨ endpoint.family = 23) :
    ∀ (sa : sockaddr) (b : Int × Sys W) (g : Int × sockaddr_storage × Sys W),
      sa = (if endpoint.family = 2
            then sockaddr.in4 (carambolas_net_socket_sockaddr_in P endpoint)
            else sockaddr.in6 (carambolas_net_socket_sockaddr_in6 P endpoint)) →
      b = native_bind K s sockfd sa →
      g = native_getsockname K b.2 sockfd →
      (b.1 = 0 → g.1 = 0 →
        carambolas_net_socket_bind P K s sockfd endpoint
          = (0, carambolas_net_socket_endpoint P g.2.1, g.2.2)
        ∧ g.2.2.trace = s.trace ++ [Call.bind sockfd sa, Call.getsockname sockfd]
        ∧ (g.2.1.ss_family = P.AF_INET →
            (carambolas_net_socket_endpoint P g.2.1).family = 2
            ∧ (carambolas_net_socket_endpoint P g.2.1).port = ntohs P g.2.1.port)
        ∧ (g.2.1.ss_family ≠ P.AF_INET → g.2.1.ss_family = P.AF_INET6 →
            (carambolas_net_socket_endpoint P g.2.1).family = 23
            ∧ (carambolas_net_socket_endpoint P g.2.1).port = ntohs P g.2.1.port))
      ∧ (b.1 ≠ 0 →
        carambolas_net_socket_bind P K s sockfd endpoint
          = (carambolas_net_socket_getlasterror P K b.2, endpoint, b.2)
        ∧ b.2.trace = s.trace ++ [Call.bind sockfd sa])
      ∧ (b.1 = 0 → g.1 ≠ 0 →
        carambolas_net_socket_bind P K s sockfd endpoint
          = (carambolas_net_socket_getlasterror P K g.2.2, endpoint, g.2.2)
        ∧ (carambolas_net_socket_bind P K s sockfd endpoint).1 ≠ 0) := by
  intro sa b g hsa hb hg
  have hbind : carambolas_net_socket_bind P K s sockfd endpoint
      = carambolas_net_socket_bind_sa P K s sockfd endpoint sa := by
    rcases hf with h | h
    · simp [carambolas_net_socket_bind, h, hsa]
    · simp [carambolas_net_socket_bind, h, hsa]
  subst hb; subst hg
  refine ⟨fun hb0 hg0 => ⟨?_, ?_, fun h4 => ?_, fun h4 h6 => ?_⟩, fun hb0 => ⟨?_, ?_⟩,
    fun hb0 hg0 => ?_⟩
  · rw [hbind]
    simp [carambolas_net_socket_bind_sa, carambolas_net_socket_getsockname, hb0, hg0, hP]
  · simp [native_bind, native_getsockname]
  · simp [carambolas_net_socket_endpoint, h4]
  · have h46 : ¬P.AF_INET6 = P.AF_INET := fun h => h4 (h6.trans h)
    simp [carambolas_net_socket_endpoint, h6, h46, endpoint_zero]
  · rw [hbind]
    simp [carambolas_net_socket_bind_sa, hb0]
  · simp [native_bind]
  · have hne := getlasterror_ne_success P K
      (native_getsockname K (native_bind K s sockfd sa).2 sockfd).2.2 hP
    have hb : carambolas_net_socket_bind P K s sockfd endpoint
        = (carambolas_net_socket_getlasterror P K
            (native_getsockname K (native_bind K s sockfd sa).2 sockfd).2.2, endpoint,
            (native_getsockname K (native_bind K s sockfd sa).2 sockfd).2.2) := by
      rw [hbind]
      simp [carambolas_net_socket_bind_sa, carambolas_net_socket_getsockname, hb0, hg0, hne]
    exact ⟨hb, by rw [hb]; exact hne⟩

/-- Witness for C15: on Linux, binding 0.0.0.0 port 0 when the kernel assigns
port 8080 returns Success with the endpoint `0.0.0.0:8080`, family 2; when the
native `bind` fails with `errno` 98 (EADDRINUSE) the result is 10048, the
endpoint is unchanged and `getsockname` is not called. -/
theorem bind_requeries_endpoint_witness :
    carambolas_net_socket_bind linux scriptKernel
        (script [0, 0] ⟨2, 36895, [0, 0, 0, 0], []⟩ 0 0) 3 ⟨List.replicate 16 0, 2, 0⟩
      = (0, ⟨List.replicate 16 0, 2, 8080⟩, ⟨⟨[], ⟨2, 36895, [0, 0, 0, 0], []⟩, 0, 0⟩,
          [Call.bind 3 (sockaddr.in4 ⟨2, 0, [0, 0, 0, 0]⟩), Call.getsockname 3]⟩)
    ∧ carambolas_net_socket_bind linux scriptKernel
        (script [-1] ⟨2, 36895, [0, 0, 0, 0], []⟩ 0 98) 3 ⟨List.replicate 16 0, 2, 0⟩
      = (10048, ⟨List.replicate 16 0, 2, 0⟩, ⟨⟨[], ⟨2, 36895, [0, 0, 0, 0], []⟩, 0, 98⟩,
          [Call.bind 3 (sockaddr.in4 ⟨2, 0, [0, 0, 0, 0]⟩)]⟩) :=
  ⟨((bind_requeries_endpoint linux scriptKernel
        (script [0, 0] ⟨2, 36895, [0, 0, 0, 0], []⟩ 0 0) 3 ⟨List.replicate 16 0, 2, 0⟩
        rfl (Or.inl rfl) _ _ _ rfl rfl rfl).1 rfl rfl).1,
    ((bind_requeries_endpoint linux scriptKernel
        (script [-1] ⟨2, 36895, [0, 0, 0, 0], []⟩ 0 98) 3 ⟨List.replicate 16 0, 2, 0⟩
        rfl (Or.inl rfl) _ _ _ rfl rfl rfl).2.1 (by decide)).1⟩

/-! ## Endpoint and native address -/

theorem ntohs_htons (P : Platform) (x : Int) (h0 : 0 ≤ x) (h1 : x < 65536) :
    ntohs P (htons P x) = x := by
  unfold ntohs htons
  cases P.bigEndian
  · simp only [Bool.false_eq_true, if_false]
    have hlo : 0 ≤ x % 256 ∧ x % 256 < 256 := by omega
    have hhi : 0 ≤ x / 256 ∧ x / 256 < 256 := by omega
    rw [Int.emod_eq_of_lt hhi.1 hhi.2]
    have e1 : (x % 256 * 256 + x / 256) / 256 = x % 256 := by
      rw [add_comm, Int.add_mul_ediv_right _ _ (by norm_num),
        Int.ediv_eq_zero_of_lt hhi.1 hhi.2, zero_add]
    have e2 : (x % 256 * 256 + x / 256) % 256 = x / 256 := by
      rw [add_comm, Int.add_mul_emod_self, Int.emod_eq_of_lt hhi.1 hhi.2]
    rw [e1, e2, Int.emod_eq_of_lt hlo.1 hlo.2]
    omega
  · simp only [if_true]
    omega

/-- C18: for every endpoint whose port is a 16-bit value, converting it with
`carambolas_net_socket_sockaddr_in` (port put in network byte order) and back
with `carambolas_net_socket_endpoint` yields family 2, the same port and the
same 4 address bytes; converting it with `carambolas_net_socket_sockaddr_in6`
and back yields family 23, the same port and the same 16 address bytes (the
native `AF_INET` and `AF_INET6` being different numbers). -/
theorem endpoint_round_trip (P : Platform) (e : carambolas_net_socket_endpoint_t)
    (h0 : 0 ≤ e.port) (h1 : e.port < 65536) (hne : P.AF_INET ≠ P.AF_INET6) :
    ((carambolas_net_socket_sockaddr_in P e).sin_port = htons P e.port
      ∧ (carambolas_net_socket_endpoint P
          (sockaddr.in4 (carambolas_net_socket_sockaddr_in P e)).storage).family = 2
      ∧ (carambolas_net_socket_endpoint P
          (sockaddr.in4 (carambolas_net_socket_sockaddr_in P e)).storage).port = e.port
      ∧ (carambolas_net_socket_endpoint P
          (sockaddr.in4 (carambolas_net_socket_sockaddr_in P e)).storage).ipv4 = e.ipv4)
    ∧ ((carambolas_net_socket_sockaddr_in6 P e).sin6_port = htons P e.port
      ∧ (carambolas_net_socket_endpoint P
          (sockaddr.in6 (carambolas_net_socket_sockaddr_in6 P e)).storage).family = 23
      ∧ (carambolas_net_socket_endpoint P
          (sockaddr.in6 (carambolas_net_socket_sockaddr_in6 P e)).storage).port = e.port
      ∧ (carambolas_net_socket_endpoint P
          (sockaddr.in6 (carambolas_net_socket_sockaddr_in6 P e)).storage).ipv6 = e.ipv6) := by
  have hp := ntohs_htons P e.port h0 h1
  have hne' : ¬P.AF_INET6 = P.AF_INET := fun h => hne h.symm
  refine ⟨⟨rfl, ?_, ?_, ?_⟩, ⟨rfl, ?_, ?_, ?_⟩⟩
  · simp [carambolas_net_socket_endpoint, carambolas_net_socket_sockaddr_in, sockaddr.storage]
  · simp [carambolas_net_socket_endpoint, carambolas_net_socket_sockaddr_in, sockaddr.storage,
      hp, carambolas_net_socket_endpoint_t.set_ipv4]
  · simp [carambolas_net_socket_endpoint, carambolas_net_socket_sockaddr_in, sockaddr.storage,
      carambolas_net_socket_endpoint_t.set_ipv4, carambolas_net_socket_endpoint_t.ipv4,
      endpoint_zero]
  · simp [carambolas_net_socket_endpoint, carambolas_net_socket_sockaddr_in6,
      sockaddr.storage, hne']
  · simp [carambolas_net_socket_endpoint, carambolas_net_socket_sockaddr_in6,
      sockaddr.storage, hne', hp]
  · simp [carambolas_net_socket_endpoint, carambolas_net_socket_sockaddr_in6,
      sockaddr.storage, hne']

/-- Witness for C18: on Linux (little-endian) the endpoint 192.168.1.10:8080
becomes a `sockaddr_in` with port 36895 (0x901F) and comes back as
192.168.1.10:8080, family 2; the IPv6 endpoint `::1` port 8080 comes back with
family 23. -/
theorem endpoint_round_trip_witness :
    carambolas_net_socket_sockaddr_in linux
        ⟨[0, 0, 0, 0, 0, 0, 0, 0, 0, 0, 255, 255, 192, 168, 1, 10], 2, 8080⟩
      = ⟨2, 36895, [192, 168, 1, 10]⟩
    ∧ carambolas_net_socket_endpoint linux ⟨2, 36895, [192, 168, 1, 10], List.replicate 16 0⟩
      = ⟨[0, 0, 0, 0, 0, 0, 0, 0, 0, 0, 0, 0, 192, 168, 1, 10], 2, 8080⟩
    ∧ (carambolas_net_socket_endpoint linux
        (sockaddr.in4 (carambolas_net_socket_sockaddr_in linux
          ⟨[0, 0, 0, 0, 0, 0, 0, 0, 0, 0, 255, 255, 192, 168, 1, 10], 2, 8080⟩)).storage).port
      = 8080
    ∧ (carambolas_net_socket_endpoint linux
        (sockaddr.in6 (carambolas_net_socket_sockaddr_in6 linux
          ⟨[0, 0, 0, 0, 0, 0, 0, 0, 0, 0, 0, 0, 0, 0, 0, 1], 23, 8080⟩)).storage).family
      = 23 :=
  ⟨by decide, by decide,
    (endpoint_round_trip linux
      ⟨[0, 0, 0, 0, 0, 0, 0, 0, 0, 0, 255, 255, 192, 168, 1, 10], 2, 8080⟩
      (by decide) (by decide) (by decide)).1.2.2.1,
    (endpoint_round_trip linux ⟨[0, 0, 0, 0, 0, 0, 0, 0, 0, 0, 0, 0, 0, 0, 0, 1], 23, 8080⟩
      (by decide) (by decide) (by decide)).2.2.1⟩

/-! ## Failure reporting -/

theorem geterror_case_values_neutral (E : Errno) :
    ∀ r ∈ (geterror_cases E).map Prod.snd, r ∈ neutral_error_constants := by
  simp only [geterror_cases, List.map_cons, List.map_nil]
  decide

/-- Error normalization only yields constants declared in `native.h`. -/
theorem geterror_mem_neutral (E : Errno) (code : Int) :
    carambolas_net_socket_geterror E code ∈ neutral_error_constants := by
  unfold carambolas_net_socket_geterror
  cases h : (geterror_cases E).lookup code with
  | none => decide
  | some r => exact geterror_case_values_neutral E r (lookup_mem_values code r _ h)

theorem geterror_unlisted (E : Errno) (code : Int) (h : code ∉ geterror_labels E) :
    carambolas_net_socket_geterror E code = -1 := by
  unfold carambolas_net_socket_geterror
  rw [(lookup_eq_none_iff_not_mem code (geterror_cases E)).mpr h]

theorem open_native_failure {W : Type} (P : Platform) (K : Kernel W) (s : Sys W)
    (addressFamily sockfd : Int) (hf : addressFamily = 2 ∨ addressFamily = 23)
    (hk : (native_socket K s (if addressFamily = 2 then P.PF_INET else P.PF_INET6)
      (CARAMBOLAS_NET_SOCKET_TYPE P) P.IPPROTO_UDP).1 = P.INVALID_SOCKET) :
    carambolas_net_socket_open P K s addressFamily sockfd
      = (carambolas_net_socket_getlasterror P K
          (native_socket K s (if addressFamily = 2 then P.PF_INET else P.PF_INET6)
            (CARAMBOLAS_NET_SOCKET_TYPE P) P.IPPROTO_UDP).2, sockfd,
          (native_socket K s (if addressFamily = 2 then P.PF_INET else P.PF_INET6)
            (CARAMBOLAS_NET_SOCKET_TYPE P) P.IPPROTO_UDP).2) := by
  rcases hf with hf | hf <;> subst hf <;>
    simp_all [carambolas_net_socket_open, CARAMBOLAS_NET_SOCKET_PROTO]

theorem setsockopt_primary_failure {W : Type} (P : Platform) (K : Kernel W) (s : Sys W)
    (sockfd level optname optval l n : Int) (hP : P.WINDOWS = false)
    (hc : carambolas_net_convert_sockopt P level optname level optname = ⟨0, l, n⟩)
    (hk : (native_setsockopt K s sockfd l n (setsockopt_optptr P l n optval)).1 ≠ 0) :
    carambolas_net_socket_setsockopt P K s sockfd level optname optval
      = (carambolas_net_socket_getlasterror P K
          (native_setsockopt K s sockfd l n (setsockopt_optptr P l n optval)).2,
          (native_setsockopt K s sockfd l n (setsockopt_optptr P l n optval)).2) := by
  simp only [carambolas_net_socket_setsockopt, hP, hc, if_true, Bool.false_eq_true, if_false,
    if_neg hk]

theorem setsockopt_type_query_failure {W : Type} (P : Platform) (K : Kernel W) (s : Sys W)
    (sockfd level optname optval rp : Int) (hP : P.WINDOWS = false)
    (hrp : P.SO_REUSEPORT = some rp)
    (hc : carambolas_net_convert_sockopt P level optname level optname
      = ⟨0, P.SOL_SOCKET, P.SO_REUSEADDR⟩)
    (hp : (native_setsockopt K s sockfd P.SOL_SOCKET P.SO_REUSEADDR
      (setsockopt_optptr P P.SOL_SOCKET P.SO_REUSEADDR optval)).1 = 0)
    (hk : (native_getsockopt_int32 K (native_setsockopt K s sockfd P.SOL_SOCKET P.SO_REUSEADDR
      (setsockopt_optptr P P.SOL_SOCKET P.SO_REUSEADDR optval)).2 sockfd P.SOL_SOCKET
        P.SO_TYPE).1 ≠ 0) :
    carambolas_net_socket_setsockopt P K s sockfd level optname optval
      = (carambolas_net_socket_getlasterror P K
          (native_getsockopt_int32 K (native_setsockopt K s sockfd P.SOL_SOCKET P.SO_REUSEADDR
            (setsockopt_optptr P P.SOL_SOCKET P.SO_REUSEADDR optval)).2 sockfd P.SOL_SOCKET
              P.SO_TYPE).2.2,
          (native_getsockopt_int32 K (native_setsockopt K s sockfd P.SOL_SOCKET P.SO_REUSEADDR
            (setsockopt_optptr P P.SOL_SOCKET P.SO_REUSEADDR optval)).2 sockfd P.SOL_SOCKET
              P.SO_TYPE).2.2) := by
  simp only [carambolas_net_socket_setsockopt, hP, hc, hrp, hp, if_true, Bool.false_eq_true,
    if_false, if_neg hk, and_self]

theorem setsockopt_reuseport_failure {W : Type} (P : Platform) (K : Kernel W) (s : Sys W)
    (sockfd level optname optval rp : Int) (hP : P.WINDOWS = false)
    (hrp : P.SO_REUSEPORT = some rp)
    (hc : carambolas_net_convert_sockopt P level optname level optname
      = ⟨0, P.SOL_SOCKET, P.SO_REUSEADDR⟩)
    (p : Int × Sys W) (t : Int × Int × Sys W) (a : Int × Sys W)
    (hpe : p = native_setsockopt K s sockfd P.SOL_SOCKET P.SO_REUSEADDR
      (setsockopt_optptr P P.SOL_SOCKET P.SO_REUSEADDR optval))
    (hte : t = native_getsockopt_int32 K p.2 sockfd P.SOL_SOCKET P.SO_TYPE)
    (hae : a = native_setsockopt K t.2.2 sockfd P.SOL_SOCKET rp
      (setsockopt_optptr P P.SOL_SOCKET P.SO_REUSEADDR optval))
    (hp : p.1 = 0) (ht : t.1 = 0)
    (hty : t.2.1 = P.SOCK_DGRAM ∨ t.2.1 = P.SOCK_STREAM) (hk : a.1 ≠ 0) :
    carambolas_net_socket_setsockopt P K s sockfd level optname optval
      = (carambolas_net_socket_getlasterror P K a.2, a.2) := by
  subst hpe; subst hte; subst hae
  have hty' : ¬(
      (native_getsockopt_int32 K (native_setsockopt K s sockfd P.SOL_SOCKET P.SO_REUSEADDR
        (setsockopt_optptr P P.SOL_SOCKET P.SO_REUSEADDR optval)).2 sockfd P.SOL_SOCKET
          P.SO_TYPE).2.1 ≠ P.SOCK_DGRAM
      ∧ (native_getsockopt_int32 K (native_setsockopt K s sockfd P.SOL_SOCKET P.SO_REUSEADDR
        (setsockopt_optptr P P.SOL_SOCKET P.SO_REUSEADDR optval)).2 sockfd P.SOL_SOCKET
          P.SO_TYPE).2.1 ≠ P.SOCK_STREAM) := by
    rcases hty with h | h
    · exact fun hc => hc.1 h
    · exact fun hc => hc.2 h
  simp only [carambolas_net_socket_setsockopt, hP, hc, hrp, hp, ht, if_true,
    Bool.false_eq_true, if_false, if_neg hk, if_neg hty', and_self]

theorem getsockopt_native_failure {W : Type} (P : Platform) (K : Kernel W) (s : Sys W)
    (sockfd level optname optval l n : Int) (hP : P.WINDOWS = false)
    (hc : carambolas_net_convert_sockopt P level optname level optname = ⟨0, l, n⟩) :
    (l = P.SOL_SOCKET ∧ (n = P.SO_RCVTIMEO ∨ n = P.SO_SNDTIMEO) →
      (native_getsockopt_timeval K s sockfd l n).1 ≠ 0 →
      carambolas_net_socket_getsockopt P K s sockfd level optname optval
        = (carambolas_net_socket_getlasterror P K (native_getsockopt_timeval K s sockfd l n).2.2,
            optval, (native_getsockopt_timeval K s sockfd l n).2.2))
    ∧ (¬(l = P.SOL_SOCKET ∧ (n = P.SO_RCVTIMEO ∨ n = P.SO_SNDTIMEO)) →
      (native_getsockopt_int32 K s sockfd l n).1 ≠ 0 →
      carambolas_net_socket_getsockopt P K s sockfd level optname optval
        = (carambolas_net_socket_getlasterror P K (native_getsockopt_int32 K s sockfd l n).2.2,
            optval, (native_getsockopt_int32 K s sockfd l n).2.2)) := by
  constructor
  · intro ht hk
    simp only [carambolas_net_socket_getsockopt, hP, hc, if_true, Bool.false_eq_true, if_false,
      if_pos ht, if_neg hk]
  · intro ht hk
    simp only [carambolas_net_socket_getsockopt, hP, hc, if_true, Bool.false_eq_true, if_false,
      if_neg ht, if_neg hk]

theorem bind_sa_native_failure {W : Type} (P : Platform) (K : Kernel W) (s : Sys W)
    (sockfd : Int) (endpoint : carambolas_net_socket_endpoint_t) (sa : sockaddr)
    (hP : P.WINDOWS = false) :
    ((native_bind K s sockfd sa).1 ≠ 0 →
      carambolas_net_socket_bind_sa P K s sockfd endpoint sa
        = (carambolas_net_socket_getlasterror P K (native_bind K s sockfd sa).2, endpoint,
            (native_bind K s sockfd sa).2))
    ∧ ((native_bind K s sockfd sa).1 = 0 →
      (native_getsockname K (native_bind K s sockfd sa).2 sockfd).1 ≠ 0 →
      carambolas_net_socket_bind_sa P K s sockfd endpoint sa
        = (carambolas_net_socket_getlasterror P K
            (native_getsockname K (native_bind K s sockfd sa).2 sockfd).2.2, endpoint,
            (native_getsockname K (native_bind K s sockfd sa).2 sockfd).2.2)) := by
  constructor
  · intro hb
    simp [carambolas_net_socket_bind_sa, hb]
  · intro hb hg
    have hne := getlasterror_ne_success P K
      (native_getsockname K (native_bind K s sockfd sa).2 sockfd).2.2 hP
    simp [carambolas_net_socket_bind_sa, carambolas_net_socket_getsockname, hb, hg, hne]

/-- C19: on a POSIX variant the code by which an operation reports the failure
of a native call is `carambolas_net_socket_geterror(errno)`: a constant of
`native.h`, never Success (0), and `-1` for an `errno` that is not a case label.
This is the code returned by `open` when `socket` fails, by `set_option` when
the primary set, the socket-type query or the port-reuse set fails, by
`get_option` when the native read fails, by `set_blocking` when `fcntl` fails,
by `bind` when the native `bind` or `getsockname` fails, by `available` when
`ioctl` fails, by `poll` when `select` fails, and by `recv_from` (for a buffer
size that is not negative) and `send_to` when the native result is negative. -/
theorem native_failure_reports_normalized_errno {W : Type} (P : Platform) (K : Kernel W)
    (hP : P.WINDOWS = false) :
    (∀ s : Sys W,
      carambolas_net_socket_getlasterror P K s
        = carambolas_net_socket_geterror P.errno (K.errno s.world)
      ∧ carambolas_net_socket_getlasterror P K s ∈ neutral_error_constants
      ∧ carambolas_net_socket_getlasterror P K s ≠ 0
      ∧ (K.errno s.world ∉ geterror_labels P.errno →
          carambolas_net_socket_getlasterror P K s = -1))
    ∧ (∀ (s : Sys W) (addressFamily sockfd : Int) (h : Int × Sys W),
      addressFamily = 2 ∨ addressFamily = 23 →
      h = native_socket K s (if addressFamily = 2 then P.PF_INET else P.PF_INET6)
            (CARAMBOLAS_NET_SOCKET_TYPE P) P.IPPROTO_UDP →
      h.1 = -1 →
      carambolas_net_socket_open P K s addressFamily sockfd
        = (carambolas_net_socket_getlasterror P K h.2, sockfd, h.2))
    ∧ (∀ (s : Sys W) (sockfd level optname optval : Int) (c : Sockopt) (p : Int × Sys W),
      c = carambolas_net_convert_sockopt P level optname level optname → c.r = 0 →
      p = native_setsockopt K s sockfd c.system_level c.system_name
            (setsockopt_optptr P c.system_level c.system_name optval) →
      p.1 ≠ 0 →
      carambolas_net_socket_setsockopt P K s sockfd level optname optval
        = (carambolas_net_socket_getlasterror P K p.2, p.2))
    ∧ (∀ (s : Sys W) (sockfd optval rp : Int) (p : Int × Sys W) (t : Int × Int × Sys W)
        (a : Int × Sys W),
      P.SO_REUSEPORT = some rp →
      p = native_setsockopt K s sockfd P.SOL_SOCKET P.SO_REUSEADDR
            (setsockopt_optptr P P.SOL_SOCKET P.SO_REUSEADDR optval) →
      t = native_getsockopt_int32 K p.2 sockfd P.SOL_SOCKET P.SO_TYPE →
      a = native_setsockopt K t.2.2 sockfd P.SOL_SOCKET rp
            (setsockopt_optptr P P.SOL_SOCKET P.SO_REUSEADDR optval) →
      p.1 = 0 →
      (t.1 ≠ 0 →
        carambolas_net_socket_setsockopt P K s sockfd SocketOptionLevel_Socket
            SocketOptionName_ReuseAddress optval
          = (carambolas_net_socket_getlasterror P K t.2.2, t.2.2))
      ∧ (t.1 = 0 → t.2.1 = P.SOCK_DGRAM ∨ t.2.1 = P.SOCK_STREAM → a.1 ≠ 0 →
        carambolas_net_socket_setsockopt P K s sockfd SocketOptionLevel_Socket
            SocketOptionName_ReuseAddress optval
          = (carambolas_net_socket_getlasterror P K a.2, a.2)))
    ∧ (∀ (s : Sys W) (sockfd level optname optval : Int) (c : Sockopt),
      c = carambolas_net_convert_sockopt P level optname level optname → c.r = 0 →
      (c.system_level = P.SOL_SOCKET
          ∧ (c.system_name = P.SO_RCVTIMEO ∨ c.system_name = P.SO_SNDTIMEO) →
        (native_getsockopt_timeval K s sockfd c.system_level c.system_name).1 ≠ 0 →
        carambolas_net_socket_getsockopt P K s sockfd level optname optval
          = (carambolas_net_socket_getlasterror P K
              (native_getsockopt_timeval K s sockfd c.system_level c.system_name).2.2, optval,
              (native_getsockopt_timeval K s sockfd c.system_level c.system_name).2.2))
      ∧ (¬(c.system_level = P.SOL_SOCKET
          ∧ (c.system_name = P.SO_RCVTIMEO ∨ c.system_name = P.SO_SNDTIMEO)) →
        (native_getsockopt_int32 K s sockfd c.system_level c.system_name).1 ≠ 0 →
        carambolas_net_socket_getsockopt P K s sockfd level optname optval
          = (carambolas_net_socket_getlasterror P K
              (native_getsockopt_int32 K s sockfd c.system_level c.system_name).2.2, optval,
              (native_getsockopt_int32 K s sockfd c.system_level c.system_name).2.2)))
    ∧ (∀ (s : Sys W) (sockfd value : Int) (r : Int × Sys W),
      r = native_fcntl K s sockfd P.F_SETFL P.O_NONBLOCK ((value + 1) % 2) → r.1 ≠ 0 →
      carambolas_net_socket_setblocking P K s sockfd value
        = (carambolas_net_socket_getlasterror P K r.2, r.2))
    ∧ (∀ (s : Sys W) (sockfd : Int) (endpoint : carambolas_net_socket_endpoint_t)
        (sa : sockaddr) (b : Int × Sys W) (g : Int × sockaddr_storage × Sys W),
      endpoint.family = 2 ∨ endpoint.family = 23 →
      sa = (if endpoint.family = 2
            then sockaddr.in4 (carambolas_net_socket_sockaddr_in P endpoint)
            else sockaddr.in6 (carambolas_net_socket_sockaddr_in6 P endpoint)) →
      b = native_bind K s sockfd sa →
      g = native_getsockname K b.2 sockfd →
      (b.1 ≠ 0 →
        carambolas_net_socket_bind P K s sockfd endpoint
          = (carambolas_net_socket_getlasterror P K b.2, endpoint, b.2))
      ∧ (b.1 = 0 → g.1 ≠ 0 →
        carambolas_net_socket_bind P K s sockfd endpoint
          = (carambolas_net_socket_getlasterror P K g.2.2, endpoint, g.2.2)))
    ∧ (∀ (s : Sys W) (sockfd nbytes : Int) (r : Int × Int × Sys W),
      r = native_ioctl_FIONREAD K s sockfd P.FIONREAD → r.1 ≠ 0 →
      carambolas_net_socket_available P K s sockfd nbytes
        = (carambolas_net_socket_getlasterror P K r.2.2, nbytes, r.2.2))
    ∧ (∀ (s : Sys W) (sockfd microseconds mode result : Int) (r : Int × Sys W),
      r = native_select K s (sockfd + 1) [sockfd] (Int.tdiv microseconds 1000000)
            (Int.tmod microseconds 1000000) →
      r.1 < 0 →
      carambolas_net_socket_poll P K s sockfd microseconds mode result
        = (carambolas_net_socket_getlasterror P K r.2, result, r.2))
    ∧ (∀ (s : Sys W) (sockfd buffer offset size : Int)
        (endpoint : carambolas_net_socket_endpoint_t) (r : Int × sockaddr_storage × Sys W),
      r = native_recvfrom K s sockfd (buffer + offset) size P.MSG_TRUNC →
      0 ≤ size → wrapInt32 r.1 < 0 →
      carambolas_net_socket_recvfrom P K s sockfd buffer offset size endpoint
        = (carambolas_net_socket_getlasterror P K r.2.2, endpoint, wrapInt32 r.1, r.2.2))
    ∧ (∀ (s : Sys W) (sockfd buffer offset size nbytes : Int)
        (endpoint : carambolas_net_socket_endpoint_t) (sa : sockaddr) (r : Int × Sys W),
      endpoint.family = 2 ∨ endpoint.family = 23 →
      sa = (if endpoint.family = 2
            then sockaddr.in4 (carambolas_net_socket_sockaddr_in P endpoint)
            else sockaddr.in6 (carambolas_net_socket_sockaddr_in6 P endpoint)) →
      r = native_sendto K s sockfd (buffer + offset) size 0 sa →
      wrapInt32 r.1 < 0 →
      carambolas_net_socket_sendto P K s sockfd buffer offset size endpoint nbytes
        = (carambolas_net_socket_getlasterror P K r.2, wrapInt32 r.1, r.2)) := by
  have hle : ∀ s : Sys W, carambolas_net_socket_getlasterror P K s
      = carambolas_net_socket_geterror P.errno (K.errno s.world) := by
    intro s
    simp [carambolas_net_socket_getlasterror, hP]
  have hinv : P.INVALID_SOCKET = -1 := by simp [Platform.INVALID_SOCKET, hP]
  refine ⟨?_, ?_, ?_, ?_, ?_, ?_, ?_, ?_, ?_, ?_, ?_⟩
  · intro s
    refine ⟨hle s, ?_, getlasterror_ne_success P K s hP, fun h => ?_⟩
    · rw [hle]; exact geterror_mem_neutral _ _
    · rw [hle]; exact geterror_unlisted _ _ h
  · intro s af sockfd h hf hh h1
    subst hh
    exact open_native_failure P K s af sockfd hf (by rw [hinv]; exact h1)
  · intro s sockfd level optname optval c p hc hr hp hk
    subst hc; subst hp
    exact setsockopt_primary_failure P K s sockfd level optname optval _ _ hP
      (by rw [← hr]) hk
  · intro s sockfd optval rp p t a hrp hp ht ha hp0
    constructor
    · intro hk
      subst hp; subst ht
      exact setsockopt_type_query_failure P K s sockfd _ _ optval rp hP hrp
        (convert_sockopt_ReuseAddress P _ _) hp0 hk
    · intro ht0 hty hk
      exact setsockopt_reuseport_failure P K s sockfd _ _ optval rp hP hrp
        (convert_sockopt_ReuseAddress P _ _) p t a hp ht ha hp0 ht0 hty hk
  · intro s sockfd level optname optval c hc hr
    subst hc
    exact getsockopt_native_failure P K s sockfd level optname optval _ _ hP (by rw [← hr])
  · intro s sockfd value r hr hk
    subst hr
    simp [carambolas_net_socket_setblocking, hP, hk]
  · intro s sockfd endpoint sa b g hf hsa hb hg
    have hbind : carambolas_net_socket_bind P K s sockfd endpoint
        = carambolas_net_socket_bind_sa P K s sockfd endpoint sa := by
      rcases hf with h | h
      · simp [carambolas_net_socket_bind, h, hsa]
      · simp [carambolas_net_socket_bind, h, hsa]
    subst hb; subst hg
    rw [hbind]
    exact bind_sa_native_failure P K s sockfd endpoint sa hP
  · intro s sockfd nbytes r hr hk
    subst hr
    simp [carambolas_net_socket_available, hk]
  · intro s sockfd microseconds mode result r hr hk
    subst hr
    simp [carambolas_net_socket_poll, hk]
  · intro s sockfd buffer offset size endpoint r hr hs hk
    subst hr
    have h1 : ¬size < wrapInt32 (native_recvfrom K s sockfd (buffer + offset) size
        P.MSG_TRUNC).1 := by omega
    have h2 : ¬0 ≤ wrapInt32 (native_recvfrom K s sockfd (buffer + offset) size
        P.MSG_TRUNC).1 := by omega
    simp [carambolas_net_socket_recvfrom, hP, h1, h2]
  · intro s sockfd buffer offset size nbytes endpoint sa r hf hsa hr hk
    subst hr
    have h2 : ¬0 ≤ wrapInt32 (native_sendto K s sockfd (buffer + offset) size 0 sa).1 := by
      omega
    rcases hf with h | h
    · simp [carambolas_net_socket_sendto, carambolas_net_socket_sendto_sa, h, hsa] at h2 ⊢
      simp [h2]
    · simp [carambolas_net_socket_sendto, carambolas_net_socket_sendto_sa, h, hsa] at h2 ⊢
      simp [h2]

/-- Witness for C19: on Linux an `errno` of 0 is reported as `-1`, and a `poll`
whose `select` fails with `errno` 4 (EINTR) returns 10004 (Interrupted) and
leaves the result output (9) alone. -/
theorem native_failure_reports_normalized_errno_witness :
    carambolas_net_socket_getlasterror linux scriptKernel (script [] ⟨0, 0, [], []⟩ 0 0) = -1
    ∧ carambolas_net_socket_poll linux scriptKernel (script [-1] ⟨0, 0, [], []⟩ 0 4)
        3 1000 0 9
      = (10004, 9, ⟨⟨[], ⟨0, 0, [], []⟩, 0, 4⟩, [Call.select 4 [3] 0 1000]⟩) :=
  ⟨((native_failure_reports_normalized_errno linux scriptKernel rfl).1
      (script [] ⟨0, 0, [], []⟩ 0 0)).2.2.2 (by decide),
    (native_failure_reports_normalized_errno linux scriptKernel rfl).2.2.2.2.2.2.2.2.1
      (script [-1] ⟨0, 0, [], []⟩ 0 4) 3 1000 0 9 _ rfl (by decide)⟩

/-! ## Purity of option resolution -/

/-- C20 (the code at the failing input): on Linux, where `HAVE_IPV6_PKTINFO` is
not defined, resolving (IPv6, PacketInformation) returns "resolved" (0) without
assigning the native name: the outcome keeps whatever the output location held
(111 or 222), so two calls on the same key differ.  Through `set_option`, whose
output locations are its own arguments, the native `setsockopt` then receives
the neutral number 19 as native name, which on Linux is `IPV6_MULTICAST_LOOP`. -/
theorem convert_sockopt_ipv6_pktinfo_name_unassigned :
    carambolas_net_convert_sockopt linux SocketOptionLevel_IPv6
        SocketOptionName_PacketInformation 0 111 = ⟨0, 41, 111⟩
    ∧ carambolas_net_convert_sockopt linux SocketOptionLevel_IPv6
        SocketOptionName_PacketInformation 0 222 = ⟨0, 41, 222⟩
    ∧ (carambolas_net_socket_setsockopt linux scriptKernel (script [0] ⟨0, 0, [], []⟩ 0 0) 3
        SocketOptionLevel_IPv6 SocketOptionName_PacketInformation 1).2.trace
      = [Call.setsockopt 3 41 19 (OptVal.int32 1)]
    ∧ linux.IPV6_MULTICAST_LOOP = 19 := by
  decide

/-! ## Poll -/

/-- C21: `poll` issues one native `select` whose read set holds the given handle
alone, with the timeout split into seconds and microseconds.  For every native
result `v`: when `v ≥ 0` the operation returns Success with `result = v` (so 0
or 1 when the native wait returns at most 1); when `v < 0` it returns the last
error (normalized, and never Success, on the POSIX variants) and leaves
`result` unchanged. -/
theorem poll_single_handle {W : Type} (P : Platform) (K : Kernel W) (s : Sys W)
    (sockfd microseconds mode result : Int) :
    ∀ r : Int × Sys W,
      r = native_select K s (sockfd + 1) [sockfd] (Int.tdiv microseconds 1000000)
            (Int.tmod microseconds 1000000) →
      r.2.trace = s.trace ++ [Call.select (sockfd + 1) [sockfd]
          (Int.tdiv microseconds 1000000) (Int.tmod microseconds 1000000)]
      ∧ (0 ≤ r.1 →
          carambolas_net_socket_poll P K s sockfd microseconds mode result = (0, r.1, r.2)
          ∧ (r.1 ≤ 1 → r.1 = 0 ∨ r.1 = 1))
      ∧ (r.1 < 0 →
          carambolas_net_socket_poll P K s sockfd microseconds mode result
            = (carambolas_net_socket_getlasterror P K r.2, result, r.2)
          ∧ (P.WINDOWS = false →
              (carambolas_net_socket_poll P K s sockfd microseconds mode result).1 ≠ 0)) := by
  intro r hr
  subst hr
  refine ⟨by simp [native_select], fun h => ⟨?_, fun h1 => by omega⟩, fun h => ?_⟩
  · have h' : ¬(native_select K s (sockfd + 1) [sockfd] (Int.tdiv microseconds 1000000)
        (Int.tmod microseconds 1000000)).1 < 0 := by omega
    simp [carambolas_net_socket_poll, h']
  · have hp : carambolas_net_socket_poll P K s sockfd microseconds mode result
        = (carambolas_net_socket_getlasterror P K
            (native_select K s (sockfd + 1) [sockfd] (Int.tdiv microseconds 1000000)
              (Int.tmod microseconds 1000000)).2, result,
            (native_select K s (sockfd + 1) [sockfd] (Int.tdiv microseconds 1000000)
              (Int.tmod microseconds 1000000)).2) := by
      simp [carambolas_net_socket_poll, h]
    refine ⟨hp, fun hP => ?_⟩
    rw [hp]
    exact getlasterror_ne_success P K _ hP

/-- Witness for C21: on Linux, polling socket 3 for 1500000 microseconds when
one datagram is readable returns Success and 1 after
`select(4, {3}, NULL, NULL, {1 s, 500000 us})`; when `select` fails with
`errno` 9 (EBADF) it returns 995 and leaves the result output (7) alone. -/
theorem poll_single_handle_witness :
    carambolas_net_socket_poll linux scriptKernel (script [1] ⟨0, 0, [], []⟩ 0 0)
        3 1500000 0 7
      = (0, 1, ⟨⟨[], ⟨0, 0, [], []⟩, 0, 0⟩, [Call.select 4 [3] 1 500000]⟩)
    ∧ carambolas_net_socket_poll linux scriptKernel (script [-1] ⟨0, 0, [], []⟩ 0 9)
        3 1500000 0 7
      = (995, 7, ⟨⟨[], ⟨0, 0, [], []⟩, 0, 9⟩, [Call.select 4 [3] 1 500000]⟩) :=
  ⟨((poll_single_handle linux scriptKernel (script [1] ⟨0, 0, [], []⟩ 0 0) 3 1500000 0 7
      _ rfl).2.1 (by decide)).1,
    ((poll_single_handle linux scriptKernel (script [-1] ⟨0, 0, [], []⟩ 0 9) 3 1500000 0 7
      _ rfl).2.2 (by decide)).1⟩

/-- C29: `poll` does not depend on its `mode` argument: two calls that differ
only in `mode` issue the same native `select` (read set only) and return the
same code, result and system. -/
theorem poll_ignores_mode {W : Type} (P : Platform) (K : Kernel W) (s : Sys W)
    (sockfd microseconds mode1 mode2 result : Int) :
    carambolas_net_socket_poll P K s sockfd microseconds mode1 result
      = carambolas_net_socket_poll P K s sockfd microseconds mode2 result
    ∧ (carambolas_net_socket_poll P K s sockfd microseconds mode1 result).2.2.trace
      = s.trace ++ [Call.select (sockfd + 1) [sockfd] (Int.tdiv microseconds 1000000)
          (Int.tmod microseconds 1000000)] := by
  refine ⟨rfl, ?_⟩
  simp only [carambolas_net_socket_poll]
  split <;> simp [native_select]

/-! ## Ignorable and unsupported keys -/

/-- C26: on a POSIX variant, `get_option` on a key that resolves as "ignorable"
(`-2`) returns Success with the system (world and trace of native calls)
unchanged and without writing the output value. -/
theorem ignorable_option_get_leaves_value {W : Type} (P : Platform) (K : Kernel W)
    (s : Sys W) (sockfd level optname optval l0 n0 : Int) (hP : P.WINDOWS = false)
    (hr : (carambolas_net_convert_sockopt P level optname l0 n0).r = -2) :
    carambolas_net_socket_getsockopt P K s sockfd level optname optval = (0, optval, s) := by
  have h : (carambolas_net_convert_sockopt P level optname level optname).r = -2 := by
    rw [convert_sockopt_r_indep P level optname level optname l0 n0]; exact hr
  simp [carambolas_net_socket_getsockopt, hP, h]

/-- Witness for C26: on Linux and macOS the key (Socket, ExclusiveAddressUse)
is ignorable, and getting it leaves the value location (holding 42) alone. -/
theorem ignorable_option_get_leaves_value_witness :
    (carambolas_net_convert_sockopt linux 65535 (-5) 0 0).r = -2
    ∧ carambolas_net_socket_getsockopt linux scriptKernel (script [0] ⟨0, 0, [], []⟩ 9 0)
        3 65535 (-5) 42
      = (0, 42, script [0] ⟨0, 0, [], []⟩ 9 0)
    ∧ carambolas_net_socket_getsockopt osx scriptKernel (script [0] ⟨0, 0, [], []⟩ 9 0)
        3 65535 (-5) 42
      = (0, 42, script [0] ⟨0, 0, [], []⟩ 9 0) :=
  ⟨by decide,
    ignorable_option_get_leaves_value linux scriptKernel _ 3 65535 (-5) 42 0 0 rfl (by decide),
    ignorable_option_get_leaves_value osx scriptKernel _ 3 65535 (-5) 42 0 0 rfl (by decide)⟩

theorem convert_sockopt_Udp (P : Platform) (optname l0 n0 : Int) :
    carambolas_net_convert_sockopt P SocketOptionLevel_Udp optname l0 n0
      = ⟨-1, P.IPPROTO_UDP, n0⟩ := rfl

theorem convert_sockopt_Tcp (P : Platform) (optname l0 n0 : Int) :
    carambolas_net_convert_sockopt P SocketOptionLevel_Tcp optname l0 n0
      = if optname = SocketOptionName_NoDelay then ⟨0, P.IPPROTO_TCP, P.TCP_NODELAY⟩
        else ⟨-1, P.IPPROTO_TCP, n0⟩ := rfl

theorem convert_sockopt_unknown_level (P : Platform) (level optname l0 n0 : Int)
    (h : level ∉ [0, 6, 17, 41, 65535]) :
    carambolas_net_convert_sockopt P level optname l0 n0 = ⟨-1, l0, n0⟩ := by
  simp only [List.mem_cons, List.mem_singleton, List.not_mem_nil, or_false, not_or] at h
  unfold carambolas_net_convert_sockopt
  rw [if_neg h.2.2.2.2, if_neg h.1, if_neg h.2.2.2.1, if_neg h.2.1, if_neg h.2.2.1]

/-- C30: option resolution is "unsupported" (`-1`) for every name at the UDP
level (17), for every name other than NoDelay (1) at the TCP level (6), where
NoDelay resolves to `(IPPROTO_TCP, TCP_NODELAY)`, and for every level outside
`{0, 6, 17, 41, 65535}`; hence on a POSIX variant `set_option` and `get_option`
return OperationNotSupported (10045) for all such keys, with the system and
the output value unchanged. -/
theorem udp_tcp_unknown_levels_unsupported {W : Type} (P : Platform) (K : Kernel W)
    (s : Sys W) (sockfd level optname optval l0 n0 : Int) :
    (carambolas_net_convert_sockopt P 17 optname l0 n0).r = -1
    ∧ (optname ≠ 1 → (carambolas_net_convert_sockopt P 6 optname l0 n0).r = -1)
    ∧ carambolas_net_convert_sockopt P 6 1 l0 n0 = ⟨0, P.IPPROTO_TCP, P.TCP_NODELAY⟩
    ∧ (level ∉ [0, 6, 17, 41, 65535] →
        (carambolas_net_convert_sockopt P level optname l0 n0).r = -1)
    ∧ (P.WINDOWS = false →
        level = 17 ∨ (level = 6 ∧ optname ≠ 1) ∨ level ∉ [0, 6, 17, 41, 65535] →
        carambolas_net_socket_setsockopt P K s sockfd level optname optval = (10045, s)
        ∧ carambolas_net_socket_getsockopt P K s sockfd level optname optval
            = (10045, optval, s)) := by
  refine ⟨by rw [convert_sockopt_Udp], fun h => ?_, by rw [convert_sockopt_Tcp]; rfl,
    fun h => by rw [convert_sockopt_unknown_level P level optname l0 n0 h], fun hP hk => ?_⟩
  · rw [convert_sockopt_Tcp, if_neg h]
  · have hr : (carambolas_net_convert_sockopt P level optname level optname).r = -1 := by
      rcases hk with hk | ⟨hk, hn⟩ | hk
      · subst hk; rw [convert_sockopt_Udp]
      · subst hk; rw [convert_sockopt_Tcp, if_neg hn]
      · rw [convert_sockopt_unknown_level P level optname _ _ hk]
    constructor
    · simp [carambolas_net_socket_setsockopt, hP, hr]
    · simp [carambolas_net_socket_getsockopt, hP, hr]

/-- Witness for C30: on Linux the keys (UDP, ChecksumCoverage), (TCP,
Expedited) and (level 255, name 1) are refused by `set_option`. -/
theorem udp_tcp_unknown_levels_unsupported_witness :
    carambolas_net_socket_setsockopt linux scriptKernel (script [0] ⟨0, 0, [], []⟩ 0 0)
        3 17 20 1 = (10045, script [0] ⟨0, 0, [], []⟩ 0 0)
    ∧ carambolas_net_socket_setsockopt linux scriptKernel (script [0] ⟨0, 0, [], []⟩ 0 0)
        3 6 2 1 = (10045, script [0] ⟨0, 0, [], []⟩ 0 0)
    ∧ carambolas_net_socket_getsockopt linux scriptKernel (script [0] ⟨0, 0, [], []⟩ 0 0)
        3 255 1 8 = (10045, 8, script [0] ⟨0, 0, [], []⟩ 0 0) :=
  ⟨((udp_tcp_unknown_levels_unsupported linux scriptKernel _ 3 17 20 1 0 0).2.2.2.2 rfl
      (Or.inl rfl)).1,
    ((udp_tcp_unknown_levels_unsupported linux scriptKernel _ 3 6 2 1 0 0).2.2.2.2 rfl
      (Or.inr (Or.inl ⟨rfl, by decide⟩))).1,
    ((udp_tcp_unknown_levels_unsupported linux scriptKernel _ 3 255 1 8 0 0).2.2.2.2 rfl
      (Or.inr (Or.inr (by decide)))).2⟩

/-! ## The last-error option on a socket without a pending error -/

/-- `get_option` on (Socket, Error) whose native read succeeds with `e` delivers
`geterror(e)` (shared by the statements about this option). -/
theorem getsockopt_Error_delivers {W : Type} (P : Platform) (K : Kernel W) (s : Sys W)
    (sockfd out e : Int) (w' : W) (hP : P.WINDOWS = false)
    (hd : P.SO_ERROR ∉ [P.SO_RCVTIMEO, P.SO_SNDTIMEO])
    (hk : K.getsockopt_int32 s.world sockfd P.SOL_SOCKET P.SO_ERROR = (0, e, w')) :
    carambolas_net_socket_getsockopt P K s sockfd SocketOptionLevel_Socket
        SocketOptionName_Error out
      = (0, carambolas_net_socket_geterror P.errno e,
          ⟨w', s.trace ++ [Call.getsockopt sockfd P.SOL_SOCKET P.SO_ERROR OptBuf.int32]⟩) := by
  simp only [List.mem_cons, List.mem_singleton, List.not_mem_nil, or_false, not_or] at hd
  simp [carambolas_net_socket_getsockopt, hP, convert_sockopt_Error, hd.1, hd.2,
    native_getsockopt_int32, hk]

/-- C25: on a POSIX variant (no `errno` constant being 0, `SO_ERROR` not being
the number of a timeout option), `carambolas_net_socket_geterror(0)` is the
generic error `-1`; so a successful `get_option(Socket, Error)` on a socket
without a pending error (native value 0) delivers `-1`, not the Success
sentinel 0; and whatever the native value, the value delivered is never 0. -/
theorem getsockopt_error_never_success {W : Type} (P : Platform) (K : Kernel W) (s : Sys W)
    (sockfd out : Int) (hP : P.WINDOWS = false)
    (hd : P.SO_ERROR ∉ [P.SO_RCVTIMEO, P.SO_SNDTIMEO])
    (h0 : (0 : Int) ∉ geterror_labels P.errno) :
    carambolas_net_socket_geterror P.errno 0 = -1
    ∧ (∀ w' : W, K.getsockopt_int32 s.world sockfd P.SOL_SOCKET P.SO_ERROR = (0, 0, w') →
        carambolas_net_socket_getsockopt P K s sockfd SocketOptionLevel_Socket
            SocketOptionName_Error out
          = (0, -1, ⟨w', s.trace
              ++ [Call.getsockopt sockfd P.SOL_SOCKET P.SO_ERROR OptBuf.int32]⟩))
    ∧ (∀ (e : Int) (w' : W),
        K.getsockopt_int32 s.world sockfd P.SOL_SOCKET P.SO_ERROR = (0, e, w') →
        (carambolas_net_socket_getsockopt P K s sockfd SocketOptionLevel_Socket
            SocketOptionName_Error out).1 = 0
        ∧ (carambolas_net_socket_getsockopt P K s sockfd SocketOptionLevel_Socket
            SocketOptionName_Error out).2.1 ≠ 0) := by
  have hz := geterror_unlisted P.errno 0 h0
  refine ⟨hz, fun w' hk => ?_, fun e w' hk => ?_⟩
  · rw [getsockopt_Error_delivers P K s sockfd out 0 w' hP hd hk, hz]
  · rw [getsockopt_Error_delivers P K s sockfd out e w' hP hd hk]
    exact ⟨rfl, geterror_ne_success _ _⟩

/-- Witness for C25: on Linux and macOS a socket without a pending error
(native value 0) delivers `-1` for (Socket, Error). -/
theorem getsockopt_error_never_success_witness :
    carambolas_net_socket_geterror linuxErrno 0 = -1
    ∧ carambolas_net_socket_getsockopt linux scriptKernel (script [0] ⟨0, 0, [], []⟩ 0 0)
        3 65535 4103 5
      = (0, -1, ⟨⟨[], ⟨0, 0, [], []⟩, 0, 0⟩, [Call.getsockopt 3 1 4 OptBuf.int32]⟩)
    ∧ carambolas_net_socket_getsockopt osx scriptKernel (script [0] ⟨0, 0, [], []⟩ 0 0)
        3 65535 4103 5
      = (0, -1, ⟨⟨[], ⟨0, 0, [], []⟩, 0, 0⟩, [Call.getsockopt 3 65535 4103 OptBuf.int32]⟩) :=
  ⟨(getsockopt_error_never_success linux scriptKernel (script [0] ⟨0, 0, [], []⟩ 0 0) 3 5
      rfl (by decide) (by decide)).1,
    (getsockopt_error_never_success linux scriptKernel (script [0] ⟨0, 0, [], []⟩ 0 0) 3 5
      rfl (by decide) (by decide)).2.1 _ rfl,
    (getsockopt_error_never_success osx scriptKernel (script [0] ⟨0, 0, [], []⟩ 0 0) 3 5
      rfl (by decide) (by decide)).2.1 _ rfl⟩

/-! ## Blocking mode -/

/-- C22 (the code at the failing input): on Linux, `set_blocking` with value 1
(blocking) and with value 0 both issue `fcntl(3, F_SETFL, O_NONBLOCK, flag)`.
The computed flag `(value + 1) & 1` (0 resp. 1) is only the argument after the
status flags, which `F_SETFL` does not read: what the native layer reads is
the same request, "set `O_NONBLOCK`", for both values, so value 1 does not
clear non-blocking mode.  On Windows the flag is the argument of `FIONBIO` and
the two requests differ. -/
theorem setblocking_posix_request_same_for_both_values :
    (carambolas_net_socket_setblocking linux scriptKernel (script [0] ⟨0, 0, [], []⟩ 0 0)
        3 1).2.trace = [Call.fcntl 3 4 2048 0]
    ∧ (carambolas_net_socket_setblocking linux scriptKernel (script [0] ⟨0, 0, [], []⟩ 0 0)
        3 0).2.trace = [Call.fcntl 3 4 2048 1]
    ∧ linux.F_SETFL = 4 ∧ linux.O_NONBLOCK = 2048
    ∧ (carambolas_net_socket_setblocking linux scriptKernel (script [0] ⟨0, 0, [], []⟩ 0 0)
        3 1).2.trace.map Call.read
      = (carambolas_net_socket_setblocking linux scriptKernel
          (script [0] ⟨0, 0, [], []⟩ 0 0) 3 0).2.trace.map Call.read
    ∧ (carambolas_net_socket_setblocking windows scriptKernel
        (script [0] ⟨0, 0, [], []⟩ 0 0) 3 1).2.trace.map Call.read
      = [Call.ioctlsocket 3 0x8004667e 0]
    ∧ (carambolas_net_socket_setblocking windows scriptKernel
        (script [0] ⟨0, 0, [], []⟩ 0 0) 3 0).2.trace.map Call.read
      = [Call.ioctlsocket 3 0x8004667e 1] := by
  decide

/-! ## Bind on Windows -/

/-- C23: on the Windows variant, when the native `bind` and `getsockname`
succeed, `bind` issues `ioctlsocket(SIO_UDP_CONNRESET)` with value 0.  If that
step fails, `bind` returns the last native error (not Success, the last error
of a failed call being nonzero) although the socket is bound, and the caller's
endpoint has already been replaced by the bound address; if it succeeds,
`bind` returns Success. -/
theorem bind_windows_connreset_step {W : Type} (P : Platform) (K : Kernel W) (s : Sys W)
    (sockfd : Int) (endpoint : carambolas_net_socket_endpoint_t)
    (hP : P.WINDOWS = true) (hf : endpoint.family = 2 ∨ endpoint.family = 23) :
    ∀ (sa : sockaddr) (b : Int × Sys W) (g : Int × sockaddr_storage × Sys W)
        (i : Int × Sys W),
      sa = (if endpoint.family = 2
            then sockaddr.in4 (carambolas_net_socket_sockaddr_in P endpoint)
            else sockaddr.in6 (carambolas_net_socket_sockaddr_in6 P endpoint)) →
      b = native_bind K s sockfd sa →
      g = native_getsockname K b.2 sockfd →
      i = native_ioctlsocket K g.2.2 sockfd (SIO_UDP_CONNRESET P) 0 →
      b.1 = 0 → g.1 = 0 →
      (i.1 ≠ 0 →
        carambolas_net_socket_bind P K s sockfd endpoint
          = (K.errno i.2.world, carambolas_net_socket_endpoint P g.2.1, i.2)
        ∧ (K.errno i.2.world ≠ 0 →
            (carambolas_net_socket_bind P K s sockfd endpoint).1 ≠ 0))
      ∧ (i.1 = 0 →
        carambolas_net_socket_bind P K s sockfd endpoint
          = (0, carambolas_net_socket_endpoint P g.2.1, i.2))
      ∧ i.2.trace = s.trace ++ [Call.bind sockfd sa, Call.getsockname sockfd,
          Call.ioctlsocket sockfd (SIO_UDP_CONNRESET P) 0] := by
  intro sa b g i hsa hb hg hi hb0 hg0
  have hbind : carambolas_net_socket_bind P K s sockfd endpoint
      = carambolas_net_socket_bind_sa P K s sockfd endpoint sa := by
    rcases hf with h | h
    · simp [carambolas_net_socket_bind, h, hsa]
    · simp [carambolas_net_socket_bind, h, hsa]
  subst hb; subst hg; subst hi
  refine ⟨fun hi0 => ?_, fun hi0 => ?_, by simp [native_bind, native_getsockname,
    native_ioctlsocket]⟩
  · have hb' : carambolas_net_socket_bind P K s sockfd endpoint
        = (K.errno (native_ioctlsocket K (native_getsockname K (native_bind K s sockfd sa).2
              sockfd).2.2 sockfd (SIO_UDP_CONNRESET P) 0).2.world,
            carambolas_net_socket_endpoint P
              (native_getsockname K (native_bind K s sockfd sa).2 sockfd).2.1,
            (native_ioctlsocket K (native_getsockname K (native_bind K s sockfd sa).2
              sockfd).2.2 sockfd (SIO_UDP_CONNRESET P) 0).2) := by
      rw [hbind]
      simp [carambolas_net_socket_bind_sa, carambolas_net_socket_getsockname, hb0, hg0, hP,
        hi0, carambolas_net_socket_getlasterror]
    exact ⟨hb', fun hne => by rw [hb']; exact hne⟩
  · rw [hbind]
    simp [carambolas_net_socket_bind_sa, carambolas_net_socket_getsockname, hb0, hg0, hP, hi0]

/-- Witness for C23: on Windows, binding 0.0.0.0 port 0 when the system assigns
port 8080 and `SIO_UDP_CONNRESET` (0x9800000C) fails with last error 10022
returns 10022 with the endpoint already `0.0.0.0:8080`; when the step succeeds
the result is Success. -/
theorem bind_windows_connreset_step_witness :
    carambolas_net_socket_bind windows scriptKernel
        (script [0, 0, -1] ⟨2, 36895, [0, 0, 0, 0], []⟩ 0 10022) 3 ⟨List.replicate 16 0, 2, 0⟩
      = (10022, ⟨List.replicate 16 0, 2, 8080⟩,
          ⟨⟨[], ⟨2, 36895, [0, 0, 0, 0], []⟩, 0, 10022⟩,
            [Call.bind 3 (sockaddr.in4 ⟨2, 0, [0, 0, 0, 0]⟩), Call.getsockname 3,
              Call.ioctlsocket 3 0x9800000C 0]⟩)
    ∧ (carambolas_net_socket_bind windows scriptKernel
        (script [0, 0, 0] ⟨2, 36895, [0, 0, 0, 0], []⟩ 0 0) 3 ⟨List.replicate 16 0, 2, 0⟩).1
      = 0 :=
  ⟨((bind_windows_connreset_step windows scriptKernel
        (script [0, 0, -1] ⟨2, 36895, [0, 0, 0, 0], []⟩ 0 10022) 3
        ⟨List.replicate 16 0, 2, 0⟩ rfl (Or.inl rfl) _ _ _ _ rfl rfl rfl rfl rfl rfl).1
        (by decide)).1,
    congrArg Prod.fst ((bind_windows_connreset_step windows scriptKernel
        (script [0, 0, 0] ⟨2, 36895, [0, 0, 0, 0], []⟩ 0 0) 3
        ⟨List.replicate 16 0, 2, 0⟩ rfl (Or.inl rfl) _ _ _ _ rfl rfl rfl rfl rfl rfl).2.1
        rfl)⟩

/-! ## Address reuse: no failure is ignored -/

/-- C24 (counterexample): on Linux, when the primary native set of ReuseAddress
succeeds and the native socket-type query fails (`errno` 9, EBADF),
`set_option` does not return Success: it returns 995, the normalized last
error, after the two native calls. -/
theorem reuseaddr_type_query_failure_reported :
    carambolas_net_socket_setsockopt linux scriptKernel (script [0, -1] ⟨0, 0, [], []⟩ 0 9)
        3 SocketOptionLevel_Socket SocketOptionName_ReuseAddress 1
      = (995, ⟨⟨[], ⟨0, 0, [], []⟩, 0, 9⟩,
          [Call.setsockopt 3 1 2 (OptVal.int32 1), Call.getsockopt 3 1 3 OptBuf.int32]⟩)
    ∧ (carambolas_net_socket_setsockopt linux scriptKernel
        (script [0, -1] ⟨0, 0, [], []⟩ 0 9) 3 SocketOptionLevel_Socket
        SocketOptionName_ReuseAddress 1).1 ≠ 0 := by
  decide

/-- C24 (amended): on a POSIX variant that defines `SO_REUSEPORT`, no failure
inside `set_option(Socket, ReuseAddress)` is ignored.  If the primary native
set succeeds and the native socket-type query fails, `set_option` returns the
normalized last error, which is not Success, and no port-reuse call is
attempted.  The operation returns Success exactly when the primary set and the
type query succeed and either the type is neither `SOCK_DGRAM` nor
`SOCK_STREAM` or the port-reuse set succeeds. -/
theorem reuseaddr_no_failure_ignored {W : Type} (P : Platform) (K : Kernel W) (s : Sys W)
    (sockfd v rp : Int) (hP : P.WINDOWS = false) (hrp : P.SO_REUSEPORT = some rp) :
    ∀ (p : Int × Sys W) (t : Int × Int × Sys W) (a : Int × Sys W),
      p = native_setsockopt K s sockfd P.SOL_SOCKET P.SO_REUSEADDR
            (setsockopt_optptr P P.SOL_SOCKET P.SO_REUSEADDR v) →
      t = native_getsockopt_int32 K p.2 sockfd P.SOL_SOCKET P.SO_TYPE →
      a = native_setsockopt K t.2.2 sockfd P.SOL_SOCKET rp
            (setsockopt_optptr P P.SOL_SOCKET P.SO_REUSEADDR v) →
      (p.1 = 0 → t.1 ≠ 0 →
        carambolas_net_socket_setsockopt P K s sockfd SocketOptionLevel_Socket
            SocketOptionName_ReuseAddress v
          = (carambolas_net_socket_getlasterror P K t.2.2, t.2.2)
        ∧ (carambolas_net_socket_setsockopt P K s sockfd SocketOptionLevel_Socket
            SocketOptionName_ReuseAddress v).1 ≠ 0
        ∧ t.2.2.trace = s.trace
            ++ [Call.setsockopt sockfd P.SOL_SOCKET P.SO_REUSEADDR
                  (setsockopt_optptr P P.SOL_SOCKET P.SO_REUSEADDR v),
                Call.getsockopt sockfd P.SOL_SOCKET P.SO_TYPE OptBuf.int32])
      ∧ ((carambolas_net_socket_setsockopt P K s sockfd SocketOptionLevel_Socket
            SocketOptionName_ReuseAddress v).1 = 0
          ↔ p.1 = 0 ∧ t.1 = 0
            ∧ ((t.2.1 ≠ P.SOCK_DGRAM ∧ t.2.1 ≠ P.SOCK_STREAM) ∨ a.1 = 0)) := by
  intro p t a hp ht ha
  have hne : ∀ s' : Sys W, carambolas_net_socket_getlasterror P K s' ≠ 0 :=
    fun s' => getlasterror_ne_success P K s' hP
  constructor
  · intro hp0 ht0
    have hset := setsockopt_type_query_failure P K s sockfd SocketOptionLevel_Socket
      SocketOptionName_ReuseAddress v rp hP hrp (convert_sockopt_ReuseAddress P _ _)
      (by rw [← hp]; exact hp0) (by rw [← hp, ← ht]; exact ht0)
    rw [← hp, ← ht] at hset
    refine ⟨hset, by rw [hset]; exact hne _, ?_⟩
    subst hp; subst ht
    simp [native_setsockopt, native_getsockopt_int32]
  · subst hp; subst ht; subst ha
    simp only [carambolas_net_socket_setsockopt, hP, convert_sockopt_ReuseAddress, hrp,
      if_true, Bool.false_eq_true, if_false, and_self]
    split_ifs with h1 h2 h3 h4
    · simp [h1, h2, h3]
    · simp [h1, h2, h4, h3]
    · simp [h1, h2, h4, h3, hne]
    · simp [h1, h2, hne]
    · simp [h1, hne]

/-- Witness for C24 (amended): on Linux, a datagram socket whose type query
succeeds and whose `SO_REUSEPORT` set succeeds gives Success; with a failing
type query (`errno` 9) the result is 995 and `SO_REUSEPORT` is not set. -/
theorem reuseaddr_no_failure_ignored_witness :
    (carambolas_net_socket_setsockopt linux scriptKernel (script [0, 0, 0] ⟨0, 0, [], []⟩ 2 0)
        3 65535 4 1).1 = 0
    ∧ carambolas_net_socket_setsockopt linux scriptKernel (script [0, -1] ⟨0, 0, [], []⟩ 2 9)
        3 65535 4 1
      = (995, ⟨⟨[], ⟨0, 0, [], []⟩, 2, 9⟩,
          [Call.setsockopt 3 1 2 (OptVal.int32 1), Call.getsockopt 3 1 3 OptBuf.int32]⟩) :=
  ⟨((reuseaddr_no_failure_ignored linux scriptKernel (script [0, 0, 0] ⟨0, 0, [], []⟩ 2 0)
      3 1 15 rfl rfl _ _ _ rfl rfl rfl).2).mpr (by decide),
    ((reuseaddr_no_failure_ignored linux scriptKernel (script [0, -1] ⟨0, 0, [], []⟩ 2 9)
      3 1 15 rfl rfl _ _ _ rfl rfl rfl).1 rfl (by decide)).1⟩

/-! ## Receive: the three outcomes -/

/-- C27 (counterexample): on Linux, with a buffer of 4 bytes, a native receive
that fails (`-1`) with `errno` 90 (EMSGSIZE) makes `recv_from` return the
MessageSize code 10040 although the native result is negative: the normalized
last error is the same number as the truncation outcome.  The endpoint is
unchanged and `bytes_read` is `-1`. -/
theorem recvfrom_failure_may_return_messagesize :
    carambolas_net_socket_recvfrom linux scriptKernel
        (script [-1] ⟨2, 36895, [127, 0, 0, 1], []⟩ 0 90) 3 4096 0 4 endpoint_zero
      = (10040, endpoint_zero, -1,
          ⟨⟨[], ⟨2, 36895, [127, 0, 0, 1], []⟩, 0, 90⟩, [Call.recvfrom 3 4096 4 32]⟩) := by
  decide

/-- C27 (amended): on a POSIX variant, for every `size ≥ 0` and every 32-bit
native receive result `n`: `recv_from` returns Success, or MessageSize with
`bytes_read ≥ 0`, exactly when `n ≥ 0`, and then `bytes_read = min(n, size)`,
`0 ≤ bytes_read ≤ size`, the endpoint is the converted source address, and the
code is Success if and only if `n ≤ size`; when `n < 0` it returns the
normalized last error (never Success), the endpoint is unchanged and
`bytes_read` holds the negative native result. -/
theorem recvfrom_outcomes {W : Type} (P : Platform) (K : Kernel W) (s : Sys W)
    (sockfd buffer offset size n : Int) (endpoint : carambolas_net_socket_endpoint_t)
    (sas : sockaddr_storage) (w' : W) (hP : P.WINDOWS = false)
    (hk : K.recvfrom s.world sockfd (buffer + offset) size P.MSG_TRUNC = (n, sas, w'))
    (hs : 0 ≤ size) (hn0 : -(2 ^ 31) ≤ n) (hn1 : n < 2 ^ 31) :
    (0 ≤ n →
      carambolas_net_socket_recvfrom P K s sockfd buffer offset size endpoint
        = (if n ≤ size then 0 else 10040, carambolas_net_socket_endpoint P sas, min n size,
            ⟨w', s.trace ++ [Call.recvfrom sockfd (buffer + offset) size P.MSG_TRUNC]⟩)
      ∧ 0 ≤ min n size ∧ min n size ≤ size)
    ∧ (n < 0 →
      carambolas_net_socket_recvfrom P K s sockfd buffer offset size endpoint
        = (carambolas_net_socket_getlasterror P K
            ⟨w', s.trace ++ [Call.recvfrom sockfd (buffer + offset) size P.MSG_TRUNC]⟩,
            endpoint, n,
            ⟨w', s.trace ++ [Call.recvfrom sockfd (buffer + offset) size P.MSG_TRUNC]⟩)
      ∧ (carambolas_net_socket_recvfrom P K s sockfd buffer offset size endpoint).1 ≠ 0)
    ∧ (((carambolas_net_socket_recvfrom P K s sockfd buffer offset size endpoint).1 = 0
        ∨ ((carambolas_net_socket_recvfrom P K s sockfd buffer offset size endpoint).1 = 10040
          ∧ 0 ≤ (carambolas_net_socket_recvfrom P K s sockfd buffer offset size
              endpoint).2.2.1))
      ↔ 0 ≤ n) := by
  have hw : wrapInt32 n = n := wrapInt32_of_int32 n hn0 hn1
  have hpos : 0 ≤ n →
      carambolas_net_socket_recvfrom P K s sockfd buffer offset size endpoint
        = (if n ≤ size then 0 else 10040, carambolas_net_socket_endpoint P sas, min n size,
            ⟨w', s.trace ++ [Call.recvfrom sockfd (buffer + offset) size P.MSG_TRUNC]⟩) := by
    intro h0
    by_cases hle : n ≤ size
    · have h1 : ¬size < n := by omega
      simp [carambolas_net_socket_recvfrom, hP, native_recvfrom, hk, hw, h1, h0, hle]
    · have h1 : size < n := by omega
      have h2 : min n size = size := by omega
      simp [carambolas_net_socket_recvfrom, hP, native_recvfrom, hk, hw, h1, hle, h2]
  have hneg : n < 0 →
      carambolas_net_socket_recvfrom P K s sockfd buffer offset size endpoint
        = (carambolas_net_socket_getlasterror P K
            ⟨w', s.trace ++ [Call.recvfrom sockfd (buffer + offset) size P.MSG_TRUNC]⟩,
            endpoint, n,
            ⟨w', s.trace ++ [Call.recvfrom sockfd (buffer + offset) size P.MSG_TRUNC]⟩) := by
    intro h0
    have h1 : ¬size < n := by omega
    have h2 : ¬0 ≤ n := by omega
    simp [carambolas_net_socket_recvfrom, hP, native_recvfrom, hk, hw, h1, h2]
  refine ⟨fun h0 => ⟨hpos h0, by omega, by omega⟩,
    fun h0 => ⟨hneg h0, by rw [hneg h0]; exact getlasterror_ne_success P K _ hP⟩, ?_⟩
  by_cases h0 : 0 ≤ n
  · rw [hpos h0]
    by_cases hle : n ≤ size
    · simp [hle, h0]
    · have h2 : min n size = size := by omega
      simp [hle, h0, h2, hs]
  · have h0' : n < 0 := by omega
    rw [hneg h0']
    have hne := getlasterror_ne_success P K
      ⟨w', s.trace ++ [Call.recvfrom sockfd (buffer + offset) size P.MSG_TRUNC]⟩ hP
    simp [h0, hne]

/-- Witness for C27 (amended): on Linux with a buffer of 4 bytes, a datagram of
3 bytes gives Success and 3 bytes, one of 100 bytes gives MessageSize and 4
bytes, and a failure with `errno` 11 (EAGAIN) gives 10035 with `-1`. -/
theorem recvfrom_outcomes_witness :
    carambolas_net_socket_recvfrom linux scriptKernel
        (script [3] ⟨2, 36895, [127, 0, 0, 1], []⟩ 0 0) 3 4096 0 4 endpoint_zero
      = (0, ⟨[0, 0, 0, 0, 0, 0, 0, 0, 0, 0, 0, 0, 127, 0, 0, 1], 2, 8080⟩, 3,
          ⟨⟨[], ⟨2, 36895, [127, 0, 0, 1], []⟩, 0, 0⟩, [Call.recvfrom 3 4096 4 32]⟩)
    ∧ carambolas_net_socket_recvfrom linux scriptKernel
        (script [100] ⟨2, 36895, [127, 0, 0, 1], []⟩ 0 0) 3 4096 0 4 endpoint_zero
      = (10040, ⟨[0, 0, 0, 0, 0, 0, 0, 0, 0, 0, 0, 0, 127, 0, 0, 1], 2, 8080⟩, 4,
          ⟨⟨[], ⟨2, 36895, [127, 0, 0, 1], []⟩, 0, 0⟩, [Call.recvfrom 3 4096 4 32]⟩)
    ∧ carambolas_net_socket_recvfrom linux scriptKernel
        (script [-1] ⟨2, 36895, [127, 0, 0, 1], []⟩ 0 11) 3 4096 0 4 endpoint_zero
      = (10035, endpoint_zero, -1,
          ⟨⟨[], ⟨2, 36895, [127, 0, 0, 1], []⟩, 0, 11⟩, [Call.recvfrom 3 4096 4 32]⟩) :=
  ⟨((recvfrom_outcomes linux scriptKernel (script [3] ⟨2, 36895, [127, 0, 0, 1], []⟩ 0 0)
      3 4096 0 4 3 endpoint_zero _ _ rfl rfl (by decide) (by decide) (by decide)).1
      (by decide)).1,
    ((recvfrom_outcomes linux scriptKernel (script [100] ⟨2, 36895, [127, 0, 0, 1], []⟩ 0 0)
      3 4096 0 4 100 endpoint_zero _ _ rfl rfl (by decide) (by decide) (by decide)).1
      (by decide)).1,
    ((recvfrom_outcomes linux scriptKernel (script [-1] ⟨2, 36895, [127, 0, 0, 1], []⟩ 0 11)
      3 4096 0 4 (-1) endpoint_zero _ _ rfl rfl (by decide) (by decide) (by decide)).2.1
      (by decide)).1⟩

/-! ## Error normalization reaches an IP-level option -/

/-- C28 (the code at the failing input): on Linux the key (IP, IPOptions)
resolves to `(IPPROTO_IP, IP_OPTIONS) = (0, 4)`, and 4 is also `SO_ERROR`.  The
test `optname == SO_ERROR` of `get_option` has no level check, so a successful
read of this IP-level option with native value 7 delivers `geterror(7) = -1`
instead of 7; the native value 111 would be delivered as 10061. -/
theorem getsockopt_ip_options_normalized_on_linux :
    carambolas_net_convert_sockopt linux SocketOptionLevel_IP SocketOptionName_IPOptions 0 1
      = ⟨0, 0, 4⟩
    ∧ linux.SO_ERROR = 4 ∧ linux.SOL_SOCKET = 1
    ∧ carambolas_net_socket_getsockopt linux scriptKernel (script [0] ⟨0, 0, [], []⟩ 7 0)
        3 SocketOptionLevel_IP SocketOptionName_IPOptions 5
      = (0, -1, ⟨⟨[], ⟨0, 0, [], []⟩, 7, 0⟩, [Call.getsockopt 3 0 4 OptBuf.int32]⟩)
    ∧ (carambolas_net_socket_getsockopt linux scriptKernel (script [0] ⟨0, 0, [], []⟩ 111 0)
        3 SocketOptionLevel_IP SocketOptionName_IPOptions 5).2.1 = 10061 := by
  decide

end Carambolas
